import Mathlib

/-!
# JOS system-call layer: mapping primitives and IPC rendezvous

A shallow embedding of `kern/syscall.c` (functions `sys_page_alloc`,
`sys_page_map`, `sys_page_unmap`, `sys_ipc_try_send`, `sys_ipc_recv`) over an
explicit kernel state.  Machine words are natural numbers holding the 32-bit
pattern; `int` results are integers.  Pointers to `struct Env` are slot indices
into `envs`, pointers to `struct PageInfo` are frame numbers.

The helpers of `kern/pmap.c` and `kern/env.c` and the constants of `inc/` are
not part of the sources at hand; they are modelled here and marked as such.
-/

namespace JOS

/-! ## Constants -/

/-- Modelled from the spec: `inc/mmu.h` is absent; bytes in a page. -/
def PGSIZE : Nat := 4096
/-- Modelled from the spec: `inc/mmu.h` is absent; entries per page table. -/
def NPTENTRIES : Nat := 1024
/-- Modelled from the spec: `inc/mmu.h` is absent; bytes mapped by one page-directory entry. -/
def PTSIZE : Nat := PGSIZE * NPTENTRIES
/-- Modelled from the spec: `inc/memlayout.h` is absent; the shared-memory ceiling. -/
def UTOP : Nat := 0xeec00000

/-- Modelled from the spec: `inc/mmu.h` is absent; Present. -/
def PTE_P : Nat := 0x001
/-- Modelled from the spec: `inc/mmu.h` is absent; Writable. -/
def PTE_W : Nat := 0x002
/-- Modelled from the spec: `inc/mmu.h` is absent; User-accessible. -/
def PTE_U : Nat := 0x004
/-- Modelled from the spec: `inc/mmu.h` is absent; the bits available to user software. -/
def PTE_AVAIL : Nat := 0xE00
/-- Copy-on-write marker, `#define PTE_COW 0x800` in `lib/fork.c`. -/
def PTE_COW : Nat := 0x800
/-- Modelled from the spec: `inc/lib.h` is absent; Shared (exempt from copy-on-write). -/
def PTE_SHARE : Nat := 0x400
/-- Modelled from the spec: `inc/mmu.h` is absent; the flags a system call may set. -/
def PTE_SYSCALL : Nat := PTE_AVAIL ||| PTE_P ||| PTE_W ||| PTE_U
/-- The 32-bit pattern of the C expression `~PTE_SYSCALL`. -/
def NOT_PTE_SYSCALL : Nat := 0xFFFFFFFF ^^^ PTE_SYSCALL

/-- Modelled from the spec: `inc/env.h` is absent; number of environment slots. -/
def NENV : Nat := 1024

/-- Modelled from the spec: `inc/error.h` is absent; no-such-environment. -/
def E_BAD_ENV : Int := 2
/-- Modelled from the spec: `inc/error.h` is absent; invalid-argument. -/
def E_INVAL : Int := 3
/-- Modelled from the spec: `inc/error.h` is absent; out-of-memory. -/
def E_NO_MEM : Int := 4
/-- Modelled from the spec: `inc/error.h` is absent; recipient-not-waiting. -/
def E_IPC_NOT_RECV : Int := 7

/-- Modelled from the spec: `inc/env.h` is absent; status "free". -/
def ENV_FREE : Nat := 0
/-- Modelled from the spec: `inc/env.h` is absent; status "dying". -/
def ENV_DYING : Nat := 1
/-- Modelled from the spec: `inc/env.h` is absent; status "runnable". -/
def ENV_RUNNABLE : Nat := 2
/-- Modelled from the spec: `inc/env.h` is absent; status "running". -/
def ENV_RUNNING : Nat := 3
/-- Modelled from the spec: `inc/env.h` is absent; status "not-runnable". -/
def ENV_NOT_RUNNABLE : Nat := 4

/-- Modelled from the spec: macro `PGOFF` of `inc/mmu.h` (`la & 0xFFF`), the
offset inside the page; zero exactly for page-aligned addresses. -/
def PGOFF (va : Nat) : Nat := va % PGSIZE
/-- Modelled from the spec: macro `PGNUM` of `inc/mmu.h` (`la >> 12`). -/
def PGNUM (va : Nat) : Nat := va / PGSIZE
/-- Modelled from the spec: macro `PDX` of `inc/mmu.h` (`(la >> 22) & 0x3FF`). -/
def PDX (va : Nat) : Nat := (va / PTSIZE) % NPTENTRIES
/-- Modelled from the spec: macro `PTX` of `inc/mmu.h` (`(la >> 12) & 0x3FF`). -/
def PTX (va : Nat) : Nat := (va / PGSIZE) % NPTENTRIES
/-- Modelled from the spec: macro `ENVX` of `inc/env.h` (`envid & (NENV - 1)`). -/
def ENVX (envid : Nat) : Nat := envid % NENV

/-! ## Data model -/

/-- A present page-table entry: the mapped frame and its permission set. -/
structure Pte where
  frame : Nat
  perm : Nat
deriving DecidableEq, Repr

/-- A page table: the frame that stores it and its present entries by `PTX`. -/
structure PageTable where
  frame : Nat
  pte : Nat → Option Pte

/-- A page directory: for each `PDX` the page table, when the entry is present. -/
structure PageDir where
  pde : Nat → Option PageTable

/-- Modelled from the spec: `struct PageInfo` array and free list of
`kern/pmap.c` (absent), plus the bytes held by each frame. -/
structure PhysMem where
  pp_ref : Nat → Nat
  pp_link : Nat → Option Nat
  page_free_list : Option Nat
  data : Nat → Nat → Nat

/-- The general registers saved on a trap (`struct PushRegs`). -/
structure PushRegs where
  reg_edi : Nat
  reg_esi : Nat
  reg_ebp : Nat
  reg_oesp : Nat
  reg_ebx : Nat
  reg_edx : Nat
  reg_ecx : Nat
  reg_eax : Nat
deriving DecidableEq, Repr

/-- The saved execution context of an environment (`struct Trapframe`). -/
structure Trapframe where
  tf_regs : PushRegs
  tf_es : Nat
  tf_ds : Nat
  tf_trapno : Nat
  tf_err : Nat
  tf_eip : Nat
  tf_cs : Nat
  tf_eflags : Nat
  tf_esp : Nat
  tf_ss : Nat
deriving DecidableEq, Repr

/-- An environment record (`struct Env`), with its two mapping tables. -/
structure Env where
  env_tf : Trapframe
  env_id : Nat
  env_parent_id : Nat
  env_status : Nat
  env_pgdir : PageDir
  env_kern_pgdir : PageDir
  env_pgfault_upcall : Nat
  env_brk : Nat
  env_ipc_recving : Nat
  env_ipc_dstva : Nat
  env_ipc_value : Nat
  env_ipc_from : Nat
  env_ipc_perm : Nat

/-- The kernel state a system call runs on: the environment array, the slot of
the running environment (`curenv`) and physical memory. -/
structure State where
  envs : Nat → Env
  curenv : Nat
  mem : PhysMem

/-- Which of the two tables of an environment an operation addresses:
`env_pgdir` (user) or `env_kern_pgdir` (shadow). -/
inductive Table where
  | user
  | kern
deriving DecidableEq, Repr

/-- Select `e->env_pgdir` or `e->env_kern_pgdir`. -/
def Env.table (e : Env) : Table → PageDir
  | Table.user => e.env_pgdir
  | Table.kern => e.env_kern_pgdir

/-- Store a page directory back into `e->env_pgdir` or `e->env_kern_pgdir`. -/
def Env.setTable (e : Env) : Table → PageDir → Env
  | Table.user, pd => { e with env_pgdir := pd }
  | Table.kern, pd => { e with env_kern_pgdir := pd }

/-- Overwrite the record in slot `e`. -/
def State.setEnv (s : State) (e : Nat) (v : Env) : State :=
  { s with envs := Function.update s.envs e v }

/-! ## Helpers of `kern/env.c` and `kern/pmap.c` -/

/-- Modelled from the spec: `envid2env` of `kern/env.c` (absent).  Identifier 0
names the caller; otherwise the slot must be live with a matching identifier,
and with `checkperm` the target must be the caller or an immediate child.
`none` stands for the result `-E_BAD_ENV`. -/
def envid2env (s : State) (envid : Nat) (checkperm : Bool) : Option Nat :=
  if envid = 0 then some s.curenv
  else if (s.envs (ENVX envid)).env_status = ENV_FREE ∨ (s.envs (ENVX envid)).env_id ≠ envid then none
  else if checkperm = true ∧ ENVX envid ≠ s.curenv
      ∧ (s.envs (ENVX envid)).env_parent_id ≠ (s.envs s.curenv).env_id then none
  else some (ENVX envid)

/-- Modelled from the spec: `page_alloc` of `kern/pmap.c` (absent).  Takes the
head of the free list, zero-filling the frame when asked; `none` when no frame
is free.  The reference count is left to the caller. -/
def page_alloc (m : PhysMem) (zero : Bool) : Option Nat × PhysMem :=
  match m.page_free_list with
  | none => (none, m)
  | some pp =>
    (some pp,
      { m with
        page_free_list := m.pp_link pp
        pp_link := Function.update m.pp_link pp none
        data := if zero then Function.update m.data pp (fun _ => 0) else m.data })

/-- Modelled from the spec: `page_free` of `kern/pmap.c` (absent).  Links the
frame at the head of the free list. -/
def page_free (m : PhysMem) (pp : Nat) : PhysMem :=
  { m with
    pp_link := Function.update m.pp_link pp m.page_free_list
    page_free_list := some pp }

/-- Modelled from the spec: `page_decref` of `kern/pmap.c` (absent).  Decrements
the 16-bit reference count and frees the frame when it reaches zero. -/
def page_decref (m : PhysMem) (pp : Nat) : PhysMem :=
  let m1 : PhysMem := { m with pp_ref := Function.update m.pp_ref pp ((m.pp_ref pp + 65535) % 65536) }
  if m1.pp_ref pp = 0 then page_free m1 pp else m1

/-- Modelled from the spec: `page_lookup` of `kern/pmap.c` (absent).  The entry
mapping `va`, or `none` when the directory entry or the table entry is absent. -/
def page_lookup (pd : PageDir) (va : Nat) : Option Pte :=
  match pd.pde (PDX va) with
  | none => none
  | some t => t.pte (PTX va)

/-- Write the table entry for `va` (the page table must exist). -/
def PageDir.setPte (pd : PageDir) (va : Nat) (v : Option Pte) : PageDir :=
  match pd.pde (PDX va) with
  | none => pd
  | some t => { pde := Function.update pd.pde (PDX va) (some { t with pte := Function.update t.pte (PTX va) v }) }

/-- Modelled from the spec: `page_remove` of `kern/pmap.c` (absent).  Drops the
mapping at `va` and one reference of its frame; nothing happens when `va` is
unmapped. -/
def page_remove (m : PhysMem) (pd : PageDir) (va : Nat) : PhysMem × PageDir :=
  match page_lookup pd va with
  | none => (m, pd)
  | some e => (page_decref m e.frame, pd.setPte va none)

/-- Modelled from the spec: `pgdir_walk` of `kern/pmap.c` (absent) with
`create = 1`.  When the directory entry is absent a zeroed frame is taken for a
new, empty page table; `none` when that allocation fails. -/
def pgdir_walk_create (m : PhysMem) (pd : PageDir) (va : Nat) : Option (PhysMem × PageDir) :=
  match pd.pde (PDX va) with
  | some _ => some (m, pd)
  | none =>
    match page_alloc m true with
    | (none, _) => none
    | (some pt, m1) =>
      some ({ m1 with pp_ref := Function.update m1.pp_ref pt ((m1.pp_ref pt + 1) % 65536) },
            { pde := Function.update pd.pde (PDX va) (some { frame := pt, pte := fun _ => none }) })

/-- Modelled from the spec: `page_insert` of `kern/pmap.c` (absent).  Maps frame
`pp` at `va` with `perm | PTE_P`, replacing (and releasing) any earlier mapping;
the reference is counted before the old mapping is removed.  Fails with
`-E_NO_MEM`, touching nothing, when a page table cannot be allocated. -/
def page_insert (m : PhysMem) (pd : PageDir) (pp va perm : Nat) : Int × PhysMem × PageDir :=
  match pgdir_walk_create m pd va with
  | none => (-E_NO_MEM, m, pd)
  | some (m1, pd1) =>
    let m2 : PhysMem := { m1 with pp_ref := Function.update m1.pp_ref pp ((m1.pp_ref pp + 1) % 65536) }
    let r := page_remove m2 pd1 va
    (0, r.1, r.2.setPte va (some { frame := pp, perm := perm ||| PTE_P }))

/-- The call `page_lookup(e->env_pgdir, va, &pte)` (or on `env_kern_pgdir`). -/
def env_page_lookup (s : State) (e : Nat) (t : Table) (va : Nat) : Option Pte :=
  page_lookup ((s.envs e).table t) va

/-- The call `page_insert(e->env_pgdir, pp, va, perm)` (or on `env_kern_pgdir`). -/
def env_page_insert (s : State) (e : Nat) (t : Table) (pp va perm : Nat) : Int × State :=
  let r := page_insert s.mem ((s.envs e).table t) pp va perm
  (r.1, { (s.setEnv e ((s.envs e).setTable t r.2.2)) with mem := r.2.1 })

/-- The call `page_remove(e->env_pgdir, va)` (or on `env_kern_pgdir`). -/
def env_page_remove (s : State) (e : Nat) (t : Table) (va : Nat) : State :=
  let r := page_remove s.mem ((s.envs e).table t) va
  { (s.setEnv e ((s.envs e).setTable t r.2)) with mem := r.1 }

/-- The permission check shared by the mapping calls:
`(perm & (PTE_U | PTE_P)) != (PTE_U | PTE_P) || perm & ~PTE_SYSCALL`. -/
def perm_inappropriate (perm : Nat) : Bool :=
  decide (perm &&& (PTE_U ||| PTE_P) ≠ (PTE_U ||| PTE_P)) || decide (perm &&& NOT_PTE_SYSCALL ≠ 0)

/-! ## `kern/syscall.c` -/

/-- `sys_page_alloc(envid, va, perm)`. -/
def sys_page_alloc (s : State) (envid va perm : Nat) : Int × State :=
  if UTOP ≤ va ∨ PGOFF va ≠ 0 ∨ perm_inappropriate perm = true then (-E_INVAL, s)
  else
    match envid2env s envid true with
    | none => (-E_BAD_ENV, s)
    | some e =>
      match page_alloc s.mem true with
      | (none, _) => (-E_NO_MEM, s)
      | (some pp, m0) =>
        let s0 : State := { s with mem := m0 }
        let r1 := env_page_insert s0 e Table.user pp va perm
        if r1.1 ≠ 0 then (-E_NO_MEM, { r1.2 with mem := page_free r1.2.mem pp })
        else
          let r2 := env_page_insert r1.2 e Table.kern pp va perm
          if r2.1 ≠ 0 then
            (-E_NO_MEM, env_page_remove { r2.2 with mem := page_free r2.2.mem pp } e Table.user va)
          else (0, r2.2)

/-- `sys_page_map(srcenvid, srcva, dstenvid, dstva, perm)`. -/
def sys_page_map (s : State) (srcenvid srcva dstenvid dstva perm : Nat) : Int × State :=
  if UTOP ≤ srcva ∨ PGOFF srcva ≠ 0 ∨ UTOP ≤ dstva ∨ PGOFF dstva ≠ 0
      ∨ perm_inappropriate perm = true then (-E_INVAL, s)
  else
    match envid2env s srcenvid true with
    | none => (-E_BAD_ENV, s)
    | some srcenv =>
      match envid2env s dstenvid true with
      | none => (-E_BAD_ENV, s)
      | some dstenv =>
        match env_page_lookup s srcenv Table.user srcva with
        | none => (-E_INVAL, s)
        | some pte =>
          if pte.perm &&& PTE_W = 0 ∧ perm &&& PTE_W ≠ 0 then (-E_INVAL, s)
          else
            let r1 := env_page_insert s dstenv Table.user pte.frame dstva perm
            if r1.1 ≠ 0 then (-E_NO_MEM, r1.2)
            else
              let r2 := env_page_insert r1.2 dstenv Table.kern pte.frame dstva perm
              if r2.1 ≠ 0 then (-E_NO_MEM, env_page_remove r2.2 dstenv Table.user dstva)
              else (0, r2.2)

/-- `sys_page_unmap(envid, va)`. -/
def sys_page_unmap (s : State) (envid va : Nat) : Int × State :=
  if UTOP ≤ va ∨ PGOFF va ≠ 0 then (-E_INVAL, s)
  else
    match envid2env s envid true with
    | none => (-E_BAD_ENV, s)
    | some e => (0, env_page_remove (env_page_remove s e Table.user va) e Table.kern va)

/-- The final block of `sys_ipc_try_send`: hand the message to `env`. -/
def ipc_deliver (s : State) (env value perm : Nat) (send_page : Bool) : State :=
  s.setEnv env
    { (s.envs env) with
      env_ipc_recving := 0
      env_ipc_from := (s.envs s.curenv).env_id
      env_ipc_value := value
      env_ipc_perm := if send_page then perm else 0
      env_tf := { (s.envs env).env_tf with
                  tf_regs := { (s.envs env).env_tf.tf_regs with reg_eax := 0 } }
      env_status := ENV_RUNNABLE }

/-- The test `send_page = (uintptr_t) srcva < UTOP && env->env_ipc_dstva`. -/
def send_page (s : State) (env srcva : Nat) : Bool :=
  decide (srcva < UTOP) && decide ((s.envs env).env_ipc_dstva ≠ 0)

/-- `sys_ipc_try_send(envid, value, srcva, perm)` in the default build
(`CHALLENGE_LAB4` undefined). -/
def sys_ipc_try_send (s : State) (envid value srcva perm : Nat) : Int × State :=
  match envid2env s envid false with
  | none => (-E_BAD_ENV, s)
  | some env =>
    if (s.envs env).env_ipc_recving = 0 then (-E_IPC_NOT_RECV, s)
    else if send_page s env srcva = true then
      if PGOFF srcva ≠ 0 then (-E_INVAL, s)
      else if perm_inappropriate perm = true then (-E_INVAL, s)
      else
        match env_page_lookup s s.curenv Table.user srcva with
        | none => (-E_INVAL, s)
        | some pte =>
          if perm &&& PTE_W ≠ 0 ∧ pte.perm &&& PTE_W = 0 then (-E_INVAL, s)
          else
            let r1 := env_page_insert s env Table.user pte.frame (s.envs env).env_ipc_dstva perm
            if r1.1 ≠ 0 then (-E_NO_MEM, r1.2)
            else
              let r2 := env_page_insert r1.2 env Table.kern pte.frame (r1.2.envs env).env_ipc_dstva perm
              if r2.1 ≠ 0 then
                (-E_NO_MEM, env_page_remove r2.2 env Table.user (r2.2.envs env).env_ipc_dstva)
              else (0, ipc_deliver r2.2 env value perm true)
    else (0, ipc_deliver s env value perm false)

/-- `sys_ipc_recv(dstva)` in the default build, up to the call of
`sched_yield()`: `some r` is a returned error, `none` means the caller gave up
the processor; the state is the one left at that point. -/
def sys_ipc_recv (s : State) (dstva : Nat) : Option Int × State :=
  if dstva < UTOP ∧ PGOFF dstva ≠ 0 then (some (-E_INVAL), s)
  else
    let s1 : State :=
      if dstva < UTOP then s.setEnv s.curenv { (s.envs s.curenv) with env_ipc_dstva := dstva } else s
    (none, s1.setEnv s1.curenv
      { (s1.envs s1.curenv) with env_ipc_recving := 1, env_status := ENV_NOT_RUNNABLE })

/-! ## Predicates used in the statements -/

/-- Every byte that is zero in `m` is still zero in `n`. -/
def ZeroKept (m n : PhysMem) : Prop := ∀ f o, m.data f o = 0 → n.data f o = 0

/-- Both tables of environment `e` map `va` to frame `pp` with permissions `perm`. -/
def MappedBoth (s : State) (e va pp perm : Nat) : Prop :=
  env_page_lookup s e Table.user va = some { frame := pp, perm := perm } ∧
  env_page_lookup s e Table.kern va = some { frame := pp, perm := perm }

/-! ## Concrete states used to exercise the definitions -/

/-- A page directory with no page table. -/
def emptyDir : PageDir := { pde := fun _ => none }

/-- A register file holding zeroes. -/
def zeroTf : Trapframe :=
  { tf_regs := { reg_edi := 0, reg_esi := 0, reg_ebp := 0, reg_oesp := 0,
                 reg_ebx := 0, reg_edx := 0, reg_ecx := 0, reg_eax := 0 }
    tf_es := 0, tf_ds := 0, tf_trapno := 0, tf_err := 0, tf_eip := 0,
    tf_cs := 0, tf_eflags := 0, tf_esp := 0, tf_ss := 0 }

/-- An unused slot of the environment array. -/
def freeEnv : Env :=
  { env_tf := zeroTf, env_id := 0, env_parent_id := 0, env_status := ENV_FREE,
    env_pgdir := emptyDir, env_kern_pgdir := emptyDir, env_pgfault_upcall := 0, env_brk := 0,
    env_ipc_recving := 0, env_ipc_dstva := 0, env_ipc_value := 0, env_ipc_from := 0,
    env_ipc_perm := 0 }

/-- A directory whose entry 2 holds a table (stored in frame `ptframe`) mapping
`0x800000` to frame 100 read-only and `0x801000` to frame 101 writable. -/
def demoDir (ptframe : Nat) : PageDir :=
  { pde := fun i =>
      if i = 2 then
        some { frame := ptframe
               pte := fun j =>
                 if j = 0 then some { frame := 100, perm := 5 }
                 else if j = 1 then some { frame := 101, perm := 7 }
                 else none }
      else none }

/-- Physical memory with the frames 200 to 207 on the free list, in this order. -/
def demoMem : PhysMem :=
  { pp_ref := fun f =>
      if f = 100 ∨ f = 101 then 4 else if 50 ≤ f ∧ f ≤ 53 then 1 else 0
    pp_link := fun f => if 200 ≤ f ∧ f < 207 then some (f + 1) else none
    page_free_list := some 200
    data := fun f _ => if f = 100 then 88 else if f = 101 then 77 else 0 }

/-- Three live environments: slot 0 (`0x1000`, running, mapping two pages),
slot 1 (`0x1001`, its child, with empty tables) and slot 2 (`0x1002`, unrelated
to slot 0, mapping the same two pages). -/
def demoState : State :=
  { envs := fun i =>
      if i = 0 then
        { freeEnv with env_id := 0x1000, env_status := ENV_RUNNING,
                       env_pgdir := demoDir 50, env_kern_pgdir := demoDir 51 }
      else if i = 1 then
        { freeEnv with env_id := 0x1001, env_parent_id := 0x1000, env_status := ENV_RUNNABLE }
      else if i = 2 then
        { freeEnv with env_id := 0x1002, env_parent_id := 0x0fff, env_status := ENV_RUNNABLE,
                       env_pgdir := demoDir 52, env_kern_pgdir := demoDir 53 }
      else freeEnv
    curenv := 0
    mem := demoMem }

/-- Modelled from the spec: the hand-over of the processor by the scheduler
(`env_run` of `kern/env.c`, absent): a running caller becomes runnable again and
environment slot `e` becomes the running one. -/
def run_env (s : State) (e : Nat) : State :=
  let s1 : State :=
    if (s.envs s.curenv).env_status = ENV_RUNNING then
      s.setEnv s.curenv { (s.envs s.curenv) with env_status := ENV_RUNNABLE }
    else s
  { (s1.setEnv e { (s1.envs e) with env_status := ENV_RUNNING }) with curenv := e }

/-- The sample state after the child `0x1001` (slot 1) has called
`sys_ipc_recv(0)` and the processor is back with slot 0. -/
def recvAtZero : State := run_env (sys_ipc_recv (run_env demoState 1) 0).2 0

/-- The sample state after the child `0x1001` has called
`sys_ipc_recv(0x900000)` and the processor is back with slot 0. -/
def recvWithPage : State := run_env (sys_ipc_recv (run_env demoState 1) 0x900000).2 0

/-- From `recvWithPage`: slot 0 sends the value 41 without a page
(`srcva = UTOP`), the child runs again and calls `sys_ipc_recv(UTOP)`, declaring
no destination, and the processor is back with slot 0. -/
def recvNoPage : State :=
  run_env (sys_ipc_recv (run_env (sys_ipc_try_send recvWithPage 0x1001 41 UTOP 0).2 1) UTOP).2 0


/-! ## More of `kern/syscall.c` -/

/-- `sys_env_set_status(envid, status)`. -/
def sys_env_set_status (s : State) (envid status : Nat) : Int × State :=
  match envid2env s envid true with
  | none => (-E_BAD_ENV, s)
  | some e =>
    if ¬ (status = ENV_RUNNABLE ∨ status = ENV_NOT_RUNNABLE) then (-E_INVAL, s)
    else (0, s.setEnv e { (s.envs e) with env_status := status })

/-- Modelled from the spec: `inc/memlayout.h` is absent; start of the kernel's
linear mapping of physical memory. -/
def KERNBASE : Nat := 0xF0000000

/-- `sys_map_kernel_page(kpage, va)`.  The number of physical frames `npages`
(a variable of the absent `kern/pmap.c`) is a parameter.  `PADDR` panics on an
address below `KERNBASE` and `pa2page` panics on a frame number beyond
`npages`: both give `none`; `pa2page` never yields a null pointer, so the
`return E_INVAL` is not reached. -/
def sys_map_kernel_page (npages : Nat) (s : State) (kpage va : Nat) : Option (Int × State) :=
  if kpage < KERNBASE then none
  else if npages ≤ PGNUM (kpage - KERNBASE) then none
  else some (env_page_insert s s.curenv Table.user (PGNUM (kpage - KERNBASE)) va (PTE_U ||| PTE_W))

/-! ## `lib/fork.c` (user level) -/

/-- Modelled from the spec: `inc/memlayout.h` is absent; scratch area. -/
def UTEMP : Nat := PTSIZE
/-- Modelled from the spec: `inc/memlayout.h` is absent; the scratch page of the
fault handler. -/
def PFTEMP : Nat := UTEMP + PTSIZE - PGSIZE
/-- Modelled from the spec: `inc/mmu.h` is absent; the fault was a write. -/
def FEC_WR : Nat := 2

/-- Modelled from the spec: the read-only window `uvpt` of `inc/memlayout.h`
(absent), as far as `lib/fork.c` uses it: the flag bits of the running
environment's entry for page number `pn` in its user table, with `PTE_P` set
for a present entry and 0 for an absent one. -/
def uvpt (s : State) (pn : Nat) : Nat :=
  match env_page_lookup s s.curenv Table.user (pn * PGSIZE) with
  | none => 0
  | some pte => pte.perm ||| PTE_P

/-- Modelled from the spec: the read-only window `uvpd` of `inc/memlayout.h`
(absent): the flag bits of the running environment's page-directory entry,
`PTE_P | PTE_W | PTE_U` when a page table is present and 0 otherwise. -/
def uvpd (s : State) (pdx : Nat) : Nat :=
  match (s.envs s.curenv).env_pgdir.pde pdx with
  | none => 0
  | some _ => PTE_P ||| PTE_W ||| PTE_U

/-- Modelled from the spec: `memmove(dst, src, PGSIZE)` of `lib/string.c`
(absent) run by the current environment on two page-aligned addresses: the bytes
of the frame mapped at `src` are copied into the frame mapped at `dst`.  `none`
when an access would fault (an address unmapped, `dst` not writable by the user,
`src` not readable by the user). -/
def user_memmove_page (s : State) (dst src : Nat) : Option State :=
  match env_page_lookup s s.curenv Table.user dst, env_page_lookup s s.curenv Table.user src with
  | some d, some r =>
    if d.perm &&& PTE_W = 0 ∨ d.perm &&& PTE_U = 0 ∨ r.perm &&& PTE_U = 0 then none
    else
      some { s with
        mem := { s.mem with
          data := Function.update s.mem.data d.frame
            (fun o => if o < PGSIZE then s.mem.data r.frame o else s.mem.data d.frame o) } }
  | _, _ => none

/-- `pgfault(utf)` with `utf->utf_fault_va = fault_va` and `utf->utf_err = err`;
`none` stands for a panic, `some` for a normal return. -/
def pgfault (s : State) (fault_va err : Nat) : Option State :=
  if err &&& FEC_WR = 0 ∨ uvpd s (PDX fault_va) &&& PTE_P = 0
      ∨ uvpt s (PGNUM fault_va) &&& (PTE_P ||| PTE_COW) ≠ (PTE_P ||| PTE_COW) then none
  else
    let r1 := sys_page_alloc s 0 PFTEMP (PTE_P ||| PTE_U ||| PTE_W)
    if r1.1 ≠ 0 then none
    else
      match user_memmove_page r1.2 PFTEMP (fault_va - fault_va % PGSIZE) with
      | none => none
      | some s2 =>
        let r3 := sys_page_map s2 0 PFTEMP 0 (fault_va - fault_va % PGSIZE) (PTE_P ||| PTE_U ||| PTE_W)
        if r3.1 ≠ 0 then none
        else
          let r4 := sys_page_unmap r3.2 0 PFTEMP
          if r4.1 ≠ 0 then none else some r4.2

/-- `duppage(envid, pn)`; `none` stands for a panic, `some` for the return of 0.
`vptr` is `pn * PGSIZE` in 32-bit arithmetic. -/
def duppage (s : State) (envid pn : Nat) : Option State :=
  if uvpt s pn &&& PTE_SHARE ≠ 0 then
    let r := sys_page_map s 0 (pn * PGSIZE % 2 ^ 32) envid (pn * PGSIZE % 2 ^ 32)
      (uvpt s pn &&& PTE_SYSCALL)
    if r.1 < 0 then none else some r.2
  else if uvpt s pn &&& (PTE_W ||| PTE_COW) ≠ 0 then
    let r1 := sys_page_map s 0 (pn * PGSIZE % 2 ^ 32) envid (pn * PGSIZE % 2 ^ 32)
      (PTE_P ||| PTE_U ||| PTE_COW)
    if r1.1 < 0 then none
    else
      let r2 := sys_page_map r1.2 0 (pn * PGSIZE % 2 ^ 32) 0 (pn * PGSIZE % 2 ^ 32)
        (PTE_P ||| PTE_U ||| PTE_COW)
      if r2.1 < 0 then none else some r2.2
  else
    let r := sys_page_map s 0 (pn * PGSIZE % 2 ^ 32) envid (pn * PGSIZE % 2 ^ 32) (PTE_P ||| PTE_U)
    if r.1 < 0 then none else some r.2

/-- The `n`-th frame of the free list, following `pp_link` from `page_free_list`. -/
def free_chain (m : PhysMem) : Nat → Option Nat
  | 0 => m.page_free_list
  | n + 1 =>
    match free_chain m n with
    | none => none
    | some f => m.pp_link f

/-- Frame `f` can be reached on the free list. -/
def OnFreeList (m : PhysMem) (f : Nat) : Prop := ∃ n, free_chain m n = some f

/-! ## More predicates and sample states -/

/-- Environment record `b` differs from `a` at most in its two tables. -/
def SameButTables (a b : Env) : Prop :=
  ∃ pu pk, b = { a with env_pgdir := pu, env_kern_pgdir := pk }

/-- The mirrored-tables invariant: in every environment the user table and the
shadow table give the same answer for every address below `UTOP`. -/
def Mirrored (s : State) : Prop :=
  ∀ e va, va < UTOP → env_page_lookup s e Table.user va = env_page_lookup s e Table.kern va

/-- The sample state after the child `0x1001`, which never declared a
destination, has called `sys_ipc_recv(UTOP)` and the processor is back with
slot 0. -/
def recvNone : State := run_env (sys_ipc_recv (run_env demoState 1) UTOP).2 0

/-- The sample state with an empty free list. -/
def noFreeState : State := { demoState with mem := { demoMem with page_free_list := none } }

/-- The sample state with frame 200 as the only free frame. -/
def oneFreeState : State := { demoState with mem := { demoMem with pp_link := fun _ => none } }

/-- The sample state with the frames 200 and 201 as the only free frames. -/
def twoFreeState : State :=
  { demoState with mem := { demoMem with pp_link := fun f => if f = 200 then some 201 else none } }

/-- State `n` answers every lookup as state `s` does. -/
def LookupsSame (s n : State) : Prop :=
  ∀ e t va, env_page_lookup n e t va = env_page_lookup s e t va

/-- State `n` answers lookups as `s` does, except that both tables of
environment `e` now map the page of `va` to the entry `x`. -/
def LookupsInserted (s n : State) (e va : Nat) (x : Pte) : Prop :=
  ∀ e' t' va', env_page_lookup n e' t' va' =
    if e' = e ∧ PDX va' = PDX va ∧ PTX va' = PTX va then some x else env_page_lookup s e' t' va'

/-- State `n` answers lookups as `s` does, except that the user table of
environment `e` no longer maps the page of `va`; the shadow table of `e` did not
map it in `s`. -/
def LookupsRolledBack (s n : State) (e va : Nat) : Prop :=
  env_page_lookup s e Table.kern va = none ∧
  ∀ e' t' va', env_page_lookup n e' t' va' =
    if e' = e ∧ t' = Table.user ∧ PDX va' = PDX va ∧ PTX va' = PTX va then none
    else env_page_lookup s e' t' va'

/-- The sample state with `PTE_SHARE` added, in both tables, to the writable
page that slot 0 maps at `0x801000`. -/
def sharedState : State :=
  demoState.setEnv 0
    { (demoState.envs 0) with
      env_pgdir := (demoState.envs 0).env_pgdir.setPte 0x801000
        (some { frame := 101, perm := 0x407 })
      env_kern_pgdir := (demoState.envs 0).env_kern_pgdir.setPte 0x801000
        (some { frame := 101, perm := 0x407 }) }

/-- The sample state after slot 0 has run `duppage` for its writable page
`0x801` towards its child: the page is copy-on-write on both sides. -/
def cowState : State := (duppage demoState 0x1001 0x801).getD demoState

/-- The sample state after slot 0 has allocated a page at the scratch address
`PFTEMP` with `PTE_P|PTE_U|PTE_COW`. -/
def cowTempState : State := (sys_page_alloc demoState 0 PFTEMP (PTE_P ||| PTE_U ||| PTE_COW)).2

/-- The error code `E_NO_FREE_ENV` of `inc/error.h`. -/
def E_NO_FREE_ENV : Int := 5

/-- `sys_exofork()`.  `env_alloc` of `kern/env.c` is absent and is a parameter:
given the state and the parent identifier it yields its return code, the slot
of the new environment and the state it leaves. -/
def sys_exofork (env_alloc : State → Nat → Int × Nat × State) (s : State) : Int × State :=
  let a := env_alloc s (s.envs s.curenv).env_id
  if a.1 < 0 then (a.1, a.2.2)
  else
    let tf := (a.2.2.envs a.2.2.curenv).env_tf
    (((a.2.2.envs a.2.1).env_id : Int),
      a.2.2.setEnv a.2.1
        { (a.2.2.envs a.2.1) with
          env_status := ENV_NOT_RUNNABLE
          env_tf := { tf with tf_regs := { tf.tf_regs with reg_eax := 0 } } })

/-- Modelled from the spec: `inc/mmu.h` is absent; the interrupt-enable flag of
`eflags`. -/
def FL_IF : Nat := 0x200

/-- Modelled from the spec: `inc/mmu.h` is absent; the two I/O privilege level
bits of `eflags`. -/
def FL_IOPL_MASK : Nat := 0x3000

/-- `sys_env_set_trapframe(envid, tf)`.  The user memory at `tf` is given by its
content, `none` when `user_mem_assert` rejects the address (the caller is
destroyed and the call does not return: result `none`). -/
def sys_env_set_trapframe (s : State) (envid : Nat) (tf : Option Trapframe) :
    Option (Int × State) :=
  match envid2env s envid true with
  | none => some (-E_BAD_ENV, s)
  | some e =>
    match tf with
    | none => none
    | some t =>
      some (0, s.setEnv e
        { (s.envs e) with
          env_tf := { t with tf_cs := t.tf_cs ||| 3, tf_eflags := t.tf_eflags ||| FL_IF } })

/-- A sample allocator: it hands out slot 3 with the identifier `0x1003` when
that slot is free, and fails with `-E_NO_FREE_ENV` otherwise. -/
def demo_env_alloc (s : State) (parent_id : Nat) : Int × Nat × State :=
  if (s.envs 3).env_status = ENV_FREE then
    (0, 3, s.setEnv 3
      { freeEnv with env_id := 0x1003, env_parent_id := parent_id, env_status := ENV_RUNNABLE })
  else (-E_NO_FREE_ENV, 0, s)

/-- The sample state with the registers of slot 0 as saved on entry to a
system call. -/
def callState : State :=
  demoState.setEnv 0
    { (demoState.envs 0) with
      env_tf := { zeroTf with
        tf_regs := { zeroTf.tf_regs with reg_eax := 7, reg_ebx := 9, reg_esi := 11 }
        tf_eip := 0x800123, tf_cs := 0x1b, tf_eflags := 0x202, tf_esp := 0xeebfdf00,
        tf_ss := 0x23 } }

/-- A trap frame asking for ring 0 and I/O privilege level 3, interrupts off. -/
def ringZeroTf : Trapframe :=
  { zeroTf with tf_eip := 0x800020, tf_cs := 0x8, tf_eflags := 0x3000 }

/-- The sample state in which slot 0 maps `0x800000` read-only with the
available bit `0x200` set (in both tables). -/
def availState : State :=
  demoState.setEnv 0
    { (demoState.envs 0) with
      env_pgdir := (demoState.envs 0).env_pgdir.setPte 0x800000
        (some { frame := 100, perm := 0x205 })
      env_kern_pgdir := (demoState.envs 0).env_kern_pgdir.setPte 0x800000
        (some { frame := 100, perm := 0x205 }) }

/-! ## `kern/e1000.c` -/

/-- Modelled from the spec: `inc/error.h` is absent and `E_AGAIN` is not one of
the stock codes; the first free code is taken. -/
def E_AGAIN : Int := 16

/-- Modelled from the spec: `kern/e1000.h` is absent; the size of one packet
buffer (the receive side is programmed with `E1000_RCTL_BSIZE_2048`). -/
def E1000_PKTSIZE : Nat := 2048

/-- Modelled from the spec: `kern/e1000.h` is absent; descriptor-done bit of a
transmit descriptor's status. -/
def E1000_TX_STATUS_DD : Nat := 1

/-- Modelled from the spec: `kern/e1000.h` is absent; end-of-packet command bit. -/
def E1000_TX_CMD_EOP : Nat := 1

/-- Modelled from the spec: `kern/e1000.h` is absent; report-status command bit. -/
def E1000_TX_CMD_RS : Nat := 8

/-- Modelled from the spec: `kern/e1000.h` is absent; descriptor-done bit of a
receive descriptor's status. -/
def E1000_RX_STATUS_DD : Nat := 1

/-- `N_TXDESC`: `PGSIZE / sizeof(struct tx_desc)`, with 16-byte descriptors. -/
def N_TXDESC : Nat := PGSIZE / 16

/-- `N_RXDESC`: `PGSIZE / sizeof(struct rx_desc)`, with 16-byte descriptors. -/
def N_RXDESC : Nat := PGSIZE / 16

/-- A transmit descriptor (`struct tx_desc`): the fields the driver uses. -/
structure tx_desc where
  addr : Nat
  length : Nat
  cmd : Nat
  status : Nat
deriving DecidableEq, Repr

/-- A receive descriptor (`struct rx_desc`): the fields the driver uses. -/
structure rx_desc where
  addr : Nat
  length : Nat
  status : Nat
  error : Nat
deriving DecidableEq, Repr

/-- The network card as the driver sees it: the tail registers `TDT` and `RDT`,
the two descriptor rings and their packet buffers (byte `i` of buffer `n`). -/
structure E1000 where
  TDT : Nat
  RDT : Nat
  tx_descs : Nat → tx_desc
  tx_bufs : Nat → Nat → Nat
  rx_descs : Nat → rx_desc
  rx_bufs : Nat → Nat → Nat

/-- `memcpy(dst, src, n)` on byte arrays. -/
def memcpy (dst src : Nat → Nat) (n : Nat) : Nat → Nat :=
  fun i => if i < n then src i else dst i

/-- `e1000_tx(buf, len)`.  `buf` is the memory at the pointer, `none` for a null
pointer; `length` is a 16-bit field and `status`, `cmd` are 8-bit fields. -/
def e1000_tx (d : E1000) (buf : Option (Nat → Nat)) (len : Nat) : Int × E1000 :=
  match buf with
  | none => (-E_INVAL, d)
  | some b =>
    if len > E1000_PKTSIZE then (-E_INVAL, d)
    else if (d.tx_descs d.TDT).status &&& E1000_TX_STATUS_DD = 0 then (-E_AGAIN, d)
    else
      (0, { d with
        tx_descs := Function.update d.tx_descs d.TDT
          { (d.tx_descs d.TDT) with
            length := len % 2 ^ 16
            status := (d.tx_descs d.TDT).status &&& (0xFF ^^^ E1000_TX_STATUS_DD)
            cmd := (d.tx_descs d.TDT).cmd ||| (E1000_TX_CMD_EOP ||| E1000_TX_CMD_RS) }
        tx_bufs := Function.update d.tx_bufs d.TDT (memcpy (d.tx_bufs d.TDT) b len)
        TDT := (d.TDT + 1) % N_TXDESC })

/-- `e1000_rx(buf, len)`.  `buf` is the memory at the pointer (`none` for a null
pointer); the result is the return value, the card and the memory at `buf`
afterwards.  The body never reads `len`. -/
def e1000_rx (d : E1000) (buf : Option (Nat → Nat)) (_len : Nat) :
    Int × E1000 × Option (Nat → Nat) :=
  match buf with
  | none => (-E_INVAL, d, none)
  | some b =>
    let rdt := (d.RDT + 1) % N_RXDESC
    if (d.rx_descs rdt).status &&& E1000_RX_STATUS_DD = 0 then (-E_AGAIN, d, some b)
    else if (d.rx_descs rdt).error ≠ 0 then (-E_AGAIN, d, some b)
    else
      (((d.rx_descs rdt).length : Int),
        { d with
          rx_descs := Function.update d.rx_descs rdt
            { (d.rx_descs rdt) with
              status := (d.rx_descs rdt).status &&& (0xFF ^^^ E1000_RX_STATUS_DD) }
          RDT := rdt },
        some (memcpy b (d.rx_bufs rdt) (d.rx_descs rdt).length))

/-- A card after initialisation: every transmit descriptor done, tail registers
at 0, and one received packet of 60 bytes (each byte `0xab`) in receive
descriptor 1. -/
def demoCard : E1000 :=
  { TDT := 0
    RDT := 0
    tx_descs := fun _ => { addr := 0, length := 0, cmd := 0, status := E1000_TX_STATUS_DD }
    tx_bufs := fun _ _ => 0
    rx_descs := fun i =>
      if i = 1 then { addr := 0, length := 60, status := E1000_RX_STATUS_DD, error := 0 }
      else { addr := 0, length := 0, status := 0, error := 0 }
    rx_bufs := fun i _ => if i = 1 then 0xab else 0 }

/-- A caller's buffer holding the bytes `1, 2, 3, ...`. -/
def demoBuf : Nat → Nat := fun i => (i + 1) % 256

/-! ## Facts about the permission bits -/

theorem PTE_SYSCALL_val : PTE_SYSCALL = 0xE07 := by decide

theorem NOT_PTE_SYSCALL_val : NOT_PTE_SYSCALL = 2 ^ 32 - 1 - 0xE07 := by decide

theorem perm_inappropriate_false (perm : Nat) :
    perm_inappropriate perm = false ↔
      perm &&& (PTE_U ||| PTE_P) = (PTE_U ||| PTE_P) ∧ perm &&& NOT_PTE_SYSCALL = 0 := by
  simp [perm_inappropriate]

theorem land_eq_mask_iff (perm mask : Nat) :
    perm &&& mask = mask ↔ ∀ i, mask.testBit i = true → perm.testBit i = true := by
  constructor
  · intro h i hi
    have hb : (perm &&& mask).testBit i = true := by rw [h]; exact hi
    rw [Nat.testBit_and] at hb
    simp only [Bool.and_eq_true] at hb
    exact hb.1
  · intro h
    apply Nat.eq_of_testBit_eq
    intro i
    rw [Nat.testBit_and]
    cases hm : mask.testBit i
    · simp
    · simp [h i hm]

theorem land_eq_zero_iff (perm mask : Nat) :
    perm &&& mask = 0 ↔ ∀ i, perm.testBit i = true → mask.testBit i = false := by
  constructor
  · intro h i hi
    have hb : (perm &&& mask).testBit i = false := by rw [h]; exact Nat.zero_testBit i
    rw [Nat.testBit_and, hi] at hb
    simpa using hb
  · intro h
    apply Nat.eq_of_testBit_eq
    intro i
    rw [Nat.testBit_and, Nat.zero_testBit]
    cases hp : perm.testBit i
    · simp
    · simp [h i hp]

theorem lor_PTE_P_of_user_present (perm : Nat)
    (h : perm &&& (PTE_U ||| PTE_P) = (PTE_U ||| PTE_P)) : perm ||| PTE_P = perm := by
  apply Nat.eq_of_testBit_eq
  intro i
  rw [Nat.testBit_or]
  cases hp : PTE_P.testBit i
  · simp
  · have := (land_eq_mask_iff perm (PTE_U ||| PTE_P)).1 h i (by rw [Nat.testBit_or, hp]; simp)
    simp [this]

theorem testBit_NOT_PTE_SYSCALL (i : Nat) :
    NOT_PTE_SYSCALL.testBit i = (decide (i < 32) && !PTE_SYSCALL.testBit i) := by
  have h : NOT_PTE_SYSCALL = (2 ^ 32 - 1) ^^^ PTE_SYSCALL := by decide
  rw [h, Nat.testBit_xor, Nat.testBit_two_pow_sub_one]
  by_cases hi : i < 32
  · simp [hi]
  · have hlt : PTE_SYSCALL < 2 ^ i :=
      lt_of_lt_of_le (by decide : PTE_SYSCALL < 2 ^ 32)
        (Nat.pow_le_pow_right (by decide) (by omega))
    simp [hi, Nat.testBit_lt_two_pow hlt]

theorem outside_syscall_iff (perm : Nat) (hperm : perm < 2 ^ 32) :
    perm &&& NOT_PTE_SYSCALL ≠ 0 ↔
      ∃ i, perm.testBit i = true ∧ PTE_SYSCALL.testBit i = false := by
  rw [Ne, land_eq_zero_iff]
  constructor
  · intro h
    by_contra hcon
    apply h
    intro i hi
    rw [testBit_NOT_PTE_SYSCALL]
    cases hs : PTE_SYSCALL.testBit i
    · exact absurd ⟨i, hi, hs⟩ hcon
    · simp
  · rintro ⟨i, hi, hs⟩ h
    have hlt : i < 32 := by
      by_contra hge
      have : perm < 2 ^ i :=
        lt_of_lt_of_le hperm (Nat.pow_le_pow_right (by decide) (by omega))
      rw [Nat.testBit_lt_two_pow this] at hi
      exact Bool.noConfusion hi
    have := h i hi
    rw [testBit_NOT_PTE_SYSCALL, hs] at this
    simp [hlt] at this

theorem user_present_iff (perm : Nat) :
    perm &&& (PTE_U ||| PTE_P) = (PTE_U ||| PTE_P) ↔
      perm &&& PTE_P = PTE_P ∧ perm &&& PTE_U = PTE_U := by
  simp only [land_eq_mask_iff, Nat.testBit_or, Bool.or_eq_true]
  constructor
  · intro h
    exact ⟨fun i hi => h i (Or.inr hi), fun i hi => h i (Or.inl hi)⟩
  · rintro ⟨hp, hu⟩ i (hi | hi)
    · exact hu i hi
    · exact hp i hi

/-! ## Facts about the page-table helpers -/

theorem page_lookup_setPte_same (pd : PageDir) (va : Nat) (v : Option Pte)
    (h : pd.pde (PDX va) ≠ none) : page_lookup (pd.setPte va v) va = v := by
  unfold PageDir.setPte page_lookup
  cases hp : pd.pde (PDX va) with
  | none => exact absurd hp h
  | some t => simp

theorem page_lookup_setPte_other (pd : PageDir) (va va' : Nat) (v : Option Pte)
    (h : PDX va' ≠ PDX va ∨ PTX va' ≠ PTX va) :
    page_lookup (pd.setPte va v) va' = page_lookup pd va' := by
  unfold PageDir.setPte page_lookup
  cases hp : pd.pde (PDX va) with
  | none => simp [hp]
  | some t =>
    by_cases hd : PDX va' = PDX va
    · have hx : PTX va' ≠ PTX va := by
        rcases h with h | h
        · exact absurd hd h
        · exact h
      rw [hd, hp]
      simp [Function.update_noteq hx]
    · simp [Function.update_noteq hd]

theorem setPte_pde_isSome (pd : PageDir) (va : Nat) (v : Option Pte) (i : Nat) :
    ((pd.setPte va v).pde i).isSome = (pd.pde i).isSome := by
  unfold PageDir.setPte
  cases hp : pd.pde (PDX va) with
  | none => simp
  | some t =>
    by_cases hi : i = PDX va
    · subst hi; simp [hp]
    · simp [Function.update_noteq hi]

theorem page_remove_unmapped (m : PhysMem) (pd : PageDir) (va : Nat)
    (h : page_lookup pd va = none) : page_remove m pd va = (m, pd) := by
  unfold page_remove
  rw [h]

theorem page_lookup_page_remove_same (m : PhysMem) (pd : PageDir) (va : Nat) :
    page_lookup (page_remove m pd va).2 va = none := by
  unfold page_remove
  cases hl : page_lookup pd va with
  | none => simpa using hl
  | some e =>
    have hp : pd.pde (PDX va) ≠ none := by
      intro hn
      unfold page_lookup at hl
      rw [hn] at hl
      exact Option.noConfusion hl
    simpa using page_lookup_setPte_same pd va none hp

theorem page_lookup_page_remove_other (m : PhysMem) (pd : PageDir) (va va' : Nat)
    (h : PDX va' ≠ PDX va ∨ PTX va' ≠ PTX va) :
    page_lookup (page_remove m pd va).2 va' = page_lookup pd va' := by
  unfold page_remove
  cases hl : page_lookup pd va with
  | none => rfl
  | some e => simpa using page_lookup_setPte_other pd va va' none h

theorem page_remove_pde_isSome (m : PhysMem) (pd : PageDir) (va i : Nat) :
    (((page_remove m pd va).2).pde i).isSome = (pd.pde i).isSome := by
  unfold page_remove
  cases hl : page_lookup pd va with
  | none => rfl
  | some e => simpa using setPte_pde_isSome pd va none i

theorem pgdir_walk_create_pde (m : PhysMem) (pd : PageDir) (va : Nat) (r : PhysMem × PageDir)
    (h : pgdir_walk_create m pd va = some r) : r.2.pde (PDX va) ≠ none := by
  unfold pgdir_walk_create at h
  cases hp : pd.pde (PDX va) with
  | some t =>
    rw [hp] at h
    simp only [Option.some.injEq] at h
    subst h
    simp [hp]
  | none =>
    rw [hp] at h
    cases ha : page_alloc m true with
    | mk o m1 =>
      rw [ha] at h
      cases o with
      | none => exact Option.noConfusion h
      | some pt =>
        simp only [Option.some.injEq] at h
        subst h
        simp

theorem pgdir_walk_create_lookup_other (m : PhysMem) (pd : PageDir) (va va' : Nat)
    (r : PhysMem × PageDir) (h : pgdir_walk_create m pd va = some r)
    (hne : PDX va' ≠ PDX va) : page_lookup r.2 va' = page_lookup pd va' := by
  unfold pgdir_walk_create at h
  cases hp : pd.pde (PDX va) with
  | some t =>
    rw [hp] at h
    simp only [Option.some.injEq] at h
    subst h
    rfl
  | none =>
    rw [hp] at h
    cases ha : page_alloc m true with
    | mk o m1 =>
      rw [ha] at h
      cases o with
      | none => exact Option.noConfusion h
      | some pt =>
        simp only [Option.some.injEq] at h
        subst h
        simp [page_lookup, Function.update_noteq hne]

theorem pgdir_walk_create_lookup_same_dir (m : PhysMem) (pd : PageDir) (va va' : Nat)
    (r : PhysMem × PageDir) (h : pgdir_walk_create m pd va = some r)
    (hp : pd.pde (PDX va) ≠ none) : page_lookup r.2 va' = page_lookup pd va' := by
  unfold pgdir_walk_create at h
  cases hq : pd.pde (PDX va) with
  | none => exact absurd hq hp
  | some t =>
    rw [hq] at h
    simp only [Option.some.injEq] at h
    subst h
    rfl

theorem page_insert_fail (m : PhysMem) (pd : PageDir) (pp va perm : Nat)
    (h : (page_insert m pd pp va perm).1 ≠ 0) :
    page_insert m pd pp va perm = (-E_NO_MEM, m, pd) := by
  unfold page_insert at h ⊢
  cases hw : pgdir_walk_create m pd va with
  | none => rfl
  | some r =>
    rw [hw] at h
    exact absurd rfl h

theorem page_insert_result (m : PhysMem) (pd : PageDir) (pp va perm : Nat) :
    (page_insert m pd pp va perm).1 = 0 ∨ page_insert m pd pp va perm = (-E_NO_MEM, m, pd) := by
  by_cases h : (page_insert m pd pp va perm).1 = 0
  · exact Or.inl h
  · exact Or.inr (page_insert_fail m pd pp va perm h)

theorem page_insert_lookup_same (m : PhysMem) (pd : PageDir) (pp va perm : Nat)
    (h : (page_insert m pd pp va perm).1 = 0) :
    page_lookup (page_insert m pd pp va perm).2.2 va
      = some { frame := pp, perm := perm ||| PTE_P } := by
  unfold page_insert at h ⊢
  cases hw : pgdir_walk_create m pd va with
  | none =>
    rw [hw] at h
    simp [E_NO_MEM] at h
  | some r =>
    simp only []
    apply page_lookup_setPte_same
    have h1 := pgdir_walk_create_pde m pd va r hw
    have h2 := page_remove_pde_isSome
      { r.1 with pp_ref := Function.update r.1.pp_ref pp ((r.1.pp_ref pp + 1) % 65536) } r.2 va (PDX va)
    intro hn
    rw [hn] at h2
    cases hq : r.2.pde (PDX va) with
    | none => exact h1 hq
    | some t => rw [hq] at h2; simp at h2

theorem page_insert_lookup_other (m : PhysMem) (pd : PageDir) (pp va perm va' : Nat)
    (h : PDX va' ≠ PDX va ∨ PTX va' ≠ PTX va) :
    page_lookup (page_insert m pd pp va perm).2.2 va' = page_lookup pd va' := by
  unfold page_insert
  cases hw : pgdir_walk_create m pd va with
  | none => rfl
  | some r =>
    simp only []
    rw [page_lookup_setPte_other _ _ _ _ h, page_lookup_page_remove_other _ _ _ _ h]
    by_cases hd : PDX va' = PDX va
    · cases hp : pd.pde (PDX va) with
      | some t =>
        exact pgdir_walk_create_lookup_same_dir m pd va va' r hw (by rw [hp]; simp)
      | none =>
        have hnone : page_lookup pd va' = none := by
          unfold page_lookup
          rw [hd, hp]
        rw [hnone]
        unfold pgdir_walk_create at hw
        rw [hp] at hw
        cases ha : page_alloc m true with
        | mk o m1 =>
          rw [ha] at hw
          cases o with
          | none => exact Option.noConfusion hw
          | some pt =>
            simp only [Option.some.injEq] at hw
            subst hw
            unfold page_lookup
            rw [hd]
            simp
    · exact pgdir_walk_create_lookup_other m pd va va' r hw hd

/-! ## Frame contents under the helpers -/

theorem ZeroKept.refl (m : PhysMem) : ZeroKept m m := fun _ _ h => h

theorem page_alloc_zeroKept (m : PhysMem) (z : Bool) : ZeroKept m (page_alloc m z).2 := by
  intro f o h
  unfold page_alloc
  cases hl : m.page_free_list with
  | none => exact h
  | some pp =>
    cases z with
    | false => exact h
    | true =>
      by_cases hf : f = pp
      · subst hf; simp
      · simp [Function.update_noteq hf, h]

theorem page_alloc_zeroed (m : PhysMem) (pp : Nat) (m1 : PhysMem)
    (h : page_alloc m true = (some pp, m1)) : ∀ o, m1.data pp o = 0 := by
  intro o
  unfold page_alloc at h
  cases hl : m.page_free_list with
  | none => rw [hl] at h; simp at h
  | some q =>
    rw [hl] at h
    simp only [Prod.mk.injEq, Option.some.injEq, if_true] at h
    obtain ⟨hq, hm⟩ := h
    subst hq
    subst hm
    simp

theorem page_decref_data (m : PhysMem) (pp : Nat) : (page_decref m pp).data = m.data := by
  unfold page_decref page_free
  simp only []
  split <;> rfl

theorem page_remove_data (m : PhysMem) (pd : PageDir) (va : Nat) :
    (page_remove m pd va).1.data = m.data := by
  unfold page_remove
  cases page_lookup pd va with
  | none => rfl
  | some e => exact page_decref_data m e.frame

theorem pgdir_walk_create_zeroKept (m : PhysMem) (pd : PageDir) (va : Nat)
    (r : PhysMem × PageDir) (h : pgdir_walk_create m pd va = some r) : ZeroKept m r.1 := by
  unfold pgdir_walk_create at h
  cases hp : pd.pde (PDX va) with
  | some t =>
    rw [hp] at h
    simp only [Option.some.injEq] at h
    subst h
    exact ZeroKept.refl m
  | none =>
    rw [hp] at h
    have hz := page_alloc_zeroKept m true
    cases ha : page_alloc m true with
    | mk o m1 =>
      rw [ha] at h hz
      cases o with
      | none => exact Option.noConfusion h
      | some pt =>
        simp only [Option.some.injEq] at h
        subst h
        exact hz

theorem page_insert_zeroKept (m : PhysMem) (pd : PageDir) (pp va perm : Nat) :
    ZeroKept m (page_insert m pd pp va perm).2.1 := by
  unfold page_insert
  cases hw : pgdir_walk_create m pd va with
  | none => exact ZeroKept.refl m
  | some r =>
    intro f o h
    simp only []
    rw [page_remove_data]
    exact pgdir_walk_create_zeroKept m pd va r hw f o h

/-! ## The environment-level wrappers -/

@[simp] theorem setTable_table_same (e : Env) (t : Table) (pd : PageDir) :
    (e.setTable t pd).table t = pd := by
  cases t <;> rfl

theorem setTable_table_other (e : Env) (t t' : Table) (pd : PageDir) (h : t' ≠ t) :
    (e.setTable t pd).table t' = e.table t' := by
  cases t <;> cases t' <;> first | rfl | exact absurd rfl h

@[simp] theorem setTable_table_self (e : Env) (t : Table) : e.setTable t (e.table t) = e := by
  cases t <;> rfl

@[simp] theorem setTable_env_id (e : Env) (t : Table) (pd : PageDir) :
    (e.setTable t pd).env_id = e.env_id := by
  cases t <;> rfl

@[simp] theorem setTable_env_parent_id (e : Env) (t : Table) (pd : PageDir) :
    (e.setTable t pd).env_parent_id = e.env_parent_id := by
  cases t <;> rfl

@[simp] theorem setTable_env_status (e : Env) (t : Table) (pd : PageDir) :
    (e.setTable t pd).env_status = e.env_status := by
  cases t <;> rfl

@[simp] theorem setTable_env_ipc_dstva (e : Env) (t : Table) (pd : PageDir) :
    (e.setTable t pd).env_ipc_dstva = e.env_ipc_dstva := by
  cases t <;> rfl

@[simp] theorem setTable_env_ipc_recving (e : Env) (t : Table) (pd : PageDir) :
    (e.setTable t pd).env_ipc_recving = e.env_ipc_recving := by
  cases t <;> rfl

@[simp] theorem setEnv_self (s : State) (e : Nat) : s.setEnv e (s.envs e) = s := by
  unfold State.setEnv
  rw [Function.update_eq_self]

@[simp] theorem setEnv_envs_same (s : State) (e : Nat) (v : Env) : (s.setEnv e v).envs e = v := by
  simp [State.setEnv]

theorem setEnv_envs_other (s : State) (e e' : Nat) (v : Env) (h : e' ≠ e) :
    (s.setEnv e v).envs e' = s.envs e' := by
  simp [State.setEnv, Function.update_noteq h]

@[simp] theorem env_page_insert_fst (s : State) (e : Nat) (t : Table) (pp va perm : Nat) :
    (env_page_insert s e t pp va perm).1 = (page_insert s.mem ((s.envs e).table t) pp va perm).1 :=
  rfl

@[simp] theorem env_page_insert_curenv (s : State) (e : Nat) (t : Table) (pp va perm : Nat) :
    (env_page_insert s e t pp va perm).2.curenv = s.curenv := rfl

@[simp] theorem env_page_insert_mem (s : State) (e : Nat) (t : Table) (pp va perm : Nat) :
    (env_page_insert s e t pp va perm).2.mem
      = (page_insert s.mem ((s.envs e).table t) pp va perm).2.1 := rfl

@[simp] theorem env_page_insert_envs_same (s : State) (e : Nat) (t : Table) (pp va perm : Nat) :
    (env_page_insert s e t pp va perm).2.envs e
      = (s.envs e).setTable t (page_insert s.mem ((s.envs e).table t) pp va perm).2.2 := by
  simp [env_page_insert]

theorem env_page_insert_envs_other (s : State) (e e' : Nat) (t : Table) (pp va perm : Nat)
    (h : e' ≠ e) : (env_page_insert s e t pp va perm).2.envs e' = s.envs e' := by
  simp [env_page_insert, setEnv_envs_other _ _ _ _ h]

theorem env_page_insert_fail (s : State) (e : Nat) (t : Table) (pp va perm : Nat)
    (h : (env_page_insert s e t pp va perm).1 ≠ 0) :
    env_page_insert s e t pp va perm = (-E_NO_MEM, s) := by
  have hf := page_insert_fail s.mem ((s.envs e).table t) pp va perm h
  unfold env_page_insert
  simp only [hf]
  simp

@[simp] theorem env_page_remove_curenv (s : State) (e : Nat) (t : Table) (va : Nat) :
    (env_page_remove s e t va).curenv = s.curenv := rfl

@[simp] theorem env_page_remove_envs_same (s : State) (e : Nat) (t : Table) (va : Nat) :
    (env_page_remove s e t va).envs e
      = (s.envs e).setTable t (page_remove s.mem ((s.envs e).table t) va).2 := by
  simp [env_page_remove]

theorem env_page_remove_envs_other (s : State) (e e' : Nat) (t : Table) (va : Nat)
    (h : e' ≠ e) : (env_page_remove s e t va).envs e' = s.envs e' := by
  simp [env_page_remove, setEnv_envs_other _ _ _ _ h]

theorem env_page_remove_unmapped (s : State) (e : Nat) (t : Table) (va : Nat)
    (h : env_page_lookup s e t va = none) : env_page_remove s e t va = s := by
  unfold env_page_lookup at h
  unfold env_page_remove
  rw [page_remove_unmapped _ _ _ h]
  simp

/-- After a successful insert in the user table followed by a successful insert
in the shadow table, both map `va` to `pp` with `perm | PTE_P`. -/
theorem mirrored_insert_lookup (s : State) (e pp va perm : Nat)
    (h1 : (env_page_insert s e Table.user pp va perm).1 = 0)
    (h2 : (env_page_insert (env_page_insert s e Table.user pp va perm).2 e Table.kern pp va perm).1 = 0) :
    MappedBoth (env_page_insert (env_page_insert s e Table.user pp va perm).2 e Table.kern pp va perm).2
      e va pp (perm ||| PTE_P) := by
  constructor
  · unfold env_page_lookup
    rw [env_page_insert_envs_same, setTable_table_other _ _ _ _ (by decide),
      env_page_insert_envs_same, setTable_table_same]
    exact page_insert_lookup_same _ _ _ _ _ h1
  · unfold env_page_lookup
    rw [env_page_insert_envs_same, setTable_table_same]
    exact page_insert_lookup_same _ _ _ _ _ h2

/-! ## `sys_page_alloc` -/

theorem perm_inappropriate_true_iff (perm : Nat) (hperm : perm < 2 ^ 32) :
    perm_inappropriate perm = true ↔
      (¬ (perm &&& PTE_P = PTE_P ∧ perm &&& PTE_U = PTE_U) ∨
        ∃ i, perm.testBit i = true ∧ PTE_SYSCALL.testBit i = false) := by
  rw [← outside_syscall_iff perm hperm, ← user_present_iff]
  simp [perm_inappropriate]

/-- C1: `sys_page_alloc` rejects `va >= UTOP`, an unaligned `va`, a `perm` lacking
`PTE_P` or `PTE_U`, and a `perm` with a bit outside `PTE_SYSCALL`
(`PTE_P|PTE_W|PTE_U|PTE_AVAIL`, which covers `PTE_COW` and `PTE_SHARE`) with
`-E_INVAL` and an unchanged state; when none of these holds the result is never
`-E_INVAL`. -/
theorem sys_page_alloc_argument_validation (s : State) (envid va perm : Nat)
    (hperm : perm < 2 ^ 32) :
    (PTE_SYSCALL = PTE_P ||| PTE_W ||| PTE_U ||| PTE_AVAIL
      ∧ PTE_COW &&& PTE_SYSCALL = PTE_COW ∧ PTE_SHARE &&& PTE_SYSCALL = PTE_SHARE) ∧
    ((UTOP ≤ va ∨ va % PGSIZE ≠ 0 ∨ ¬ (perm &&& PTE_P = PTE_P ∧ perm &&& PTE_U = PTE_U)
        ∨ ∃ i, perm.testBit i = true ∧ PTE_SYSCALL.testBit i = false) →
      sys_page_alloc s envid va perm = (-E_INVAL, s)) ∧
    (¬ (UTOP ≤ va ∨ va % PGSIZE ≠ 0 ∨ ¬ (perm &&& PTE_P = PTE_P ∧ perm &&& PTE_U = PTE_U)
        ∨ ∃ i, perm.testBit i = true ∧ PTE_SYSCALL.testBit i = false) →
      (sys_page_alloc s envid va perm).1 ≠ -E_INVAL) := by
  have hk := perm_inappropriate_true_iff perm hperm
  have hcond : (UTOP ≤ va ∨ PGOFF va ≠ 0 ∨ perm_inappropriate perm = true) ↔
      (UTOP ≤ va ∨ va % PGSIZE ≠ 0 ∨ ¬ (perm &&& PTE_P = PTE_P ∧ perm &&& PTE_U = PTE_U)
        ∨ ∃ i, perm.testBit i = true ∧ PTE_SYSCALL.testBit i = false) := by
    rw [hk]; rfl
  refine ⟨⟨by decide, by decide, by decide⟩, ?_, ?_⟩
  · intro h
    unfold sys_page_alloc
    rw [if_pos (hcond.2 h)]
  · intro h
    unfold sys_page_alloc
    rw [if_neg (fun hc => h (hcond.1 hc))]
    cases envid2env s envid true with
    | none => simp [E_INVAL, E_BAD_ENV]
    | some e =>
      cases ha : page_alloc s.mem true with
      | mk o m0 =>
        cases o with
        | none => simp [E_INVAL, E_NO_MEM]
        | some pp =>
          simp only []
          split
          · simp [E_INVAL, E_NO_MEM]
          · split
            · simp [E_INVAL, E_NO_MEM]
            · simp [E_INVAL]

/-- C2: when `sys_page_alloc` on an authorized environment, an aligned `va`
below `UTOP` and a valid `perm` returns 0, the user table and the shadow table
of that environment both map `va` to one frame with exactly `perm`, and that
frame holds only zero bytes. -/
theorem sys_page_alloc_then_lookup (s : State) (envid va perm e : Nat)
    (he : envid2env s envid true = some e) (hva : va < UTOP) (hal : va % PGSIZE = 0)
    (hperm : perm_inappropriate perm = false)
    (h0 : (sys_page_alloc s envid va perm).1 = 0) :
    ∃ pp,
      env_page_lookup (sys_page_alloc s envid va perm).2 e Table.user va
        = some { frame := pp, perm := perm } ∧
      env_page_lookup (sys_page_alloc s envid va perm).2 e Table.kern va
        = some { frame := pp, perm := perm } ∧
      ∀ o, (sys_page_alloc s envid va perm).2.mem.data pp o = 0 := by
  have hc : ¬ (UTOP ≤ va ∨ PGOFF va ≠ 0 ∨ perm_inappropriate perm = true) := by
    rintro (h | h | h)
    · exact absurd hva (not_lt.2 h)
    · exact h hal
    · rw [hperm] at h; exact Bool.noConfusion h
  have hor : perm ||| PTE_P = perm :=
    lor_PTE_P_of_user_present perm ((perm_inappropriate_false perm).1 hperm).1
  unfold sys_page_alloc at h0 ⊢
  rw [if_neg hc] at h0 ⊢
  simp only [he] at h0 ⊢
  cases ha : page_alloc s.mem true with
  | mk o m0 =>
    rw [ha] at h0
    cases o with
    | none => simp [E_NO_MEM] at h0
    | some pp =>
      simp only [] at h0 ⊢
      have hz := page_alloc_zeroed s.mem pp m0 ha
      by_cases h1 : (env_page_insert { s with mem := m0 } e Table.user pp va perm).1 = 0
      · rw [if_neg (not_not.2 h1)] at h0 ⊢
        by_cases h2 : (env_page_insert (env_page_insert { s with mem := m0 } e Table.user pp va perm).2
            e Table.kern pp va perm).1 = 0
        · rw [if_neg (not_not.2 h2)]
          have hm := mirrored_insert_lookup { s with mem := m0 } e pp va perm h1 h2
          rw [hor] at hm
          refine ⟨pp, hm.1, hm.2, ?_⟩
          intro o
          apply page_insert_zeroKept
          apply page_insert_zeroKept
          exact hz o
        · rw [if_pos h2] at h0
          simp [E_NO_MEM] at h0
      · rw [if_pos h1] at h0
        simp [E_NO_MEM] at h0

/-- C1 at a concrete call: `sys_page_alloc(0, UTOP, 7)` on the sample state. -/
theorem sys_page_alloc_argument_validation_witness :
    (7 : Nat) < 2 ^ 32 ∧ sys_page_alloc demoState 0 UTOP 7 = (-E_INVAL, demoState) :=
  ⟨by decide,
    (sys_page_alloc_argument_validation demoState 0 UTOP 7 (by decide)).2.1 (Or.inl (le_refl _))⟩

/-- C2 at a concrete call: the child `0x1001` gets a page at `0x900000`. -/
theorem sys_page_alloc_then_lookup_witness :
    envid2env demoState 0x1001 true = some 1 ∧ 0x900000 < UTOP ∧ 0x900000 % PGSIZE = 0 ∧
    perm_inappropriate 7 = false ∧ (sys_page_alloc demoState 0x1001 0x900000 7).1 = 0 ∧
    ∃ pp,
      env_page_lookup (sys_page_alloc demoState 0x1001 0x900000 7).2 1 Table.user 0x900000
        = some { frame := pp, perm := 7 } ∧
      env_page_lookup (sys_page_alloc demoState 0x1001 0x900000 7).2 1 Table.kern 0x900000
        = some { frame := pp, perm := 7 } ∧
      ∀ o, (sys_page_alloc demoState 0x1001 0x900000 7).2.mem.data pp o = 0 :=
  ⟨by decide, by decide, by decide, by decide, by decide,
    sys_page_alloc_then_lookup demoState 0x1001 0x900000 7 1
      (by decide) (by decide) (by decide) (by decide) (by decide)⟩

/-! ## Environment lookup -/

theorem envid2env_checkperm_weaken (s : State) (envid e : Nat)
    (h : envid2env s envid true = some e) : envid2env s envid false = some e := by
  unfold envid2env at h ⊢
  by_cases h0 : envid = 0
  · simpa [h0] using h
  · rw [if_neg h0] at h ⊢
    by_cases h1 : (s.envs (ENVX envid)).env_status = ENV_FREE ∨ (s.envs (ENVX envid)).env_id ≠ envid
    · rw [if_pos h1] at h; exact Option.noConfusion h
    · rw [if_neg h1] at h ⊢
      by_cases h2 : true = true ∧ ENVX envid ≠ s.curenv
          ∧ (s.envs (ENVX envid)).env_parent_id ≠ (s.envs s.curenv).env_id
      · rw [if_pos h2] at h; exact Option.noConfusion h
      · rw [if_neg h2] at h
        simpa using h

theorem envid2env_stranger (s : State) (envid e : Nat)
    (h : envid2env s envid false = some e) (hne : e ≠ s.curenv)
    (hpar : (s.envs e).env_parent_id ≠ (s.envs s.curenv).env_id) :
    envid2env s envid true = none := by
  unfold envid2env at h ⊢
  by_cases h0 : envid = 0
  · rw [if_pos h0] at h
    simp only [Option.some.injEq] at h
    exact absurd h.symm hne
  · rw [if_neg h0] at h ⊢
    by_cases h1 : (s.envs (ENVX envid)).env_status = ENV_FREE ∨ (s.envs (ENVX envid)).env_id ≠ envid
    · rw [if_pos h1]
    · rw [if_neg h1] at h ⊢
      have he : ENVX envid = e := by simpa using h
      rw [he]
      rw [if_pos ⟨rfl, hne, hpar⟩]

theorem envid2env_congr (s s' : State) (hc : s'.curenv = s.curenv)
    (h : ∀ i, (s'.envs i).env_status = (s.envs i).env_status
        ∧ (s'.envs i).env_id = (s.envs i).env_id
        ∧ (s'.envs i).env_parent_id = (s.envs i).env_parent_id)
    (envid : Nat) (cp : Bool) : envid2env s' envid cp = envid2env s envid cp := by
  unfold envid2env
  simp only [hc, (h _).1, (h _).2.1, (h _).2.2]

theorem envid2env_env_page_remove (s : State) (e : Nat) (t : Table) (va envid : Nat) (cp : Bool) :
    envid2env (env_page_remove s e t va) envid cp = envid2env s envid cp := by
  refine envid2env_congr s (env_page_remove s e t va) rfl ?_ envid cp
  intro i
  by_cases hi : i = e
  · subst hi; simp
  · rw [env_page_remove_envs_other _ _ _ _ _ hi]; simp

theorem envid2env_env_page_insert (s : State) (e : Nat) (t : Table) (pp va perm envid : Nat)
    (cp : Bool) :
    envid2env (env_page_insert s e t pp va perm).2 envid cp = envid2env s envid cp := by
  refine envid2env_congr s (env_page_insert s e t pp va perm).2 rfl ?_ envid cp
  intro i
  by_cases hi : i = e
  · subst hi; simp
  · rw [env_page_insert_envs_other _ _ _ _ _ _ _ hi]; simp

/-! ## Lookups after an insert or a removal -/

theorem page_lookup_congr (pd : PageDir) (va va' : Nat) (hd : PDX va' = PDX va)
    (ht : PTX va' = PTX va) : page_lookup pd va' = page_lookup pd va := by
  unfold page_lookup
  rw [hd, ht]

theorem env_page_lookup_remove (s : State) (e : Nat) (t : Table) (va e' : Nat) (t' : Table)
    (va' : Nat) :
    env_page_lookup (env_page_remove s e t va) e' t' va' =
      if e' = e ∧ t' = t ∧ PDX va' = PDX va ∧ PTX va' = PTX va then none
      else env_page_lookup s e' t' va' := by
  unfold env_page_lookup
  by_cases he : e' = e
  · subst he
    rw [env_page_remove_envs_same]
    by_cases ht : t' = t
    · subst ht
      rw [setTable_table_same]
      by_cases hv : PDX va' = PDX va ∧ PTX va' = PTX va
      · rw [if_pos ⟨rfl, rfl, hv⟩, page_lookup_congr _ _ _ hv.1 hv.2]
        exact page_lookup_page_remove_same _ _ _
      · rw [if_neg (fun h => hv h.2.2)]
        apply page_lookup_page_remove_other
        by_contra hcon
        push_neg at hcon
        exact hv hcon
    · rw [if_neg (fun h => ht h.2.1), setTable_table_other _ _ _ _ ht]
  · rw [if_neg (fun h => he h.1), env_page_remove_envs_other _ _ _ _ _ he]

theorem env_page_lookup_insert (s : State) (e : Nat) (t : Table) (pp va perm e' : Nat)
    (t' : Table) (va' : Nat) (h : (env_page_insert s e t pp va perm).1 = 0) :
    env_page_lookup (env_page_insert s e t pp va perm).2 e' t' va' =
      if e' = e ∧ t' = t ∧ PDX va' = PDX va ∧ PTX va' = PTX va then
        some { frame := pp, perm := perm ||| PTE_P }
      else env_page_lookup s e' t' va' := by
  unfold env_page_lookup
  by_cases he : e' = e
  · subst he
    rw [env_page_insert_envs_same]
    by_cases ht : t' = t
    · subst ht
      rw [setTable_table_same]
      by_cases hv : PDX va' = PDX va ∧ PTX va' = PTX va
      · rw [if_pos ⟨rfl, rfl, hv⟩, page_lookup_congr _ _ _ hv.1 hv.2]
        exact page_insert_lookup_same _ _ _ _ _ h
      · rw [if_neg (fun h => hv h.2.2)]
        apply page_insert_lookup_other
        by_contra hcon
        push_neg at hcon
        exact hv hcon
    · rw [if_neg (fun h => ht h.2.1), setTable_table_other _ _ _ _ ht]
  · rw [if_neg (fun h => he h.1), env_page_insert_envs_other _ _ _ _ _ _ _ he]

theorem page_index_ne (va va' : Nat) (h : va < 2 ^ 32) (h' : va' < 2 ^ 32)
    (hne : va' / PGSIZE ≠ va / PGSIZE) : ¬ (PDX va' = PDX va ∧ PTX va' = PTX va) := by
  unfold PDX PTX PTSIZE NPTENTRIES
  unfold PGSIZE at hne ⊢
  omega

/-! ## `sys_page_map` -/

theorem sys_page_map_ok_inv (s : State) (srcenvid srcva dstenvid dstva perm : Nat)
    (h0 : (sys_page_map s srcenvid srcva dstenvid dstva perm).1 = 0) :
    ∃ src dst pte,
      ¬ (UTOP ≤ srcva ∨ PGOFF srcva ≠ 0 ∨ UTOP ≤ dstva ∨ PGOFF dstva ≠ 0
          ∨ perm_inappropriate perm = true) ∧
      envid2env s srcenvid true = some src ∧ envid2env s dstenvid true = some dst ∧
      env_page_lookup s src Table.user srcva = some pte ∧
      ¬ (pte.perm &&& PTE_W = 0 ∧ perm &&& PTE_W ≠ 0) ∧
      (env_page_insert s dst Table.user pte.frame dstva perm).1 = 0 ∧
      (env_page_insert (env_page_insert s dst Table.user pte.frame dstva perm).2
        dst Table.kern pte.frame dstva perm).1 = 0 ∧
      (sys_page_map s srcenvid srcva dstenvid dstva perm).2 =
        (env_page_insert (env_page_insert s dst Table.user pte.frame dstva perm).2
          dst Table.kern pte.frame dstva perm).2 := by
  unfold sys_page_map at h0 ⊢
  by_cases hc : UTOP ≤ srcva ∨ PGOFF srcva ≠ 0 ∨ UTOP ≤ dstva ∨ PGOFF dstva ≠ 0
      ∨ perm_inappropriate perm = true
  · rw [if_pos hc] at h0; simp [E_INVAL] at h0
  · rw [if_neg hc] at h0 ⊢
    cases hs : envid2env s srcenvid true with
    | none => rw [hs] at h0; simp [E_BAD_ENV] at h0
    | some src =>
      cases hd : envid2env s dstenvid true with
      | none => rw [hs, hd] at h0; simp [E_BAD_ENV] at h0
      | some dst =>
        cases hl : env_page_lookup s src Table.user srcva with
        | none => rw [hs, hd] at h0; simp only [hl] at h0; simp [E_INVAL] at h0
        | some pte =>
          rw [hs, hd] at h0
          simp only [hl] at h0 ⊢
          by_cases hw : pte.perm &&& PTE_W = 0 ∧ perm &&& PTE_W ≠ 0
          · rw [if_pos hw] at h0; simp [E_INVAL] at h0
          · rw [if_neg hw] at h0 ⊢
            by_cases h1 : (env_page_insert s dst Table.user pte.frame dstva perm).1 = 0
            · rw [if_neg (not_not.2 h1)] at h0 ⊢
              by_cases h2 : (env_page_insert (env_page_insert s dst Table.user pte.frame dstva perm).2
                  dst Table.kern pte.frame dstva perm).1 = 0
              · rw [if_neg (not_not.2 h2)]
                exact ⟨src, dst, pte, hc, rfl, rfl, hl, hw, h1, h2, rfl⟩
              · rw [if_pos h2] at h0; simp [E_NO_MEM] at h0
            · rw [if_pos h1] at h0; simp [E_NO_MEM] at h0

/-- When the source page is missing, or is read-only while `perm` asks for
`PTE_W`, `sys_page_map` leaves the state alone and fails with `-E_INVAL` or
`-E_BAD_ENV`; it is `-E_INVAL` once both identifiers pass the lookup. -/
theorem sys_page_map_refused (s : State) (srcenvid srcva dstenvid dstva perm src : Nat)
    (hsrc : envid2env s srcenvid false = some src)
    (hbad : env_page_lookup s src Table.user srcva = none ∨
      ∃ pte, env_page_lookup s src Table.user srcva = some pte
        ∧ pte.perm &&& PTE_W = 0 ∧ perm &&& PTE_W ≠ 0) :
    (sys_page_map s srcenvid srcva dstenvid dstva perm).2 = s ∧
    ((sys_page_map s srcenvid srcva dstenvid dstva perm).1 = -E_INVAL ∨
      (sys_page_map s srcenvid srcva dstenvid dstva perm).1 = -E_BAD_ENV) ∧
    (envid2env s srcenvid true ≠ none → envid2env s dstenvid true ≠ none →
      (sys_page_map s srcenvid srcva dstenvid dstva perm).1 = -E_INVAL) := by
  unfold sys_page_map
  by_cases hc : UTOP ≤ srcva ∨ PGOFF srcva ≠ 0 ∨ UTOP ≤ dstva ∨ PGOFF dstva ≠ 0
      ∨ perm_inappropriate perm = true
  · rw [if_pos hc]
    exact ⟨rfl, Or.inl rfl, fun _ _ => rfl⟩
  · rw [if_neg hc]
    cases hs : envid2env s srcenvid true with
    | none => exact ⟨rfl, Or.inr rfl, fun h _ => absurd rfl h⟩
    | some src' =>
      have hsame : src' = src := by
        have := envid2env_checkperm_weaken s srcenvid src' hs
        rw [hsrc] at this
        exact (Option.some.inj this).symm
      subst hsame
      cases hd : envid2env s dstenvid true with
      | none => exact ⟨rfl, Or.inr rfl, fun _ h => absurd rfl h⟩
      | some dst =>
        rcases hbad with hn | ⟨pte, hl, hro, hw⟩
        · simp [hn]
        · simp only [hl]
          rw [if_pos ⟨hro, hw⟩]
          exact ⟨rfl, Or.inl rfl, fun _ _ => rfl⟩

/-- C3 (as amended): when `srcva` is mapped read-only in the source environment
and `perm` contains `PTE_W`, `sys_page_map` changes nothing (so the destination
tables are as before) and fails: with `-E_INVAL` whenever both identifiers pass
the ownership-enforcing lookup, and otherwise with `-E_INVAL` or `-E_BAD_ENV`. -/
theorem sys_page_map_never_grants_write (s : State)
    (srcenvid srcva dstenvid dstva perm src : Nat) (pte : Pte)
    (hsrc : envid2env s srcenvid false = some src)
    (hmap : env_page_lookup s src Table.user srcva = some pte)
    (hro : pte.perm &&& PTE_W = 0) (hw : perm &&& PTE_W ≠ 0) :
    (sys_page_map s srcenvid srcva dstenvid dstva perm).2 = s ∧
    ((sys_page_map s srcenvid srcva dstenvid dstva perm).1 = -E_INVAL ∨
      (sys_page_map s srcenvid srcva dstenvid dstva perm).1 = -E_BAD_ENV) ∧
    (envid2env s srcenvid true ≠ none → envid2env s dstenvid true ≠ none →
      (sys_page_map s srcenvid srcva dstenvid dstva perm).1 = -E_INVAL) :=
  sys_page_map_refused s srcenvid srcva dstenvid dstva perm src hsrc
    (Or.inr ⟨pte, hmap, hro, hw⟩)

/-- C3 fails as stated: the caller's read-only page at `0x800000`, offered with
`PTE_W` to the live but unrelated environment `0x1002`, is refused with
`-E_BAD_ENV`, not `-E_INVAL`. -/
theorem sys_page_map_write_grant_bad_env :
    envid2env demoState 0 false = some 0 ∧
    env_page_lookup demoState 0 Table.user 0x800000 = some { frame := 100, perm := 5 } ∧
    5 &&& PTE_W = 0 ∧ 7 &&& PTE_W ≠ 0 ∧
    envid2env demoState 0x1002 false = some 2 ∧
    (sys_page_map demoState 0 0x800000 0x1002 0x800000 7).1 = -E_BAD_ENV ∧
    (sys_page_map demoState 0 0x800000 0x1002 0x800000 7).1 ≠ -E_INVAL := by
  decide

/-- C3 (as amended) at a concrete call: the same page offered with `PTE_W` to
the caller's child `0x1001`. -/
theorem sys_page_map_never_grants_write_witness :
    envid2env demoState 0 false = some 0 ∧
    env_page_lookup demoState 0 Table.user 0x800000 = some { frame := 100, perm := 5 } ∧
    5 &&& PTE_W = 0 ∧ 7 &&& PTE_W ≠ 0 ∧
    (sys_page_map demoState 0 0x800000 0x1001 0x800000 7).2 = demoState ∧
    (sys_page_map demoState 0 0x800000 0x1001 0x800000 7).1 = -E_INVAL :=
  have h := sys_page_map_never_grants_write demoState 0 0x800000 0x1001 0x800000 7 0
    { frame := 100, perm := 5 } (by decide) (by decide) (by decide) (by decide)
  ⟨by decide, by decide, by decide, by decide, h.1, h.2.2 (by decide) (by decide)⟩

/-- C4 (as amended): when `sys_page_map` returns 0, both identifiers passed the
lookup, `srcva` was mapped in the source's user table, and `dstva` in the
destination is mapped in both tables to that frame with exactly `perm`.  When
`srcva` is not mapped in the source environment the call never returns 0: it
fails with `-E_INVAL` once both identifiers pass the lookup, and otherwise with
`-E_INVAL` or `-E_BAD_ENV`. -/
theorem sys_page_map_postcondition (s : State) (srcenvid srcva dstenvid dstva perm : Nat) :
    ((sys_page_map s srcenvid srcva dstenvid dstva perm).1 = 0 →
      ∃ src dst pte,
        envid2env s srcenvid true = some src ∧ envid2env s dstenvid true = some dst ∧
        env_page_lookup s src Table.user srcva = some pte ∧
        env_page_lookup (sys_page_map s srcenvid srcva dstenvid dstva perm).2 dst Table.user dstva
          = some { frame := pte.frame, perm := perm } ∧
        env_page_lookup (sys_page_map s srcenvid srcva dstenvid dstva perm).2 dst Table.kern dstva
          = some { frame := pte.frame, perm := perm }) ∧
    (∀ src, envid2env s srcenvid false = some src →
      env_page_lookup s src Table.user srcva = none →
        (sys_page_map s srcenvid srcva dstenvid dstva perm).1 ≠ 0 ∧
        ((sys_page_map s srcenvid srcva dstenvid dstva perm).1 = -E_INVAL ∨
          (sys_page_map s srcenvid srcva dstenvid dstva perm).1 = -E_BAD_ENV) ∧
        (envid2env s srcenvid true ≠ none → envid2env s dstenvid true ≠ none →
          (sys_page_map s srcenvid srcva dstenvid dstva perm).1 = -E_INVAL)) := by
  constructor
  · intro h0
    obtain ⟨src, dst, pte, hc, hs, hd, hl, _, h1, h2, hst⟩ :=
      sys_page_map_ok_inv s srcenvid srcva dstenvid dstva perm h0
    have hp : perm_inappropriate perm = false := by
      cases hpi : perm_inappropriate perm with
      | false => rfl
      | true => exact absurd (Or.inr (Or.inr (Or.inr (Or.inr hpi)))) hc
    have hor : perm ||| PTE_P = perm :=
      lor_PTE_P_of_user_present perm ((perm_inappropriate_false perm).1 hp).1
    have hm := mirrored_insert_lookup s dst pte.frame dstva perm h1 h2
    rw [hor, ← hst] at hm
    exact ⟨src, dst, pte, hs, hd, hl, hm.1, hm.2⟩
  · intro src hsrc hn
    have h := sys_page_map_refused s srcenvid srcva dstenvid dstva perm src hsrc (Or.inl hn)
    refine ⟨?_, h.2.1, h.2.2⟩
    rcases h.2.1 with h1 | h1 <;> rw [h1] <;> decide

/-- C4 fails as stated: `srcva = 0x900000` is not mapped in the caller, yet
with the unrelated destination `0x1002` the call returns `-E_BAD_ENV`, not
`-E_INVAL`. -/
theorem sys_page_map_unmapped_source_bad_env :
    envid2env demoState 0 false = some 0 ∧
    env_page_lookup demoState 0 Table.user 0x900000 = none ∧
    envid2env demoState 0x1002 false = some 2 ∧
    (sys_page_map demoState 0 0x900000 0x1002 0x900000 5).1 = -E_BAD_ENV ∧
    (sys_page_map demoState 0 0x900000 0x1002 0x900000 5).1 ≠ -E_INVAL := by
  decide

/-- C4 (as amended) at a concrete call: the caller shares its writable page at
`0x801000` with its child `0x1001` at `0x900000`. -/
theorem sys_page_map_postcondition_witness :
    (sys_page_map demoState 0 0x801000 0x1001 0x900000 7).1 = 0 ∧
    ∃ src dst pte,
      envid2env demoState 0 true = some src ∧ envid2env demoState 0x1001 true = some dst ∧
      env_page_lookup demoState src Table.user 0x801000 = some pte ∧
      env_page_lookup (sys_page_map demoState 0 0x801000 0x1001 0x900000 7).2 dst Table.user
          0x900000 = some { frame := pte.frame, perm := 7 } ∧
      env_page_lookup (sys_page_map demoState 0 0x801000 0x1001 0x900000 7).2 dst Table.kern
          0x900000 = some { frame := pte.frame, perm := 7 } :=
  ⟨by decide, (sys_page_map_postcondition demoState 0 0x801000 0x1001 0x900000 7).1 (by decide)⟩

/-- C5 (as amended): `sys_page_map` enforces the parent-or-self rule on the
source as well: for a live source environment that is neither the caller nor a
child of the caller, with aligned addresses below `UTOP` and a valid `perm`
(whatever the destination and whether or not `srcva` is mapped), it fails with
`-E_BAD_ENV` and changes nothing. -/
theorem sys_page_map_requires_source_ownership (s : State)
    (srcenvid srcva dstenvid dstva perm src : Nat)
    (hlive : envid2env s srcenvid false = some src)
    (hnc : src ≠ s.curenv)
    (hnchild : (s.envs src).env_parent_id ≠ (s.envs s.curenv).env_id)
    (hsrcva : srcva < UTOP ∧ srcva % PGSIZE = 0) (hdstva : dstva < UTOP ∧ dstva % PGSIZE = 0)
    (hperm : perm_inappropriate perm = false) :
    sys_page_map s srcenvid srcva dstenvid dstva perm = (-E_BAD_ENV, s) := by
  have hc : ¬ (UTOP ≤ srcva ∨ PGOFF srcva ≠ 0 ∨ UTOP ≤ dstva ∨ PGOFF dstva ≠ 0
      ∨ perm_inappropriate perm = true) := by
    rintro (h | h | h | h | h)
    · exact absurd hsrcva.1 (not_lt.2 h)
    · exact h hsrcva.2
    · exact absurd hdstva.1 (not_lt.2 h)
    · exact h hdstva.2
    · rw [hperm] at h; exact Bool.noConfusion h
  unfold sys_page_map
  rw [if_neg hc, envid2env_stranger s srcenvid src hlive hnc hnchild]

/-- C5 fails as stated: the live environment `0x1002` is neither the caller
nor its child, every other argument is valid, the destination is the caller
itself and `srcva` is mapped in the source, yet the call fails with `-E_BAD_ENV`. -/
theorem sys_page_map_stranger_source_bad_env :
    envid2env demoState 0x1002 false = some 2 ∧ 2 ≠ demoState.curenv ∧
    (demoState.envs 2).env_parent_id ≠ (demoState.envs demoState.curenv).env_id ∧
    envid2env demoState 0 true = some 0 ∧
    0x800000 < UTOP ∧ 0x800000 % PGSIZE = 0 ∧ 0xA00000 < UTOP ∧ 0xA00000 % PGSIZE = 0 ∧
    perm_inappropriate 5 = false ∧
    env_page_lookup demoState 2 Table.user 0x800000 = some { frame := 100, perm := 5 } ∧
    (sys_page_map demoState 0x1002 0x800000 0 0xA00000 5).1 = -E_BAD_ENV := by
  decide

/-- C5 (as amended) at a concrete call: source `0x1002`, destination the caller. -/
theorem sys_page_map_requires_source_ownership_witness :
    envid2env demoState 0x1002 false = some 2 ∧ 2 ≠ demoState.curenv ∧
    (demoState.envs 2).env_parent_id ≠ (demoState.envs demoState.curenv).env_id ∧
    (0x800000 < UTOP ∧ 0x800000 % PGSIZE = 0) ∧ (0xA00000 < UTOP ∧ 0xA00000 % PGSIZE = 0) ∧
    perm_inappropriate 5 = false ∧
    sys_page_map demoState 0x1002 0x800000 0 0xA00000 5 = (-E_BAD_ENV, demoState) :=
  ⟨by decide, by decide, by decide, by decide, by decide, by decide,
    sys_page_map_requires_source_ownership demoState 0x1002 0x800000 0 0xA00000 5 2
      (by decide) (by decide) (by decide) (by decide) (by decide) (by decide)⟩

/-! ## `sys_page_unmap` -/

/-- C6: on an authorized environment and an aligned `va` below `UTOP`,
`sys_page_unmap` returns 0 whether or not `va` was mapped; afterwards `va` is
unmapped in the user and the shadow table, the mapping of every other page (of
this and of every other environment, in either table) is unchanged, and a second
call returns 0 again and leaves the state exactly as the first call left it. -/
theorem sys_page_unmap_idempotent (s : State) (envid va e : Nat)
    (he : envid2env s envid true = some e) (hva : va < UTOP) (hal : va % PGSIZE = 0) :
    (sys_page_unmap s envid va).1 = 0 ∧
    env_page_lookup (sys_page_unmap s envid va).2 e Table.user va = none ∧
    env_page_lookup (sys_page_unmap s envid va).2 e Table.kern va = none ∧
    (∀ e' t va', va' < 2 ^ 32 → (e' ≠ e ∨ va' / PGSIZE ≠ va / PGSIZE) →
      env_page_lookup (sys_page_unmap s envid va).2 e' t va' = env_page_lookup s e' t va') ∧
    sys_page_unmap (sys_page_unmap s envid va).2 envid va = (0, (sys_page_unmap s envid va).2) := by
  have hc : ¬ (UTOP ≤ va ∨ PGOFF va ≠ 0) := by
    rintro (h | h)
    · exact absurd hva (not_lt.2 h)
    · exact h hal
  have hres : sys_page_unmap s envid va
      = (0, env_page_remove (env_page_remove s e Table.user va) e Table.kern va) := by
    unfold sys_page_unmap
    rw [if_neg hc, he]
  have hu : env_page_lookup (env_page_remove (env_page_remove s e Table.user va) e Table.kern va)
      e Table.user va = none := by
    rw [env_page_lookup_remove, if_neg (by simp), env_page_lookup_remove, if_pos ⟨rfl, rfl, rfl, rfl⟩]
  have hk : env_page_lookup (env_page_remove (env_page_remove s e Table.user va) e Table.kern va)
      e Table.kern va = none := by
    rw [env_page_lookup_remove, if_pos ⟨rfl, rfl, rfl, rfl⟩]
  rw [hres]
  refine ⟨rfl, hu, hk, ?_, ?_⟩
  · intro e' t va' hva' hne
    have hlt : va < 2 ^ 32 := lt_trans hva (by decide)
    have hidx : ¬ (e' = e ∧ PDX va' = PDX va ∧ PTX va' = PTX va) := by
      rintro ⟨h1, h2⟩
      rcases hne with h | h
      · exact h h1
      · exact page_index_ne va va' hlt hva' h h2
    rw [env_page_lookup_remove, if_neg (fun h => hidx ⟨h.1, h.2.2⟩),
      env_page_lookup_remove, if_neg (fun h => hidx ⟨h.1, h.2.2⟩)]
  · unfold sys_page_unmap
    rw [if_neg hc, envid2env_env_page_remove, envid2env_env_page_remove, he]
    simp only []
    rw [env_page_remove_unmapped _ e Table.user va hu, env_page_remove_unmapped _ e Table.kern va hk]

/-- C6 at a concrete call: the caller unmaps its page at `0x800000`. -/
theorem sys_page_unmap_idempotent_witness :
    envid2env demoState 0 true = some 0 ∧ 0x800000 < UTOP ∧ 0x800000 % PGSIZE = 0 ∧
    (sys_page_unmap demoState 0 0x800000).1 = 0 ∧
    env_page_lookup demoState 0 Table.user 0x800000 ≠ none ∧
    env_page_lookup (sys_page_unmap demoState 0 0x800000).2 0 Table.user 0x800000 = none ∧
    sys_page_unmap (sys_page_unmap demoState 0 0x800000).2 0 0x800000
      = (0, (sys_page_unmap demoState 0 0x800000).2) :=
  have h := sys_page_unmap_idempotent demoState 0 0x800000 0 (by decide) (by decide) (by decide)
  ⟨by decide, by decide, by decide, h.1, by decide, h.2.1, h.2.2.2.2⟩

/-! ## `sys_ipc_try_send` -/

/-- C7: in the default build, a send to a live environment whose
`env_ipc_recving` is 0 returns `-E_IPC_NOT_RECV` and the whole state (sender,
target and every other environment, all mappings, all frames) is unchanged. -/
theorem sys_ipc_try_send_not_receiving (s : State) (envid value srcva perm env : Nat)
    (hlive : envid2env s envid false = some env)
    (hrecv : (s.envs env).env_ipc_recving = 0) :
    sys_ipc_try_send s envid value srcva perm = (-E_IPC_NOT_RECV, s) := by
  unfold sys_ipc_try_send
  rw [hlive]
  simp only []
  rw [if_pos hrecv]

/-- C7 at a concrete call: the caller sends to its child, which is not receiving. -/
theorem sys_ipc_try_send_not_receiving_witness :
    envid2env demoState 0x1001 false = some 1 ∧ (demoState.envs 1).env_ipc_recving = 0 ∧
    sys_ipc_try_send demoState 0x1001 42 0x801000 7 = (-E_IPC_NOT_RECV, demoState) :=
  ⟨by decide, by decide,
    sys_ipc_try_send_not_receiving demoState 0x1001 42 0x801000 7 1 (by decide) (by decide)⟩

theorem env_page_insert_env_id (s : State) (e : Nat) (t : Table) (pp va perm i : Nat) :
    ((env_page_insert s e t pp va perm).2.envs i).env_id = (s.envs i).env_id := by
  by_cases hi : i = e
  · subst hi; simp
  · rw [env_page_insert_envs_other _ _ _ _ _ _ _ hi]

theorem env_page_insert_env_ipc_dstva (s : State) (e : Nat) (t : Table) (pp va perm i : Nat) :
    ((env_page_insert s e t pp va perm).2.envs i).env_ipc_dstva = (s.envs i).env_ipc_dstva := by
  by_cases hi : i = e
  · subst hi; simp
  · rw [env_page_insert_envs_other _ _ _ _ _ _ _ hi]

theorem ipc_deliver_lookup (s : State) (env value perm : Nat) (b : Bool) (e : Nat) (t : Table)
    (va : Nat) :
    env_page_lookup (ipc_deliver s env value perm b) e t va = env_page_lookup s e t va := by
  unfold env_page_lookup ipc_deliver
  by_cases he : e = env
  · subst he
    rw [setEnv_envs_same]
    cases t <;> rfl
  · rw [setEnv_envs_other _ _ _ _ he]

theorem ipc_deliver_mem (s : State) (env value perm : Nat) (b : Bool) :
    (ipc_deliver s env value perm b).mem = s.mem := rfl

/-- The fields `ipc_deliver` leaves in the target. -/
theorem ipc_deliver_fields (s : State) (env value perm : Nat) (b : Bool) :
    ((ipc_deliver s env value perm b).envs env).env_ipc_recving = 0 ∧
    ((ipc_deliver s env value perm b).envs env).env_ipc_from = (s.envs s.curenv).env_id ∧
    ((ipc_deliver s env value perm b).envs env).env_ipc_value = value ∧
    ((ipc_deliver s env value perm b).envs env).env_ipc_perm = (if b then perm else 0) ∧
    ((ipc_deliver s env value perm b).envs env).env_tf.tf_regs.reg_eax = 0 ∧
    ((ipc_deliver s env value perm b).envs env).env_status = ENV_RUNNABLE := by
  unfold ipc_deliver
  rw [setEnv_envs_same]
  exact ⟨rfl, rfl, rfl, rfl, rfl, rfl⟩

/-- What a successful `sys_ipc_try_send` did: either no page was to be sent and
the message was delivered on the unchanged tables, or every page check passed,
both inserts at the target's `env_ipc_dstva` succeeded and then the message was
delivered. -/
theorem sys_ipc_try_send_ok_inv (s : State) (envid value srcva perm env : Nat)
    (hlive : envid2env s envid false = some env)
    (h0 : (sys_ipc_try_send s envid value srcva perm).1 = 0) :
    (s.envs env).env_ipc_recving ≠ 0 ∧
    ((send_page s env srcva = false ∧
        (sys_ipc_try_send s envid value srcva perm).2 = ipc_deliver s env value perm false) ∨
     (send_page s env srcva = true ∧ PGOFF srcva = 0 ∧ perm_inappropriate perm = false ∧
        ∃ pte, env_page_lookup s s.curenv Table.user srcva = some pte ∧
          ¬ (perm &&& PTE_W ≠ 0 ∧ pte.perm &&& PTE_W = 0) ∧
          (env_page_insert s env Table.user pte.frame (s.envs env).env_ipc_dstva perm).1 = 0 ∧
          (env_page_insert
            (env_page_insert s env Table.user pte.frame (s.envs env).env_ipc_dstva perm).2
            env Table.kern pte.frame (s.envs env).env_ipc_dstva perm).1 = 0 ∧
          (sys_ipc_try_send s envid value srcva perm).2 =
            ipc_deliver
              (env_page_insert
                (env_page_insert s env Table.user pte.frame (s.envs env).env_ipc_dstva perm).2
                env Table.kern pte.frame (s.envs env).env_ipc_dstva perm).2
              env value perm true)) := by
  unfold sys_ipc_try_send at h0 ⊢
  rw [hlive] at h0 ⊢
  simp only [] at h0 ⊢
  by_cases hr : (s.envs env).env_ipc_recving = 0
  · rw [if_pos hr] at h0; simp [E_IPC_NOT_RECV] at h0
  · rw [if_neg hr] at h0 ⊢
    refine ⟨hr, ?_⟩
    cases hsp : send_page s env srcva with
    | false =>
      left
      simp
    | true =>
      right
      rw [hsp] at h0
      simp only [if_true] at h0 ⊢
      by_cases ho : PGOFF srcva ≠ 0
      · rw [if_pos ho] at h0; simp [E_INVAL] at h0
      · rw [if_neg ho] at h0 ⊢
        by_cases hp : perm_inappropriate perm = true
        · rw [if_pos hp] at h0; simp [E_INVAL] at h0
        · rw [if_neg hp] at h0 ⊢
          cases hl : env_page_lookup s s.curenv Table.user srcva with
          | none => simp only [hl] at h0; simp [E_INVAL] at h0
          | some pte =>
            simp only [hl] at h0 ⊢
            by_cases hw : perm &&& PTE_W ≠ 0 ∧ pte.perm &&& PTE_W = 0
            · rw [if_pos hw] at h0; simp [E_INVAL] at h0
            · rw [if_neg hw] at h0 ⊢
              rw [env_page_insert_env_ipc_dstva] at h0 ⊢
              by_cases h1 : (env_page_insert s env Table.user pte.frame
                  (s.envs env).env_ipc_dstva perm).1 = 0
              · rw [if_neg (not_not.2 h1)] at h0 ⊢
                by_cases h2 : (env_page_insert
                    (env_page_insert s env Table.user pte.frame (s.envs env).env_ipc_dstva perm).2
                    env Table.kern pte.frame (s.envs env).env_ipc_dstva perm).1 = 0
                · rw [if_neg (not_not.2 h2)]
                  refine ⟨trivial, not_not.1 ho, ?_, pte, rfl, hw, h1, h2, rfl⟩
                  simpa using hp
                · rw [if_pos h2] at h0; simp [E_NO_MEM] at h0
              · rw [if_pos h1] at h0; simp [E_NO_MEM] at h0

/-- C8: a send to a live environment (found without any ownership check) that
returns 0 found `env_ipc_recving` set and leaves the target with `env_ipc_recving = 0`,
`env_ipc_from` the caller's `env_id`, `env_ipc_value = value`, `env_ipc_perm`
equal to `perm` when a page was transferred and 0 otherwise, saved `eax = 0` and
status `ENV_RUNNABLE`.  A page is transferred exactly when `send_page` holds:
then the target's `env_ipc_dstva` maps, in both tables, the frame found at
`srcva` in the caller with exactly `perm`; otherwise no mapping changes. -/
theorem sys_ipc_try_send_success (s : State) (envid value srcva perm env : Nat)
    (hlive : envid2env s envid false = some env)
    (h0 : (sys_ipc_try_send s envid value srcva perm).1 = 0) :
    (s.envs env).env_ipc_recving ≠ 0 ∧
    ((sys_ipc_try_send s envid value srcva perm).2.envs env).env_ipc_recving = 0 ∧
    ((sys_ipc_try_send s envid value srcva perm).2.envs env).env_ipc_from
      = (s.envs s.curenv).env_id ∧
    ((sys_ipc_try_send s envid value srcva perm).2.envs env).env_ipc_value = value ∧
    ((sys_ipc_try_send s envid value srcva perm).2.envs env).env_ipc_perm
      = (if send_page s env srcva = true then perm else 0) ∧
    ((sys_ipc_try_send s envid value srcva perm).2.envs env).env_tf.tf_regs.reg_eax = 0 ∧
    ((sys_ipc_try_send s envid value srcva perm).2.envs env).env_status = ENV_RUNNABLE ∧
    (send_page s env srcva = true →
      ∃ pte, env_page_lookup s s.curenv Table.user srcva = some pte ∧
        MappedBoth (sys_ipc_try_send s envid value srcva perm).2 env
          (s.envs env).env_ipc_dstva pte.frame perm) ∧
    (send_page s env srcva = false → ∀ e t va,
      env_page_lookup (sys_ipc_try_send s envid value srcva perm).2 e t va
        = env_page_lookup s e t va) := by
  obtain ⟨hrecv, hcase⟩ := sys_ipc_try_send_ok_inv s envid value srcva perm env hlive h0
  rcases hcase with ⟨hsp, hst⟩ | ⟨hsp, _, hp, pte, hl, _, h1, h2, hst⟩
  · rw [hst, hsp]
    obtain ⟨f1, f2, f3, f4, f5, f6⟩ := ipc_deliver_fields s env value perm false
    refine ⟨hrecv, f1, f2, f3, by simpa using f4, f5, f6, ?_, ?_⟩
    · intro h; exact Bool.noConfusion h
    · intro _ e t va
      exact ipc_deliver_lookup s env value perm false e t va
  · rw [hst, hsp]
    obtain ⟨f1, f2, f3, f4, f5, f6⟩ := ipc_deliver_fields
      (env_page_insert
        (env_page_insert s env Table.user pte.frame (s.envs env).env_ipc_dstva perm).2
        env Table.kern pte.frame (s.envs env).env_ipc_dstva perm).2 env value perm true
    have hor : perm ||| PTE_P = perm :=
      lor_PTE_P_of_user_present perm ((perm_inappropriate_false perm).1 hp).1
    refine ⟨hrecv, f1, ?_, f3, by simpa using f4, f5, f6, ?_, ?_⟩
    · rw [f2, env_page_insert_curenv, env_page_insert_curenv, env_page_insert_env_id,
        env_page_insert_env_id]
    · intro _
      have hm := mirrored_insert_lookup s env pte.frame (s.envs env).env_ipc_dstva perm h1 h2
      rw [hor] at hm
      refine ⟨pte, hl, ?_, ?_⟩
      · rw [ipc_deliver_lookup]; exact hm.1
      · rw [ipc_deliver_lookup]; exact hm.2
    · intro h; exact Bool.noConfusion h

/-- C8 at a concrete call: slot 0 sends its page at `0x801000` to the child
waiting at `0x900000`. -/
theorem sys_ipc_try_send_success_witness :
    envid2env recvWithPage 0x1001 false = some 1 ∧
    (recvWithPage.envs 1).env_ipc_recving ≠ 0 ∧
    (sys_ipc_try_send recvWithPage 0x1001 42 0x801000 7).1 = 0 ∧
    ((sys_ipc_try_send recvWithPage 0x1001 42 0x801000 7).2.envs 1).env_ipc_recving = 0 ∧
    ((sys_ipc_try_send recvWithPage 0x1001 42 0x801000 7).2.envs 1).env_ipc_from = 0x1000 ∧
    ((sys_ipc_try_send recvWithPage 0x1001 42 0x801000 7).2.envs 1).env_ipc_value = 42 ∧
    ((sys_ipc_try_send recvWithPage 0x1001 42 0x801000 7).2.envs 1).env_ipc_perm = 7 ∧
    ((sys_ipc_try_send recvWithPage 0x1001 42 0x801000 7).2.envs 1).env_status = ENV_RUNNABLE :=
  have h := sys_ipc_try_send_success recvWithPage 0x1001 42 0x801000 7 1
    (by decide) (by decide)
  ⟨by decide, h.1, by decide, h.2.1, h.2.2.1, h.2.2.2.1, h.2.2.2.2.1, h.2.2.2.2.2.2.1⟩

/-- C9, the call that breaks it: the child declares the aligned destination
`dstva = 0` with `sys_ipc_recv(0)` (which blocks), then slot 0 sends its page
mapped at `0x801000` with the valid `perm = 7`; the send returns 0, but address 0
stays unmapped in both tables of the child and `env_ipc_perm` is 0, not 7. -/
theorem ipc_destination_zero_receives_no_page :
    (sys_ipc_recv (run_env demoState 1) 0).1 = none ∧
    (recvAtZero.envs 1).env_ipc_recving = 1 ∧ (recvAtZero.envs 1).env_ipc_dstva = 0 ∧
    0x801000 < UTOP ∧ 0x801000 % PGSIZE = 0 ∧ perm_inappropriate 7 = false ∧
    env_page_lookup recvAtZero recvAtZero.curenv Table.user 0x801000
      = some { frame := 101, perm := 7 } ∧
    (sys_ipc_try_send recvAtZero 0x1001 42 0x801000 7).1 = 0 ∧
    env_page_lookup (sys_ipc_try_send recvAtZero 0x1001 42 0x801000 7).2 1 Table.user 0 = none ∧
    env_page_lookup (sys_ipc_try_send recvAtZero 0x1001 42 0x801000 7).2 1 Table.kern 0 = none ∧
    ((sys_ipc_try_send recvAtZero 0x1001 42 0x801000 7).2.envs 1).env_ipc_perm = 0 := by
  decide

/-- C10, the call that breaks it: the child first received at `0x900000`, then
calls `sys_ipc_recv(UTOP)`, declaring no destination; `env_ipc_dstva` still holds
`0x900000`, so the next send with a page returns 0, maps the sender's frame at
`0x900000` in both tables of the child and sets `env_ipc_perm = 7`. -/
theorem ipc_stale_destination_receives_page :
    (sys_ipc_recv (run_env (sys_ipc_try_send recvWithPage 0x1001 41 UTOP 0).2 1) UTOP).1 = none ∧
    (recvNoPage.envs 1).env_ipc_recving = 1 ∧ (recvNoPage.envs 1).env_ipc_dstva = 0x900000 ∧
    env_page_lookup recvNoPage 1 Table.user 0x900000 = none ∧
    env_page_lookup recvNoPage 1 Table.kern 0x900000 = none ∧
    (sys_ipc_try_send recvNoPage 0x1001 42 0x801000 7).1 = 0 ∧
    env_page_lookup (sys_ipc_try_send recvNoPage 0x1001 42 0x801000 7).2 1 Table.user 0x900000
      = some { frame := 101, perm := 7 } ∧
    env_page_lookup (sys_ipc_try_send recvNoPage 0x1001 42 0x801000 7).2 1 Table.kern 0x900000
      = some { frame := 101, perm := 7 } ∧
    ((sys_ipc_try_send recvNoPage 0x1001 42 0x801000 7).2.envs 1).env_ipc_perm = 7 := by
  decide

/-! ## `sys_ipc_recv` -/

/-- C11: `sys_ipc_recv` with an unaligned `dstva` below `UTOP` returns `-E_INVAL`
and leaves the whole state (so the caller's `env_ipc_recving`, `env_ipc_dstva`
and `env_status`) unchanged; for every other `dstva` it does not return but
yields, having set the caller's `env_ipc_recving = 1` and
`env_status = ENV_NOT_RUNNABLE`, and `env_ipc_dstva = dstva` when `dstva < UTOP`
(for `dstva >= UTOP` the field `env_ipc_dstva` keeps its old value). -/
theorem sys_ipc_recv_destination_check (s : State) (dstva : Nat) :
    (dstva < UTOP ∧ dstva % PGSIZE ≠ 0 → sys_ipc_recv s dstva = (some (-E_INVAL), s)) ∧
    (¬ (dstva < UTOP ∧ dstva % PGSIZE ≠ 0) →
      (sys_ipc_recv s dstva).1 = none ∧
      ((sys_ipc_recv s dstva).2.envs s.curenv).env_ipc_recving = 1 ∧
      ((sys_ipc_recv s dstva).2.envs s.curenv).env_status = ENV_NOT_RUNNABLE ∧
      (dstva < UTOP → ((sys_ipc_recv s dstva).2.envs s.curenv).env_ipc_dstva = dstva) ∧
      (UTOP ≤ dstva →
        ((sys_ipc_recv s dstva).2.envs s.curenv).env_ipc_dstva = (s.envs s.curenv).env_ipc_dstva)) := by
  constructor
  · intro h
    have h' : dstva < UTOP ∧ PGOFF dstva ≠ 0 := h
    unfold sys_ipc_recv
    rw [if_pos h']
  · intro h
    have h' : ¬ (dstva < UTOP ∧ PGOFF dstva ≠ 0) := h
    unfold sys_ipc_recv
    rw [if_neg h']
    by_cases hlt : dstva < UTOP
    · simp [hlt, State.setEnv]
    · simp [hlt, State.setEnv, not_lt.1 hlt]

/-- C11 at concrete calls: the child calls `sys_ipc_recv(0x900001)` (rejected)
and `sys_ipc_recv(0x900000)` (accepted). -/
theorem sys_ipc_recv_destination_check_witness :
    sys_ipc_recv (run_env demoState 1) 0x900001 = (some (-E_INVAL), run_env demoState 1) ∧
    (sys_ipc_recv (run_env demoState 1) 0x900000).1 = none ∧
    ((sys_ipc_recv (run_env demoState 1) 0x900000).2.envs 1).env_ipc_dstva = 0x900000 :=
  ⟨(sys_ipc_recv_destination_check (run_env demoState 1) 0x900001).1 (by decide),
    ((sys_ipc_recv_destination_check (run_env demoState 1) 0x900000).2 (by decide)).1,
    ((sys_ipc_recv_destination_check (run_env demoState 1) 0x900000).2 (by decide)).2.2.2.1
      (by decide)⟩

/-- C12, the calls that break it: the child waits after `sys_ipc_recv(UTOP)`
with no destination recorded; slot 0 then supplies a page (`srcva < UTOP`) with
an unaligned `srcva`, or with a `perm` lacking `PTE_U`, or with an unmapped
`srcva`; each send returns 0 instead of `-E_INVAL`. -/
theorem ipc_send_skips_page_checks :
    (recvNone.envs 1).env_ipc_recving = 1 ∧ (recvNone.envs 1).env_ipc_dstva = 0 ∧
    0x801001 < UTOP ∧ 0x801001 % PGSIZE ≠ 0 ∧
    (sys_ipc_try_send recvNone 0x1001 42 0x801001 7).1 = 0 ∧
    0x801000 < UTOP ∧ perm_inappropriate 3 = true ∧
    (sys_ipc_try_send recvNone 0x1001 42 0x801000 3).1 = 0 ∧
    0xA00000 < UTOP ∧ env_page_lookup recvNone recvNone.curenv Table.user 0xA00000 = none ∧
    (sys_ipc_try_send recvNone 0x1001 42 0xA00000 7).1 = 0 := by
  decide

/-! ## Records that differ only in their tables -/

theorem sameButTables_refl (a : Env) : SameButTables a a := ⟨a.env_pgdir, a.env_kern_pgdir, rfl⟩

theorem sameButTables_trans {a b c : Env} (h1 : SameButTables a b) (h2 : SameButTables b c) :
    SameButTables a c := by
  obtain ⟨pu, pk, rfl⟩ := h1
  obtain ⟨pu', pk', rfl⟩ := h2
  exact ⟨pu', pk', rfl⟩

theorem sameButTables_setTable (a : Env) (t : Table) (pd : PageDir) :
    SameButTables a (a.setTable t pd) := by
  cases t
  · exact ⟨pd, a.env_kern_pgdir, rfl⟩
  · exact ⟨a.env_pgdir, pd, rfl⟩

theorem sameButTables_fields {a b : Env} (h : SameButTables a b) :
    b.env_tf = a.env_tf ∧ b.env_id = a.env_id ∧ b.env_parent_id = a.env_parent_id ∧
    b.env_status = a.env_status ∧ b.env_pgfault_upcall = a.env_pgfault_upcall ∧
    b.env_brk = a.env_brk ∧ b.env_ipc_recving = a.env_ipc_recving ∧
    b.env_ipc_dstva = a.env_ipc_dstva ∧ b.env_ipc_value = a.env_ipc_value ∧
    b.env_ipc_from = a.env_ipc_from ∧ b.env_ipc_perm = a.env_ipc_perm := by
  obtain ⟨pu, pk, rfl⟩ := h
  exact ⟨rfl, rfl, rfl, rfl, rfl, rfl, rfl, rfl, rfl, rfl, rfl⟩

theorem env_page_insert_sameButTables (s : State) (e : Nat) (t : Table) (pp va perm i : Nat) :
    SameButTables (s.envs i) ((env_page_insert s e t pp va perm).2.envs i) := by
  by_cases hi : i = e
  · subst hi
    rw [env_page_insert_envs_same]
    exact sameButTables_setTable _ _ _
  · rw [env_page_insert_envs_other _ _ _ _ _ _ _ hi]
    exact sameButTables_refl _

theorem env_page_remove_sameButTables (s : State) (e : Nat) (t : Table) (va i : Nat) :
    SameButTables (s.envs i) ((env_page_remove s e t va).envs i) := by
  by_cases hi : i = e
  · subst hi
    rw [env_page_remove_envs_same]
    exact sameButTables_setTable _ _ _
  · rw [env_page_remove_envs_other _ _ _ _ _ hi]
    exact sameButTables_refl _

/-! ## When `page_insert` fails -/

theorem pgdir_walk_create_of_pde (m : PhysMem) (pd : PageDir) (va : Nat)
    (h : pd.pde (PDX va) ≠ none) : pgdir_walk_create m pd va = some (m, pd) := by
  unfold pgdir_walk_create
  cases hp : pd.pde (PDX va) with
  | none => exact absurd hp h
  | some t => rfl

theorem page_insert_fail_pde (m : PhysMem) (pd : PageDir) (pp va perm : Nat)
    (h : (page_insert m pd pp va perm).1 ≠ 0) : pd.pde (PDX va) = none := by
  by_contra hp
  apply h
  unfold page_insert
  rw [pgdir_walk_create_of_pde m pd va hp]

theorem page_insert_fail_lookup (m : PhysMem) (pd : PageDir) (pp va perm : Nat)
    (h : (page_insert m pd pp va perm).1 ≠ 0) : page_lookup pd va = none := by
  unfold page_lookup
  rw [page_insert_fail_pde m pd pp va perm h]

theorem page_lookup_pde (pd : PageDir) (va : Nat) (h : page_lookup pd va ≠ none) :
    pd.pde (PDX va) ≠ none := by
  intro hp
  apply h
  unfold page_lookup
  rw [hp]

theorem page_insert_ok_of_mapped (m : PhysMem) (pd : PageDir) (pp va perm : Nat)
    (h : page_lookup pd va ≠ none) : (page_insert m pd pp va perm).1 = 0 := by
  by_contra hf
  exact h (page_insert_fail_lookup m pd pp va perm hf)

theorem env_page_insert_fail_lookup (s : State) (e : Nat) (t : Table) (pp va perm : Nat)
    (h : (env_page_insert s e t pp va perm).1 ≠ 0) : env_page_lookup s e t va = none :=
  page_insert_fail_lookup _ _ _ _ _ h

/-- Lookups after a user-table insert that succeeded and was then removed again. -/
theorem mirrored_insert_rollback_lookup (s : State) (e pp va perm : Nat)
    (h1 : (env_page_insert s e Table.user pp va perm).1 = 0)
    (e' : Nat) (t' : Table) (va' : Nat) :
    env_page_lookup (env_page_remove (env_page_insert s e Table.user pp va perm).2 e Table.user va)
        e' t' va' =
      if e' = e ∧ t' = Table.user ∧ PDX va' = PDX va ∧ PTX va' = PTX va then none
      else env_page_lookup s e' t' va' := by
  rw [env_page_lookup_remove]
  by_cases hc : e' = e ∧ t' = Table.user ∧ PDX va' = PDX va ∧ PTX va' = PTX va
  · rw [if_pos hc, if_pos hc]
  · rw [if_neg hc, if_neg hc, env_page_lookup_insert _ _ _ _ _ _ _ _ _ h1, if_neg hc]

theorem mirrored_insert_rollback_kern_none (s : State) (e pp va perm : Nat)
    (h2 : (env_page_insert (env_page_insert s e Table.user pp va perm).2 e
      Table.kern pp va perm).1 ≠ 0) : env_page_lookup s e Table.kern va = none := by
  have h := env_page_insert_fail_lookup _ _ _ _ _ _ h2
  unfold env_page_lookup at h ⊢
  rw [env_page_insert_envs_same, setTable_table_other _ _ _ _ (by decide)] at h
  exact h

/-- What a failed `sys_ipc_try_send` left behind: the state is untouched, or the
user-table insert at the target's `env_ipc_dstva` succeeded, the shadow-table
insert failed and the user-table entry was removed again. -/
theorem sys_ipc_try_send_fail_inv (s : State) (envid value srcva perm : Nat)
    (h : (sys_ipc_try_send s envid value srcva perm).1 ≠ 0) :
    (sys_ipc_try_send s envid value srcva perm).2 = s ∨
    ∃ (env : Nat) (pte : Pte), envid2env s envid false = some env ∧
      (sys_ipc_try_send s envid value srcva perm).1 = -E_NO_MEM ∧
      (env_page_insert s env Table.user pte.frame (s.envs env).env_ipc_dstva perm).1 = 0 ∧
      (env_page_insert
        (env_page_insert s env Table.user pte.frame (s.envs env).env_ipc_dstva perm).2
        env Table.kern pte.frame (s.envs env).env_ipc_dstva perm).1 ≠ 0 ∧
      (sys_ipc_try_send s envid value srcva perm).2 =
        env_page_remove
          (env_page_insert s env Table.user pte.frame (s.envs env).env_ipc_dstva perm).2
          env Table.user (s.envs env).env_ipc_dstva := by
  unfold sys_ipc_try_send at h ⊢
  cases hl : envid2env s envid false with
  | none => left; rfl
  | some env =>
    rw [hl] at h
    simp only [] at h ⊢
    by_cases hr : (s.envs env).env_ipc_recving = 0
    · left; rw [if_pos hr]
    · rw [if_neg hr] at h ⊢
      cases hsp : send_page s env srcva with
      | false =>
        rw [hsp] at h
        simp at h
      | true =>
        rw [hsp] at h
        simp only [if_true] at h ⊢
        by_cases ho : PGOFF srcva ≠ 0
        · left; rw [if_pos ho]
        · rw [if_neg ho] at h ⊢
          by_cases hp : perm_inappropriate perm = true
          · left; rw [if_pos hp]
          · rw [if_neg hp] at h ⊢
            cases hlk : env_page_lookup s s.curenv Table.user srcva with
            | none => left; rfl
            | some pte =>
              simp only [hlk] at h ⊢
              by_cases hw : perm &&& PTE_W ≠ 0 ∧ pte.perm &&& PTE_W = 0
              · left; rw [if_pos hw]
              · rw [if_neg hw] at h ⊢
                rw [env_page_insert_env_ipc_dstva] at h ⊢
                by_cases h1 : (env_page_insert s env Table.user pte.frame
                    (s.envs env).env_ipc_dstva perm).1 = 0
                · rw [if_neg (not_not.2 h1)] at h ⊢
                  by_cases h2 : (env_page_insert
                      (env_page_insert s env Table.user pte.frame (s.envs env).env_ipc_dstva perm).2
                      env Table.kern pte.frame (s.envs env).env_ipc_dstva perm).1 = 0
                  · rw [if_neg (not_not.2 h2)] at h
                    exact absurd rfl h
                  · right
                    rw [if_pos h2]
                    refine ⟨env, pte, rfl, rfl, h1, h2, ?_⟩
                    simp only []
                    rw [env_page_insert_fail _ _ _ _ _ _ h2, env_page_insert_env_ipc_dstva]
                · left
                  rw [if_pos h1, env_page_insert_fail _ _ _ _ _ _ h1]

/-- C13: when `sys_ipc_try_send` returns a negative value, every environment
(the target in particular) keeps its `env_ipc_recving`, `env_ipc_from`,
`env_ipc_value`, `env_ipc_perm`, saved `eax` and `env_status`, and a target whose
user and shadow tables agreed at its `env_ipc_dstva` before the call has both
lookups there exactly as before, so they still agree. -/
theorem sys_ipc_try_send_failure_delivers_nothing (s : State) (envid value srcva perm : Nat)
    (h : (sys_ipc_try_send s envid value srcva perm).1 < 0) :
    (∀ e,
      ((sys_ipc_try_send s envid value srcva perm).2.envs e).env_ipc_recving
        = (s.envs e).env_ipc_recving ∧
      ((sys_ipc_try_send s envid value srcva perm).2.envs e).env_ipc_from
        = (s.envs e).env_ipc_from ∧
      ((sys_ipc_try_send s envid value srcva perm).2.envs e).env_ipc_value
        = (s.envs e).env_ipc_value ∧
      ((sys_ipc_try_send s envid value srcva perm).2.envs e).env_ipc_perm
        = (s.envs e).env_ipc_perm ∧
      ((sys_ipc_try_send s envid value srcva perm).2.envs e).env_tf.tf_regs.reg_eax
        = (s.envs e).env_tf.tf_regs.reg_eax ∧
      ((sys_ipc_try_send s envid value srcva perm).2.envs e).env_status
        = (s.envs e).env_status) ∧
    (∀ env, envid2env s envid false = some env →
      env_page_lookup s env Table.user (s.envs env).env_ipc_dstva
        = env_page_lookup s env Table.kern (s.envs env).env_ipc_dstva →
      env_page_lookup (sys_ipc_try_send s envid value srcva perm).2 env Table.user
          (s.envs env).env_ipc_dstva
        = env_page_lookup s env Table.user (s.envs env).env_ipc_dstva ∧
      env_page_lookup (sys_ipc_try_send s envid value srcva perm).2 env Table.kern
          (s.envs env).env_ipc_dstva
        = env_page_lookup s env Table.kern (s.envs env).env_ipc_dstva ∧
      env_page_lookup (sys_ipc_try_send s envid value srcva perm).2 env Table.user
          (s.envs env).env_ipc_dstva
        = env_page_lookup (sys_ipc_try_send s envid value srcva perm).2 env Table.kern
          (s.envs env).env_ipc_dstva) := by
  have hne : (sys_ipc_try_send s envid value srcva perm).1 ≠ 0 := ne_of_lt h
  rcases sys_ipc_try_send_fail_inv s envid value srcva perm hne with hs | ⟨env, pte, hl, _, h1, h2, hs⟩
  · rw [hs]
    exact ⟨fun e => ⟨rfl, rfl, rfl, rfl, rfl, rfl⟩, fun env _ hag => ⟨rfl, rfl, hag⟩⟩
  · rw [hs]
    constructor
    · intro e
      have hf := sameButTables_fields (sameButTables_trans
        (env_page_insert_sameButTables s env Table.user pte.frame (s.envs env).env_ipc_dstva perm e)
        (env_page_remove_sameButTables _ env Table.user (s.envs env).env_ipc_dstva e))
      obtain ⟨f1, _, _, f4, _, _, f7, _, f9, f10, f11⟩ := hf
      exact ⟨f7, f10, f9, f11, by rw [f1], f4⟩
    · intro env' hl' hag
      rw [hl] at hl'
      have he : env = env' := Option.some.inj hl'
      subst he
      have hk := mirrored_insert_rollback_kern_none s env pte.frame (s.envs env).env_ipc_dstva perm h2
      have hu : env_page_lookup s env Table.user (s.envs env).env_ipc_dstva = none := by
        rw [hag, hk]
      rw [mirrored_insert_rollback_lookup _ _ _ _ _ h1, mirrored_insert_rollback_lookup _ _ _ _ _ h1]
      rw [if_pos ⟨rfl, rfl, rfl, rfl⟩, if_neg (by simp), hu, hk]
      exact ⟨rfl, rfl, rfl⟩

/-- C13 at a concrete call: with frame 200 as the only free frame the child
waits at `0x900000`; the send takes the frame for the user page table, fails on
the shadow table and returns `-E_NO_MEM`; the child is still waiting. -/
theorem sys_ipc_try_send_failure_delivers_nothing_witness :
    (sys_ipc_try_send
      (run_env (sys_ipc_recv (run_env oneFreeState 1) 0x900000).2 0) 0x1001 42 0x801000 7).1 < 0 ∧
    ((sys_ipc_try_send
      (run_env (sys_ipc_recv (run_env oneFreeState 1) 0x900000).2 0) 0x1001 42 0x801000 7).2.envs
        1).env_ipc_recving = 1 ∧
    ((sys_ipc_try_send
      (run_env (sys_ipc_recv (run_env oneFreeState 1) 0x900000).2 0) 0x1001 42 0x801000 7).2.envs
        1).env_status = ENV_NOT_RUNNABLE :=
  have h := sys_ipc_try_send_failure_delivers_nothing
    (run_env (sys_ipc_recv (run_env oneFreeState 1) 0x900000).2 0) 0x1001 42 0x801000 7 (by decide)
  ⟨by decide, (h.1 1).1, (h.1 1).2.2.2.2.2⟩

/-! ## `sys_page_alloc` out of memory -/

theorem page_insert_fail_free_list (m : PhysMem) (pd : PageDir) (pp va perm : Nat)
    (hp : pd.pde (PDX va) = none) (hf : m.page_free_list = none) :
    (page_insert m pd pp va perm).1 ≠ 0 := by
  unfold page_insert pgdir_walk_create page_alloc
  rw [hp, hf]
  simp [E_NO_MEM]

/-- What `sys_page_alloc` did when it returned `-E_NO_MEM`. -/
theorem sys_page_alloc_no_mem_inv (s : State) (envid va perm : Nat)
    (h : (sys_page_alloc s envid va perm).1 = -E_NO_MEM) :
    ∃ e, envid2env s envid true = some e ∧
      ((s.mem.page_free_list = none ∧ (sys_page_alloc s envid va perm).2 = s) ∨
       (∃ pp, s.mem.page_free_list = some pp ∧
         (((env_page_insert { s with mem := (page_alloc s.mem true).2 } e Table.user pp va perm).1 ≠ 0 ∧
            (sys_page_alloc s envid va perm).2
              = { s with mem := page_free (page_alloc s.mem true).2 pp }) ∨
          ((env_page_insert { s with mem := (page_alloc s.mem true).2 } e Table.user pp va perm).1 = 0 ∧
            (env_page_insert
              (env_page_insert { s with mem := (page_alloc s.mem true).2 } e Table.user pp va perm).2
              e Table.kern pp va perm).1 ≠ 0 ∧
            (sys_page_alloc s envid va perm).2 =
              env_page_remove
                { (env_page_insert { s with mem := (page_alloc s.mem true).2 }
                      e Table.user pp va perm).2 with
                  mem := page_free
                    (env_page_insert { s with mem := (page_alloc s.mem true).2 }
                      e Table.user pp va perm).2.mem pp }
                e Table.user va)))) := by
  unfold sys_page_alloc at h ⊢
  by_cases hc : UTOP ≤ va ∨ PGOFF va ≠ 0 ∨ perm_inappropriate perm = true
  · rw [if_pos hc] at h; simp [E_INVAL, E_NO_MEM] at h
  · rw [if_neg hc] at h ⊢
    cases he : envid2env s envid true with
    | none => rw [he] at h; simp [E_BAD_ENV, E_NO_MEM] at h
    | some e =>
      refine ⟨e, rfl, ?_⟩
      rw [he] at h
      simp only [] at h ⊢
      cases hfl : s.mem.page_free_list with
      | none =>
        left
        have ha : page_alloc s.mem true = (none, s.mem) := by
          unfold page_alloc; rw [hfl]
        rw [ha]
        exact ⟨rfl, rfl⟩
      | some pp =>
        right
        refine ⟨pp, rfl, ?_⟩
        have ha : (page_alloc s.mem true).1 = some pp := by
          unfold page_alloc; rw [hfl]
        cases hpa : page_alloc s.mem true with
        | mk o m0 =>
          rw [hpa] at ha h
          simp only [] at ha
          subst ha
          simp only [] at h ⊢
          by_cases h1 : (env_page_insert { s with mem := m0 } e Table.user pp va perm).1 = 0
          · right
            rw [if_neg (not_not.2 h1)] at h ⊢
            by_cases h2 : (env_page_insert (env_page_insert { s with mem := m0 } e Table.user pp va perm).2
                e Table.kern pp va perm).1 = 0
            · rw [if_neg (not_not.2 h2)] at h
              simp [E_NO_MEM] at h
            · rw [if_pos h2]
              refine ⟨h1, h2, ?_⟩
              simp only []
              rw [env_page_insert_fail _ _ _ _ _ _ h2]
          · left
            rw [if_pos h1]
            refine ⟨h1, ?_⟩
            simp only []
            rw [env_page_insert_fail _ _ _ _ _ _ h1]

theorem page_alloc_then_free (m : PhysMem) (pp : Nat) (h : m.page_free_list = some pp) :
    (page_free (page_alloc m true).2 pp).pp_ref = m.pp_ref ∧
    (page_free (page_alloc m true).2 pp).pp_link = m.pp_link ∧
    (page_free (page_alloc m true).2 pp).page_free_list = m.page_free_list := by
  unfold page_free page_alloc
  rw [h]
  refine ⟨rfl, ?_, rfl⟩
  simp

/-- What does hold when `sys_page_alloc` returns `-E_NO_MEM`: the target
resolved; a `va` that was unmapped in both of its tables is unmapped in both
afterwards and every lookup other than the user-table entry of `va` is as
before; and when no frame was free, or only one frame was free and the user
table had no page table for `va` (so the user-table insert failed), every
environment record, every reference count and the free list (`pp_link` and its
head) are exactly as before: the frame taken was returned exactly once. -/
theorem sys_page_alloc_no_mem (s : State) (envid va perm : Nat)
    (h : (sys_page_alloc s envid va perm).1 = -E_NO_MEM) :
    ∃ e, envid2env s envid true = some e ∧
      (env_page_lookup s e Table.user va = none → env_page_lookup s e Table.kern va = none →
        env_page_lookup (sys_page_alloc s envid va perm).2 e Table.user va = none ∧
        env_page_lookup (sys_page_alloc s envid va perm).2 e Table.kern va = none) ∧
      (∀ e' t va', ¬ (e' = e ∧ t = Table.user ∧ PDX va' = PDX va ∧ PTX va' = PTX va) →
        env_page_lookup (sys_page_alloc s envid va perm).2 e' t va' = env_page_lookup s e' t va') ∧
      ((s.mem.page_free_list = none ∨
          ∃ pp, s.mem.page_free_list = some pp ∧ s.mem.pp_link pp = none ∧
            (s.envs e).env_pgdir.pde (PDX va) = none) →
        (sys_page_alloc s envid va perm).2.envs = s.envs ∧
        (sys_page_alloc s envid va perm).2.mem.pp_ref = s.mem.pp_ref ∧
        (sys_page_alloc s envid va perm).2.mem.pp_link = s.mem.pp_link ∧
        (sys_page_alloc s envid va perm).2.mem.page_free_list = s.mem.page_free_list) := by
  obtain ⟨e, he, hcase⟩ := sys_page_alloc_no_mem_inv s envid va perm h
  refine ⟨e, he, ?_⟩
  rcases hcase with ⟨_, hs⟩ | ⟨pp, hfl, ⟨h1, hs⟩ | ⟨h1, h2, hs⟩⟩
  · rw [hs]
    exact ⟨fun hu hk => ⟨hu, hk⟩, fun _ _ _ _ => rfl, fun _ => ⟨rfl, rfl, rfl, rfl⟩⟩
  · rw [hs]
    refine ⟨fun hu hk => ⟨hu, hk⟩, fun _ _ _ _ => rfl, fun _ => ?_⟩
    obtain ⟨a, b, c⟩ := page_alloc_then_free s.mem pp hfl
    exact ⟨rfl, a, b, c⟩
  · rw [hs]
    have hlk : ∀ e' t' va',
        env_page_lookup
          (env_page_remove
            { (env_page_insert { s with mem := (page_alloc s.mem true).2 } e Table.user pp va perm).2 with
              mem := page_free
                (env_page_insert { s with mem := (page_alloc s.mem true).2 }
                  e Table.user pp va perm).2.mem pp }
            e Table.user va) e' t' va' =
        if e' = e ∧ t' = Table.user ∧ PDX va' = PDX va ∧ PTX va' = PTX va then none
        else env_page_lookup s e' t' va' := by
      intro e' t' va'
      rw [env_page_lookup_remove]
      by_cases hc : e' = e ∧ t' = Table.user ∧ PDX va' = PDX va ∧ PTX va' = PTX va
      · rw [if_pos hc, if_pos hc]
      · rw [if_neg hc, if_neg hc]
        have := env_page_lookup_insert { s with mem := (page_alloc s.mem true).2 } e Table.user
          pp va perm e' t' va' h1
        rw [if_neg hc] at this
        exact this
    have hk := mirrored_insert_rollback_kern_none { s with mem := (page_alloc s.mem true).2 }
      e pp va perm h2
    refine ⟨fun _ _ => ?_, fun e' t va' hne => ?_, fun hcond => ?_⟩
    · rw [hlk, hlk, if_pos ⟨rfl, rfl, rfl, rfl⟩, if_neg (by simp)]
      exact ⟨rfl, hk⟩
    · rw [hlk, if_neg hne]
    · exfalso
      rcases hcond with hn | ⟨pp', hfl', hlink, hpde⟩
      · rw [hn] at hfl; exact Option.noConfusion hfl
      · rw [hfl] at hfl'
        have hpp : pp = pp' := Option.some.inj hfl'
        subst hpp
        apply page_insert_fail_free_list (page_alloc s.mem true).2 (s.envs e).env_pgdir pp va perm
          hpde ?_ h1
        unfold page_alloc
        rw [hfl]
        exact hlink

/-- With no free frame `sys_page_alloc(0, 0x800000, 7)` returns `-E_NO_MEM`
before anything is written, so the page already mapped at `0x800000` stays
mapped in both tables. -/
theorem sys_page_alloc_no_mem_keeps_mapping :
    (sys_page_alloc noFreeState 0 0x800000 7).1 = -E_NO_MEM ∧
    env_page_lookup (sys_page_alloc noFreeState 0 0x800000 7).2 0 Table.user 0x800000
      = some { frame := 100, perm := 5 } ∧
    env_page_lookup (sys_page_alloc noFreeState 0 0x800000 7).2 0 Table.kern 0x800000
      = some { frame := 100, perm := 5 } := by
  decide

/-- The out-of-memory facts at a concrete call: with no free frame the child
asks for a page at `0x900000`. -/
theorem sys_page_alloc_no_mem_witness :
    (sys_page_alloc noFreeState 0x1001 0x900000 7).1 = -E_NO_MEM ∧
    ∃ e, envid2env noFreeState 0x1001 true = some e ∧
      (env_page_lookup noFreeState e Table.user 0x900000 = none →
        env_page_lookup noFreeState e Table.kern 0x900000 = none →
        env_page_lookup (sys_page_alloc noFreeState 0x1001 0x900000 7).2 e Table.user 0x900000 = none ∧
        env_page_lookup (sys_page_alloc noFreeState 0x1001 0x900000 7).2 e Table.kern 0x900000 = none) :=
  have h := sys_page_alloc_no_mem noFreeState 0x1001 0x900000 7 (by decide)
  ⟨by decide, h.choose, h.choose_spec.1, h.choose_spec.2.1⟩

/-- C14 fails on the code: with exactly the frames 200 and 201 free, slot 0
asks for a page at `0x900000` for its child `0x1001`, whose tables are empty.
Frame 200 is taken for the page and frame 201 for the user page table; the
shadow insert finds no frame and the call returns `-E_NO_MEM` with `0x900000`
unmapped in both tables.  But `page_free(pp)` ran while `pp_ref` was 1 and
`page_remove` then freed the frame again: frame 200 is linked to itself at the
head of the free list, so the next two `page_alloc` calls both hand out frame
200; the frame taken for the call was returned twice, not once.  (The
page-table frame 201 keeps its reference.) -/
theorem sys_page_alloc_rollback_frees_twice :
    envid2env twoFreeState 0x1001 true = some 1 ∧
    env_page_lookup twoFreeState 1 Table.user 0x900000 = none ∧
    env_page_lookup twoFreeState 1 Table.kern 0x900000 = none ∧
    twoFreeState.mem.page_free_list = some 200 ∧ twoFreeState.mem.pp_link 200 = some 201 ∧
    twoFreeState.mem.pp_link 201 = none ∧
    twoFreeState.mem.pp_ref 200 = 0 ∧ twoFreeState.mem.pp_ref 201 = 0 ∧
    (sys_page_alloc twoFreeState 0x1001 0x900000 7).1 = -E_NO_MEM ∧
    env_page_lookup (sys_page_alloc twoFreeState 0x1001 0x900000 7).2 1 Table.user 0x900000
      = none ∧
    env_page_lookup (sys_page_alloc twoFreeState 0x1001 0x900000 7).2 1 Table.kern 0x900000
      = none ∧
    (sys_page_alloc twoFreeState 0x1001 0x900000 7).2.mem.page_free_list = some 200 ∧
    (sys_page_alloc twoFreeState 0x1001 0x900000 7).2.mem.pp_link 200 = some 200 ∧
    (page_alloc (sys_page_alloc twoFreeState 0x1001 0x900000 7).2.mem true).1 = some 200 ∧
    (page_alloc (page_alloc (sys_page_alloc twoFreeState 0x1001 0x900000 7).2.mem true).2
      true).1 = some 200 ∧
    (sys_page_alloc twoFreeState 0x1001 0x900000 7).2.mem.pp_ref 200 = 0 ∧
    (sys_page_alloc twoFreeState 0x1001 0x900000 7).2.mem.pp_ref 201 = 1 := by
  decide

/-! ## `sys_page_map` out of memory -/

/-- What a failed `sys_page_map` left behind: the state is untouched, or the
user-table insert succeeded, the shadow-table insert failed and the user-table
entry was removed again. -/
theorem sys_page_map_fail_inv (s : State) (srcenvid srcva dstenvid dstva perm : Nat)
    (h : (sys_page_map s srcenvid srcva dstenvid dstva perm).1 ≠ 0) :
    (sys_page_map s srcenvid srcva dstenvid dstva perm).2 = s ∨
    ∃ (src dst : Nat) (pte : Pte),
      envid2env s srcenvid true = some src ∧ envid2env s dstenvid true = some dst ∧
      env_page_lookup s src Table.user srcva = some pte ∧
      (sys_page_map s srcenvid srcva dstenvid dstva perm).1 = -E_NO_MEM ∧
      (env_page_insert s dst Table.user pte.frame dstva perm).1 = 0 ∧
      (env_page_insert (env_page_insert s dst Table.user pte.frame dstva perm).2
        dst Table.kern pte.frame dstva perm).1 ≠ 0 ∧
      (sys_page_map s srcenvid srcva dstenvid dstva perm).2 =
        env_page_remove (env_page_insert s dst Table.user pte.frame dstva perm).2
          dst Table.user dstva := by
  unfold sys_page_map at h ⊢
  by_cases hc : UTOP ≤ srcva ∨ PGOFF srcva ≠ 0 ∨ UTOP ≤ dstva ∨ PGOFF dstva ≠ 0
      ∨ perm_inappropriate perm = true
  · left; rw [if_pos hc]
  · rw [if_neg hc] at h ⊢
    cases hs : envid2env s srcenvid true with
    | none => left; rfl
    | some src =>
      cases hd : envid2env s dstenvid true with
      | none => left; rfl
      | some dst =>
        cases hl : env_page_lookup s src Table.user srcva with
        | none => left; simp only [hl]
        | some pte =>
          rw [hs, hd] at h
          simp only [hl] at h ⊢
          by_cases hw : pte.perm &&& PTE_W = 0 ∧ perm &&& PTE_W ≠ 0
          · left; rw [if_pos hw]
          · rw [if_neg hw] at h ⊢
            by_cases h1 : (env_page_insert s dst Table.user pte.frame dstva perm).1 = 0
            · rw [if_neg (not_not.2 h1)] at h ⊢
              by_cases h2 : (env_page_insert (env_page_insert s dst Table.user pte.frame dstva perm).2
                  dst Table.kern pte.frame dstva perm).1 = 0
              · rw [if_neg (not_not.2 h2)] at h
                exact absurd rfl h
              · right
                rw [if_pos h2]
                refine ⟨src, dst, pte, rfl, rfl, hl, rfl, h1, h2, ?_⟩
                simp only []
                rw [env_page_insert_fail _ _ _ _ _ _ h2]
            · left
              rw [if_pos h1, env_page_insert_fail _ _ _ _ _ _ h1]

theorem pgdir_walk_create_pp_ref (m : PhysMem) (pd : PageDir) (va : Nat) (r : PhysMem × PageDir)
    (h : pgdir_walk_create m pd va = some r) (f : Nat)
    (hf : m.page_free_list ≠ some f ∨ pd.pde (PDX va) ≠ none) : r.1.pp_ref f = m.pp_ref f := by
  unfold pgdir_walk_create at h
  cases hp : pd.pde (PDX va) with
  | some t =>
    rw [hp] at h
    simp only [Option.some.injEq] at h
    subst h
    rfl
  | none =>
    rw [hp] at h
    have hne : m.page_free_list ≠ some f := by
      rcases hf with hf | hf
      · exact hf
      · exact absurd hp hf
    unfold page_alloc at h
    cases hfl : m.page_free_list with
    | none => rw [hfl] at h; exact Option.noConfusion h
    | some pt =>
      rw [hfl] at h
      simp only [Option.some.injEq] at h
      subst h
      have hpt : f ≠ pt := by
        intro hc
        rw [hfl, hc] at hne
        exact hne rfl
      simp [Function.update_noteq hpt]

theorem page_decref_pp_ref (m : PhysMem) (pp f : Nat) :
    (page_decref m pp).pp_ref f
      = if f = pp then (m.pp_ref pp + 65535) % 65536 else m.pp_ref f := by
  unfold page_decref page_free
  simp only []
  split <;> simp [Function.update_apply]

/-- Reference counts after an insert at an unmapped address followed by the
removal of that entry: only a frame newly taken for a page table differs. -/
theorem insert_then_remove_pp_ref (m : PhysMem) (pd : PageDir) (pp va perm : Nat)
    (hwf : m.pp_ref pp < 65536) (hnone : page_lookup pd va = none)
    (hok : (page_insert m pd pp va perm).1 = 0) (f : Nat)
    (hf : m.page_free_list ≠ some f ∨ pd.pde (PDX va) ≠ none) :
    (page_remove (page_insert m pd pp va perm).2.1 (page_insert m pd pp va perm).2.2 va).1.pp_ref f
      = m.pp_ref f := by
  have hlk := page_insert_lookup_same m pd pp va perm hok
  unfold page_remove
  rw [hlk]
  simp only []
  rw [page_decref_pp_ref]
  unfold page_insert at hok ⊢
  cases hw : pgdir_walk_create m pd va with
  | none => rw [hw] at hok; simp [E_NO_MEM] at hok
  | some r =>
    simp only []
    have hr := pgdir_walk_create_pp_ref m pd va r hw
    have hl1 : page_lookup r.2 va = none := by
      by_cases hp : pd.pde (PDX va) = none
      · unfold pgdir_walk_create at hw
        rw [hp] at hw
        cases ha : page_alloc m true with
        | mk o m1 =>
          rw [ha] at hw
          cases o with
          | none => exact Option.noConfusion hw
          | some pt =>
            simp only [Option.some.injEq] at hw
            subst hw
            simp [page_lookup]
      · rw [pgdir_walk_create_lookup_same_dir m pd va va r hw hp]
        exact hnone
    rw [page_remove_unmapped _ _ _ hl1]
    simp only []
    by_cases hfp : f = pp
    · subst hfp
      rw [if_pos rfl]
      simp only [Function.update_same]
      rw [hr f hf]
      omega
    · rw [if_neg hfp, Function.update_noteq hfp]
      exact hr f hf

/-- C15 (as amended): starting from a state in which the destination's user and
shadow tables agree at `dstva` and every reference count is a 16-bit value, when
`sys_page_map` returns `-E_NO_MEM` both lookups at `dstva` in the destination
are as before, and the reference count of every frame is as before except for
the frame at the head of the free list when the user table had no page table for
`dstva` (that frame may have been taken for the new page table, which stays). -/
theorem sys_page_map_no_mem (s : State) (srcenvid srcva dstenvid dstva perm dst : Nat)
    (hdst : envid2env s dstenvid true = some dst)
    (hag : env_page_lookup s dst Table.user dstva = env_page_lookup s dst Table.kern dstva)
    (hwf : ∀ f, s.mem.pp_ref f < 65536)
    (h : (sys_page_map s srcenvid srcva dstenvid dstva perm).1 = -E_NO_MEM) :
    env_page_lookup (sys_page_map s srcenvid srcva dstenvid dstva perm).2 dst Table.user dstva
      = env_page_lookup s dst Table.user dstva ∧
    env_page_lookup (sys_page_map s srcenvid srcva dstenvid dstva perm).2 dst Table.kern dstva
      = env_page_lookup s dst Table.kern dstva ∧
    (∀ f, (s.mem.page_free_list ≠ some f ∨ (s.envs dst).env_pgdir.pde (PDX dstva) ≠ none) →
      (sys_page_map s srcenvid srcva dstenvid dstva perm).2.mem.pp_ref f = s.mem.pp_ref f) := by
  have hne : (sys_page_map s srcenvid srcva dstenvid dstva perm).1 ≠ 0 := by
    rw [h]; decide
  rcases sys_page_map_fail_inv s srcenvid srcva dstenvid dstva perm hne with
    hs | ⟨src, dst', pte, _, hd, _, _, h1, h2, hs⟩
  · rw [hs]
    exact ⟨rfl, rfl, fun _ _ => rfl⟩
  · rw [hdst] at hd
    have hdd : dst = dst' := Option.some.inj hd
    subst hdd
    rw [hs]
    have hk := mirrored_insert_rollback_kern_none s dst pte.frame dstva perm h2
    have hu : env_page_lookup s dst Table.user dstva = none := by rw [hag, hk]
    refine ⟨?_, ?_, ?_⟩
    · rw [mirrored_insert_rollback_lookup _ _ _ _ _ h1, if_pos ⟨rfl, rfl, rfl, rfl⟩, hu]
    · rw [mirrored_insert_rollback_lookup _ _ _ _ _ h1, if_neg (by simp)]
    · intro f hf
      have := insert_then_remove_pp_ref s.mem (s.envs dst).env_pgdir pte.frame dstva perm
        (hwf _) hu h1 f hf
      simpa [env_page_remove, env_page_insert, Env.table] using this

/-- C15 fails as stated: with frame 200 as the only free frame, mapping the
caller's page into its child at `0x900000` takes frame 200 for the child's user
page table, fails on the shadow table and returns `-E_NO_MEM`; the tables agreed
at `0x900000` before, yet the reference count of frame 200 went from 0 to 1. -/
theorem sys_page_map_no_mem_keeps_page_table :
    env_page_lookup oneFreeState 1 Table.user 0x900000
      = env_page_lookup oneFreeState 1 Table.kern 0x900000 ∧
    (sys_page_map oneFreeState 0 0x801000 0x1001 0x900000 7).1 = -E_NO_MEM ∧
    oneFreeState.mem.pp_ref 200 = 0 ∧
    (sys_page_map oneFreeState 0 0x801000 0x1001 0x900000 7).2.mem.pp_ref 200 = 1 := by
  decide

/-- C15 (as amended) at the same concrete call. -/
theorem sys_page_map_no_mem_witness :
    envid2env oneFreeState 0x1001 true = some 1 ∧
    (sys_page_map oneFreeState 0 0x801000 0x1001 0x900000 7).1 = -E_NO_MEM ∧
    env_page_lookup (sys_page_map oneFreeState 0 0x801000 0x1001 0x900000 7).2 1 Table.user 0x900000
      = env_page_lookup oneFreeState 1 Table.user 0x900000 ∧
    (sys_page_map oneFreeState 0 0x801000 0x1001 0x900000 7).2.mem.pp_ref 101
      = oneFreeState.mem.pp_ref 101 :=
  have h := sys_page_map_no_mem oneFreeState 0 0x801000 0x1001 0x900000 7 1
    (by decide) (by decide)
    (by intro f; simp only [oneFreeState, demoMem]; split_ifs <;> decide)
    (by decide)
  ⟨by decide, by decide, h.1, h.2.2 101 (Or.inl (by decide))⟩

/-! ## The mirrored-tables invariant -/

theorem env_page_lookup_congr (s : State) (e : Nat) (t : Table) (va va' : Nat)
    (hd : PDX va' = PDX va) (ht : PTX va' = PTX va) :
    env_page_lookup s e t va' = env_page_lookup s e t va :=
  page_lookup_congr _ _ _ hd ht

theorem lookupsSame_mirrored {s n : State} (h : LookupsSame s n) (hm : Mirrored s) :
    Mirrored n := by
  intro e va hva
  rw [h, h]
  exact hm e va hva

theorem lookupsInserted_mirrored {s n : State} {e va : Nat} {x : Pte}
    (h : LookupsInserted s n e va x) (hm : Mirrored s) : Mirrored n := by
  intro e' va' hva
  rw [h, h]
  by_cases hc : e' = e ∧ PDX va' = PDX va ∧ PTX va' = PTX va
  · rw [if_pos hc, if_pos hc]
  · rw [if_neg hc, if_neg hc]
    exact hm e' va' hva

theorem lookupsRolledBack_mirrored {s n : State} {e va : Nat}
    (h : LookupsRolledBack s n e va) (hm : Mirrored s) : Mirrored n := by
  intro e' va' hva
  have hu := h.2 e' Table.user va'
  have hk := h.2 e' Table.kern va'
  rw [if_neg (show ¬ (e' = e ∧ Table.kern = Table.user ∧ PDX va' = PDX va ∧ PTX va' = PTX va)
    from fun hc => Table.noConfusion hc.2.1)] at hk
  rw [hu, hk]
  by_cases hc : e' = e ∧ Table.user = Table.user ∧ PDX va' = PDX va ∧ PTX va' = PTX va
  · rw [if_pos hc]
    obtain ⟨he, _, hd, ht⟩ := hc
    rw [he, env_page_lookup_congr s e Table.kern va va' hd ht, h.1]
  · rw [if_neg hc]
    exact hm e' va' hva

theorem mirrored_insert_lookups (s : State) (e pp va perm : Nat)
    (h1 : (env_page_insert s e Table.user pp va perm).1 = 0)
    (h2 : (env_page_insert (env_page_insert s e Table.user pp va perm).2 e
      Table.kern pp va perm).1 = 0) :
    LookupsInserted s
      (env_page_insert (env_page_insert s e Table.user pp va perm).2 e Table.kern pp va perm).2
      e va { frame := pp, perm := perm ||| PTE_P } := by
  intro e' t' va'
  rw [env_page_lookup_insert _ _ _ _ _ _ _ _ _ h2, env_page_lookup_insert _ _ _ _ _ _ _ _ _ h1]
  by_cases hc : e' = e ∧ PDX va' = PDX va ∧ PTX va' = PTX va
  · rw [if_pos hc]
    cases t'
    · rw [if_neg (show ¬ (e' = e ∧ Table.user = Table.kern ∧ PDX va' = PDX va ∧ PTX va' = PTX va)
        from fun h => Table.noConfusion h.2.1), if_pos ⟨hc.1, rfl, hc.2⟩]
    · rw [if_pos ⟨hc.1, rfl, hc.2⟩]
  · rw [if_neg hc, if_neg (fun h => hc ⟨h.1, h.2.2⟩), if_neg (fun h => hc ⟨h.1, h.2.2⟩)]

theorem rollback_with_mem_lookup (s : State) (e pp va perm : Nat) (m : PhysMem)
    (h1 : (env_page_insert s e Table.user pp va perm).1 = 0)
    (e' : Nat) (t' : Table) (va' : Nat) :
    env_page_lookup
        (env_page_remove { (env_page_insert s e Table.user pp va perm).2 with mem := m }
          e Table.user va) e' t' va' =
      if e' = e ∧ t' = Table.user ∧ PDX va' = PDX va ∧ PTX va' = PTX va then none
      else env_page_lookup s e' t' va' := by
  rw [env_page_lookup_remove]
  by_cases hc : e' = e ∧ t' = Table.user ∧ PDX va' = PDX va ∧ PTX va' = PTX va
  · rw [if_pos hc, if_pos hc]
  · rw [if_neg hc, if_neg hc]
    have := env_page_lookup_insert s e Table.user pp va perm e' t' va' h1
    rw [if_neg hc] at this
    exact this

theorem mirrored_insert_rolledBack (s : State) (e pp va perm : Nat)
    (h1 : (env_page_insert s e Table.user pp va perm).1 = 0)
    (h2 : (env_page_insert (env_page_insert s e Table.user pp va perm).2 e
      Table.kern pp va perm).1 ≠ 0) :
    LookupsRolledBack s
      (env_page_remove (env_page_insert s e Table.user pp va perm).2 e Table.user va) e va :=
  ⟨mirrored_insert_rollback_kern_none s e pp va perm h2,
    fun e' t' va' => mirrored_insert_rollback_lookup s e pp va perm h1 e' t' va'⟩

theorem ipc_deliver_lookupsSame (s : State) (env value perm : Nat) (b : Bool) :
    LookupsSame s (ipc_deliver s env value perm b) :=
  fun e t va => ipc_deliver_lookup s env value perm b e t va

/-- How the lookups change over a call of `sys_page_map`. -/
theorem sys_page_map_lookups (s : State) (srcenvid srcva dstenvid dstva perm : Nat) :
    LookupsSame s (sys_page_map s srcenvid srcva dstenvid dstva perm).2 ∨
    (∃ dst, envid2env s dstenvid true = some dst ∧
      LookupsRolledBack s (sys_page_map s srcenvid srcva dstenvid dstva perm).2 dst dstva) ∨
    (∃ (src dst : Nat) (pte : Pte), (sys_page_map s srcenvid srcva dstenvid dstva perm).1 = 0 ∧
      envid2env s srcenvid true = some src ∧ envid2env s dstenvid true = some dst ∧
      env_page_lookup s src Table.user srcva = some pte ∧
      LookupsInserted s (sys_page_map s srcenvid srcva dstenvid dstva perm).2 dst dstva
        { frame := pte.frame, perm := perm }) := by
  by_cases h0 : (sys_page_map s srcenvid srcva dstenvid dstva perm).1 = 0
  · right; right
    obtain ⟨src, dst, pte, hc, hs, hd, hl, _, h1, h2, hst⟩ :=
      sys_page_map_ok_inv s srcenvid srcva dstenvid dstva perm h0
    have hp : perm_inappropriate perm = false := by
      cases hpi : perm_inappropriate perm with
      | false => rfl
      | true => exact absurd (Or.inr (Or.inr (Or.inr (Or.inr hpi)))) hc
    have hor : perm ||| PTE_P = perm :=
      lor_PTE_P_of_user_present perm ((perm_inappropriate_false perm).1 hp).1
    have hm := mirrored_insert_lookups s dst pte.frame dstva perm h1 h2
    rw [hor, ← hst] at hm
    exact ⟨src, dst, pte, h0, hs, hd, hl, hm⟩
  · rcases sys_page_map_fail_inv s srcenvid srcva dstenvid dstva perm h0 with
      hs | ⟨src, dst, pte, _, hd, _, _, h1, h2, hs⟩
    · left; rw [hs]; exact fun _ _ _ => rfl
    · right; left
      rw [hs]
      exact ⟨dst, hd, mirrored_insert_rolledBack s dst pte.frame dstva perm h1 h2⟩

theorem sys_page_map_mirrored (s : State) (srcenvid srcva dstenvid dstva perm : Nat)
    (hm : Mirrored s) : Mirrored (sys_page_map s srcenvid srcva dstenvid dstva perm).2 := by
  rcases sys_page_map_lookups s srcenvid srcva dstenvid dstva perm with
    h | ⟨_, _, h⟩ | ⟨_, _, _, _, _, _, _, h⟩
  · exact lookupsSame_mirrored h hm
  · exact lookupsRolledBack_mirrored h hm
  · exact lookupsInserted_mirrored h hm

theorem sys_page_unmap_lookups (s : State) (e va e' : Nat) (t' : Table) (va' : Nat) :
    env_page_lookup (env_page_remove (env_page_remove s e Table.user va) e Table.kern va) e' t' va'
      = if e' = e ∧ PDX va' = PDX va ∧ PTX va' = PTX va then none
        else env_page_lookup s e' t' va' := by
  rw [env_page_lookup_remove, env_page_lookup_remove]
  by_cases hp : e' = e ∧ PDX va' = PDX va ∧ PTX va' = PTX va
  · rw [if_pos hp]
    cases t'
    · rw [if_neg (show ¬ (e' = e ∧ Table.user = Table.kern ∧ PDX va' = PDX va ∧ PTX va' = PTX va)
        from fun h => Table.noConfusion h.2.1), if_pos ⟨hp.1, rfl, hp.2⟩]
    · rw [if_pos ⟨hp.1, rfl, hp.2⟩]
  · rw [if_neg hp, if_neg (fun h => hp ⟨h.1, h.2.2⟩), if_neg (fun h => hp ⟨h.1, h.2.2⟩)]

theorem sys_page_unmap_mirrored (s : State) (envid va : Nat) (hm : Mirrored s) :
    Mirrored (sys_page_unmap s envid va).2 := by
  unfold sys_page_unmap
  by_cases hc : UTOP ≤ va ∨ PGOFF va ≠ 0
  · rw [if_pos hc]; exact hm
  · rw [if_neg hc]
    cases he : envid2env s envid true with
    | none => exact hm
    | some e =>
      intro e' va' hva
      simp only []
      rw [sys_page_unmap_lookups, sys_page_unmap_lookups]
      by_cases hp : e' = e ∧ PDX va' = PDX va ∧ PTX va' = PTX va
      · rw [if_pos hp, if_pos hp]
      · rw [if_neg hp, if_neg hp]
        exact hm e' va' hva

theorem sys_ipc_try_send_mirrored (s : State) (envid value srcva perm : Nat) (hm : Mirrored s) :
    Mirrored (sys_ipc_try_send s envid value srcva perm).2 := by
  by_cases h0 : (sys_ipc_try_send s envid value srcva perm).1 = 0
  · cases hl : envid2env s envid false with
    | none =>
      unfold sys_ipc_try_send
      rw [hl]
      exact hm
    | some env =>
      obtain ⟨_, hcase⟩ := sys_ipc_try_send_ok_inv s envid value srcva perm env hl h0
      rcases hcase with ⟨_, hst⟩ | ⟨_, _, _, pte, _, _, h1, h2, hst⟩
      · rw [hst]
        exact lookupsSame_mirrored (ipc_deliver_lookupsSame s env value perm false) hm
      · rw [hst]
        exact lookupsSame_mirrored (ipc_deliver_lookupsSame _ env value perm true)
          (lookupsInserted_mirrored (mirrored_insert_lookups s env pte.frame _ perm h1 h2) hm)
  · rcases sys_ipc_try_send_fail_inv s envid value srcva perm h0 with
      hs | ⟨env, pte, _, _, h1, h2, hs⟩
    · rw [hs]; exact hm
    · rw [hs]
      exact lookupsRolledBack_mirrored (mirrored_insert_rolledBack s env pte.frame _ perm h1 h2) hm

theorem sys_page_alloc_mirrored (s : State) (envid va perm : Nat) (hm : Mirrored s) :
    Mirrored (sys_page_alloc s envid va perm).2 := by
  unfold sys_page_alloc
  by_cases hc : UTOP ≤ va ∨ PGOFF va ≠ 0 ∨ perm_inappropriate perm = true
  · rw [if_pos hc]; exact hm
  · rw [if_neg hc]
    cases he : envid2env s envid true with
    | none => exact hm
    | some e =>
      cases hpa : page_alloc s.mem true with
      | mk o m0 =>
        cases o with
        | none => exact hm
        | some pp =>
          simp only []
          have hm0 : Mirrored { s with mem := m0 } := hm
          by_cases h1 : (env_page_insert { s with mem := m0 } e Table.user pp va perm).1 = 0
          · rw [if_neg (not_not.2 h1)]
            by_cases h2 : (env_page_insert (env_page_insert { s with mem := m0 } e Table.user pp va perm).2
                e Table.kern pp va perm).1 = 0
            · rw [if_neg (not_not.2 h2)]
              exact lookupsInserted_mirrored (mirrored_insert_lookups _ e pp va perm h1 h2) hm0
            · rw [if_pos h2]
              simp only []
              rw [env_page_insert_fail _ _ _ _ _ _ h2]
              have hrb := mirrored_insert_rolledBack _ e pp va perm h1 h2
              have hrb' : LookupsRolledBack { s with mem := m0 }
                  (env_page_remove
                    { (env_page_insert { s with mem := m0 } e Table.user pp va perm).2 with
                      mem := page_free
                        (env_page_insert { s with mem := m0 } e Table.user pp va perm).2.mem pp }
                    e Table.user va) e va :=
                ⟨hrb.1, fun e' t' va' => rollback_with_mem_lookup _ e pp va perm _ h1 e' t' va'⟩
              exact lookupsRolledBack_mirrored hrb' hm0
          · rw [if_pos h1]
            simp only []
            rw [env_page_insert_fail _ _ _ _ _ _ h1]
            exact hm

theorem demoDir_lookup (a b va : Nat) :
    page_lookup (demoDir a) va = page_lookup (demoDir b) va := by
  unfold page_lookup demoDir
  simp only []
  by_cases h : PDX va = 2
  · simp [h]
  · simp [h]

theorem demoState_mirrored : Mirrored demoState := by
  intro e va _
  unfold env_page_lookup demoState
  simp only []
  split_ifs
  · exact demoDir_lookup 50 51 va
  · rfl
  · exact demoDir_lookup 52 53 va
  · rfl

/-- C16, the call that breaks it: the sample state satisfies the mirrored-tables
invariant; `sys_map_kernel_page` for the kernel address of frame 100 and
`va = 0x900000` (below `UTOP`) returns 0, after which the caller's user table
maps `0x900000` while its shadow table does not, so the invariant no longer
holds. -/
theorem sys_map_kernel_page_breaks_mirroring :
    Mirrored demoState ∧ 0x900000 < UTOP ∧
    ∃ r, sys_map_kernel_page 1024 demoState (KERNBASE + 100 * PGSIZE) 0x900000 = some r ∧
      r.1 = 0 ∧
      env_page_lookup r.2 0 Table.user 0x900000 = some { frame := 100, perm := 7 } ∧
      env_page_lookup r.2 0 Table.kern 0x900000 = none ∧
      ¬ Mirrored r.2 := by
  refine ⟨demoState_mirrored, by decide,
    env_page_insert demoState demoState.curenv Table.user 100 0x900000 (PTE_U ||| PTE_W),
    rfl, by decide, by decide, by decide, ?_⟩
  intro hm
  have h := hm 0 0x900000 (by decide)
  revert h
  decide

/-! ## `duppage` -/

theorem sys_page_map_result_sign (s : State) (srcenvid srcva dstenvid dstva perm : Nat) :
    (sys_page_map s srcenvid srcva dstenvid dstva perm).1 = 0 ∨
    (sys_page_map s srcenvid srcva dstenvid dstva perm).1 < 0 := by
  have hI : -E_INVAL < 0 := by decide
  have hB : -E_BAD_ENV < 0 := by decide
  have hM : -E_NO_MEM < 0 := by decide
  unfold sys_page_map
  by_cases hc : UTOP ≤ srcva ∨ PGOFF srcva ≠ 0 ∨ UTOP ≤ dstva ∨ PGOFF dstva ≠ 0
      ∨ perm_inappropriate perm = true
  · rw [if_pos hc]; exact Or.inr hI
  · rw [if_neg hc]
    cases hs : envid2env s srcenvid true with
    | none => exact Or.inr hB
    | some src =>
      cases hd : envid2env s dstenvid true with
      | none => exact Or.inr hB
      | some dst =>
        cases hl : env_page_lookup s src Table.user srcva with
        | none => simp only [hl]; exact Or.inr hI
        | some pte =>
          simp only [hl]
          by_cases hw : pte.perm &&& PTE_W = 0 ∧ perm &&& PTE_W ≠ 0
          · rw [if_pos hw]; exact Or.inr hI
          · rw [if_neg hw]
            by_cases h1 : (env_page_insert s dst Table.user pte.frame dstva perm).1 = 0
            · rw [if_neg (not_not.2 h1)]
              by_cases h2 : (env_page_insert (env_page_insert s dst Table.user pte.frame dstva perm).2
                  dst Table.kern pte.frame dstva perm).1 = 0
              · rw [if_neg (not_not.2 h2)]; exact Or.inl rfl
              · rw [if_pos h2]; exact Or.inr hM
            · rw [if_pos h1]; exact Or.inr hM

theorem sys_page_map_ok_lookups (s : State) (srcenvid srcva dstenvid dstva perm : Nat)
    (h0 : (sys_page_map s srcenvid srcva dstenvid dstva perm).1 = 0) :
    ∃ (src dst : Nat) (pte : Pte),
      envid2env s srcenvid true = some src ∧ envid2env s dstenvid true = some dst ∧
      env_page_lookup s src Table.user srcva = some pte ∧
      (sys_page_map s srcenvid srcva dstenvid dstva perm).2.curenv = s.curenv ∧
      (∀ i, SameButTables (s.envs i) ((sys_page_map s srcenvid srcva dstenvid dstva perm).2.envs i)) ∧
      LookupsInserted s (sys_page_map s srcenvid srcva dstenvid dstva perm).2 dst dstva
        { frame := pte.frame, perm := perm } := by
  obtain ⟨src, dst, pte, hc, hs, hd, hl, _, h1, h2, hst⟩ :=
    sys_page_map_ok_inv s srcenvid srcva dstenvid dstva perm h0
  have hp : perm_inappropriate perm = false := by
    cases hpi : perm_inappropriate perm with
    | false => rfl
    | true => exact absurd (Or.inr (Or.inr (Or.inr (Or.inr hpi)))) hc
  have hor : perm ||| PTE_P = perm :=
    lor_PTE_P_of_user_present perm ((perm_inappropriate_false perm).1 hp).1
  have hm := mirrored_insert_lookups s dst pte.frame dstva perm h1 h2
  rw [hor, ← hst] at hm
  refine ⟨src, dst, pte, hs, hd, hl, ?_, ?_, hm⟩
  · rw [hst]; rfl
  · intro i
    rw [hst]
    exact sameButTables_trans (env_page_insert_sameButTables s dst Table.user pte.frame dstva perm i)
      (env_page_insert_sameButTables _ dst Table.kern pte.frame dstva perm i)

theorem envid2env_zero (s : State) (cp : Bool) : envid2env s 0 cp = some s.curenv := by
  unfold envid2env
  rw [if_pos rfl]

/-- A successful `sys_page_map(0, v, envid, v, p)`: the caller's page at `v` is
now mapped at `v` in both tables of the environment named by `envid`. -/
theorem sys_page_map_self_to (s : State) (envid v p c : Nat)
    (hc : envid2env s envid true = some c)
    (h0 : (sys_page_map s 0 v envid v p).1 = 0) :
    ∃ pte0, env_page_lookup s s.curenv Table.user v = some pte0 ∧
      (sys_page_map s 0 v envid v p).2.curenv = s.curenv ∧
      (∀ i, SameButTables (s.envs i) ((sys_page_map s 0 v envid v p).2.envs i)) ∧
      LookupsInserted s (sys_page_map s 0 v envid v p).2 c v { frame := pte0.frame, perm := p } := by
  obtain ⟨src, dst, pte, hs, hd, hl, hcur, hsame, hm⟩ := sys_page_map_ok_lookups s 0 v envid v p h0
  rw [envid2env_zero] at hs
  rw [hc] at hd
  have h1 : s.curenv = src := Option.some.inj hs
  have h2 : c = dst := Option.some.inj hd
  subst h1
  subst h2
  exact ⟨pte, hl, hcur, hsame, hm⟩

theorem uvpt_of_lookup (s : State) (pn : Nat) (pte : Pte)
    (h : env_page_lookup s s.curenv Table.user (pn * PGSIZE) = some pte) :
    uvpt s pn = pte.perm ||| PTE_P := by
  unfold uvpt
  rw [h]

theorem uvpt_ne_zero (s : State) (pn : Nat) (h : uvpt s pn ≠ 0) :
    ∃ pte, env_page_lookup s s.curenv Table.user (pn * PGSIZE) = some pte := by
  unfold uvpt at h
  cases hl : env_page_lookup s s.curenv Table.user (pn * PGSIZE) with
  | none => rw [hl] at h; exact absurd rfl h
  | some pte => exact ⟨pte, rfl⟩

theorem land_ne_zero_left (x m : Nat) (h : x &&& m ≠ 0) : x ≠ 0 := by
  intro hx
  apply h
  rw [hx]
  exact Nat.zero_and m

theorem page_addr_small (pn : Nat) (hpn : pn < 2 ^ 20) : pn * PGSIZE % 2 ^ 32 = pn * PGSIZE := by
  unfold PGSIZE
  omega

/-- C17: for a page number `pn` whose entry in the caller lacks `PTE_SHARE` and
has `PTE_W` or `PTE_COW`, once `duppage(child, pn)` has returned, both tables of
the child and both tables of the caller map `pn * PGSIZE` to the frame the caller
had there, with permission set exactly `PTE_P|PTE_U|PTE_COW` (`PTE_COW` set,
`PTE_W` clear); and the child's mapping is installed first: after the first
`sys_page_map` the child already has it while the caller's entry is still the
old one, and the second `sys_page_map` then changes the caller's. -/
theorem duppage_copy_on_write (s s' : State) (envid pn c : Nat)
    (hpn : pn < 2 ^ 20)
    (hsh : uvpt s pn &&& PTE_SHARE = 0) (hw : uvpt s pn &&& (PTE_W ||| PTE_COW) ≠ 0)
    (hc : envid2env s envid true = some c) (hne : c ≠ s.curenv)
    (hret : duppage s envid pn = some s') :
    ∃ pte0, env_page_lookup s s.curenv Table.user (pn * PGSIZE) = some pte0 ∧
      (∀ t, env_page_lookup s' c t (pn * PGSIZE)
        = some { frame := pte0.frame, perm := PTE_P ||| PTE_U ||| PTE_COW }) ∧
      (∀ t, env_page_lookup s' s.curenv t (pn * PGSIZE)
        = some { frame := pte0.frame, perm := PTE_P ||| PTE_U ||| PTE_COW }) ∧
      (PTE_P ||| PTE_U ||| PTE_COW) &&& PTE_COW = PTE_COW ∧
      (PTE_P ||| PTE_U ||| PTE_COW) &&& PTE_W = 0 ∧
      ∃ s1, sys_page_map s 0 (pn * PGSIZE) envid (pn * PGSIZE) (PTE_P ||| PTE_U ||| PTE_COW)
          = (0, s1) ∧
        (∀ t, env_page_lookup s1 c t (pn * PGSIZE)
          = some { frame := pte0.frame, perm := PTE_P ||| PTE_U ||| PTE_COW }) ∧
        (∀ t, env_page_lookup s1 s.curenv t (pn * PGSIZE)
          = env_page_lookup s s.curenv t (pn * PGSIZE)) ∧
        sys_page_map s1 0 (pn * PGSIZE) 0 (pn * PGSIZE) (PTE_P ||| PTE_U ||| PTE_COW) = (0, s') := by
  unfold duppage at hret
  rw [if_neg (not_not.2 hsh), if_pos hw, page_addr_small pn hpn] at hret
  simp only [] at hret
  have hsign1 := sys_page_map_result_sign s 0 (pn * PGSIZE) envid (pn * PGSIZE)
    (PTE_P ||| PTE_U ||| PTE_COW)
  by_cases h1 : (sys_page_map s 0 (pn * PGSIZE) envid (pn * PGSIZE)
      (PTE_P ||| PTE_U ||| PTE_COW)).1 < 0
  · rw [if_pos h1] at hret; exact Option.noConfusion hret
  · rw [if_neg h1] at hret
    have h10 := hsign1.resolve_right h1
    by_cases h2 : (sys_page_map (sys_page_map s 0 (pn * PGSIZE) envid (pn * PGSIZE)
        (PTE_P ||| PTE_U ||| PTE_COW)).2 0 (pn * PGSIZE) 0 (pn * PGSIZE)
        (PTE_P ||| PTE_U ||| PTE_COW)).1 < 0
    · rw [if_pos h2] at hret; exact Option.noConfusion hret
    · rw [if_neg h2] at hret
      have h20 := (sys_page_map_result_sign _ 0 (pn * PGSIZE) 0 (pn * PGSIZE)
        (PTE_P ||| PTE_U ||| PTE_COW)).resolve_right h2
      have hs' := Option.some.inj hret
      obtain ⟨pte0, hl0, hcur1, _, hins1⟩ :=
        sys_page_map_self_to s envid (pn * PGSIZE) (PTE_P ||| PTE_U ||| PTE_COW) c hc h10
      obtain ⟨pte1, hl1, _, _, hins2⟩ :=
        sys_page_map_self_to _ 0 (pn * PGSIZE) (PTE_P ||| PTE_U ||| PTE_COW) _
          (envid2env_zero _ true) h20
      rw [hcur1] at hl1 hins2
      have hcond : ¬ (s.curenv = c ∧ PDX (pn * PGSIZE) = PDX (pn * PGSIZE)
          ∧ PTX (pn * PGSIZE) = PTX (pn * PGSIZE)) := fun h => hne h.1.symm
      have hcond' : ¬ (c = s.curenv ∧ PDX (pn * PGSIZE) = PDX (pn * PGSIZE)
          ∧ PTX (pn * PGSIZE) = PTX (pn * PGSIZE)) := fun h => hne h.1
      have hkeep : ∀ t, env_page_lookup (sys_page_map s 0 (pn * PGSIZE) envid (pn * PGSIZE)
          (PTE_P ||| PTE_U ||| PTE_COW)).2 s.curenv t (pn * PGSIZE)
          = env_page_lookup s s.curenv t (pn * PGSIZE) := by
        intro t
        rw [hins1, if_neg hcond]
      have hsame : pte1 = pte0 := by
        rw [hkeep, hl0] at hl1
        exact (Option.some.inj hl1).symm
      subst hsame
      refine ⟨pte1, hl0, ?_, ?_, by decide, by decide, _, Prod.ext h10 rfl, ?_, hkeep, ?_⟩
      · intro t
        rw [← hs', hins2, if_neg hcond', hins1, if_pos ⟨rfl, rfl, rfl⟩]
      · intro t
        rw [← hs', hins2, if_pos ⟨rfl, rfl, rfl⟩]
      · intro t
        rw [hins1, if_pos ⟨rfl, rfl, rfl⟩]
      · exact Prod.ext h20 hs'

/-- C17 at a concrete call: slot 0 duplicates its writable page `0x801` into
its child `0x1001`. -/
theorem duppage_copy_on_write_witness :
    ∃ s', duppage demoState 0x1001 0x801 = some s' ∧
      env_page_lookup demoState demoState.curenv Table.user 0x801000
        = some { frame := 101, perm := 7 } ∧
      (∀ t, env_page_lookup s' 1 t 0x801000
        = some { frame := 101, perm := PTE_P ||| PTE_U ||| PTE_COW }) ∧
      (∀ t, env_page_lookup s' 0 t 0x801000
        = some { frame := 101, perm := PTE_P ||| PTE_U ||| PTE_COW }) := by
  have hsome : (duppage demoState 0x1001 0x801).isSome = true := by decide
  have hret : duppage demoState 0x1001 0x801 = some ((duppage demoState 0x1001 0x801).get hsome) :=
    (Option.some_get hsome).symm
  obtain ⟨pte0, hl, hchild, hself, _⟩ := duppage_copy_on_write demoState _ 0x1001 0x801 1
    (by decide) (by decide) (by decide) (by decide) (by decide) hret
  have hl' : env_page_lookup demoState demoState.curenv Table.user 0x801000
      = some { frame := 101, perm := 7 } := by decide
  have hp : pte0 = { frame := 101, perm := 7 } := by
    have : env_page_lookup demoState demoState.curenv Table.user (0x801 * PGSIZE) = some pte0 := hl
    rw [show (0x801 * PGSIZE : Nat) = 0x801000 from by decide, hl'] at this
    exact (Option.some.inj this).symm
  subst hp
  exact ⟨_, hret, hl', hchild, hself⟩

theorem land_syscall_land (x b : Nat) (hb : PTE_SYSCALL &&& b = b) :
    (x &&& PTE_SYSCALL) &&& b = x &&& b := by
  rw [Nat.land_assoc, hb]

/-- C18: for a page number `pn` whose entry in the caller has `PTE_SHARE`
(whatever its `PTE_W` bit), once `duppage(child, pn)` has returned, both tables of
the child map `pn * PGSIZE` to the caller's frame with the caller's permission
set restricted to `PTE_SYSCALL`; every mapping of the caller is unchanged; and the
child's `PTE_COW`, `PTE_W` and `PTE_SHARE` bits are the caller's, so no
`PTE_COW` is added and a writable page stays writable on both sides. -/
theorem duppage_shared (s s' : State) (envid pn c : Nat)
    (hpn : pn < 2 ^ 20)
    (hsh : uvpt s pn &&& PTE_SHARE ≠ 0)
    (hc : envid2env s envid true = some c) (hne : c ≠ s.curenv)
    (hret : duppage s envid pn = some s') :
    ∃ pte0, env_page_lookup s s.curenv Table.user (pn * PGSIZE) = some pte0 ∧
      uvpt s pn = pte0.perm ||| PTE_P ∧
      (∀ t, env_page_lookup s' c t (pn * PGSIZE)
        = some { frame := pte0.frame, perm := uvpt s pn &&& PTE_SYSCALL }) ∧
      (∀ t va, env_page_lookup s' s.curenv t va = env_page_lookup s s.curenv t va) ∧
      (uvpt s pn &&& PTE_SYSCALL) &&& PTE_COW = uvpt s pn &&& PTE_COW ∧
      (uvpt s pn &&& PTE_SYSCALL) &&& PTE_W = uvpt s pn &&& PTE_W ∧
      (uvpt s pn &&& PTE_SYSCALL) &&& PTE_SHARE = uvpt s pn &&& PTE_SHARE := by
  unfold duppage at hret
  rw [if_pos hsh, page_addr_small pn hpn] at hret
  simp only [] at hret
  by_cases h1 : (sys_page_map s 0 (pn * PGSIZE) envid (pn * PGSIZE)
      (uvpt s pn &&& PTE_SYSCALL)).1 < 0
  · rw [if_pos h1] at hret; exact Option.noConfusion hret
  · rw [if_neg h1] at hret
    have h10 := (sys_page_map_result_sign s 0 (pn * PGSIZE) envid (pn * PGSIZE)
      (uvpt s pn &&& PTE_SYSCALL)).resolve_right h1
    have hs' := Option.some.inj hret
    obtain ⟨pte0, hl0, _, _, hins⟩ :=
      sys_page_map_self_to s envid (pn * PGSIZE) (uvpt s pn &&& PTE_SYSCALL) c hc h10
    refine ⟨pte0, hl0, uvpt_of_lookup s pn pte0 hl0, ?_, ?_,
      land_syscall_land _ _ (by decide), land_syscall_land _ _ (by decide),
      land_syscall_land _ _ (by decide)⟩
    · intro t
      rw [← hs', hins, if_pos ⟨rfl, rfl, rfl⟩]
    · intro t va
      rw [← hs', hins, if_neg (fun h => hne h.1.symm)]

/-- C18 at a concrete call: slot 0 duplicates its shared writable page `0x801`
into its child `0x1001`; the child gets it writable and shared, without
`PTE_COW`. -/
theorem duppage_shared_witness :
    ∃ s', duppage sharedState 0x1001 0x801 = some s' ∧
      env_page_lookup sharedState sharedState.curenv Table.user 0x801000
        = some { frame := 101, perm := 0x407 } ∧
      (∀ t, env_page_lookup s' 1 t 0x801000 = some { frame := 101, perm := 0x407 }) ∧
      (∀ t va, env_page_lookup s' 0 t va = env_page_lookup sharedState 0 t va) := by
  have hsome : (duppage sharedState 0x1001 0x801).isSome = true := by decide
  have hret := (Option.some_get hsome).symm
  obtain ⟨pte0, hl, _, hchild, hself, _⟩ := duppage_shared sharedState _ 0x1001 0x801 1
    (by decide) (by decide) (by decide) (by decide) hret
  have hl' : env_page_lookup sharedState sharedState.curenv Table.user 0x801000
      = some { frame := 101, perm := 0x407 } := by decide
  have hp : pte0 = { frame := 101, perm := 0x407 } := by
    have h2 : env_page_lookup sharedState sharedState.curenv Table.user (0x801 * PGSIZE)
        = some pte0 := hl
    rw [show (0x801 * PGSIZE : Nat) = 0x801000 from by decide, hl'] at h2
    exact (Option.some.inj h2).symm
  subst hp
  refine ⟨_, hret, hl', ?_, hself⟩
  intro t
  have h := hchild t
  rw [show (0x801 * PGSIZE : Nat) = 0x801000 from by decide] at h
  rw [h]
  decide

/-! ## Frames that are not on the free list -/

theorem free_chain_congr (m n : PhysMem) (h1 : n.page_free_list = m.page_free_list)
    (h2 : n.pp_link = m.pp_link) (k : Nat) : free_chain n k = free_chain m k := by
  induction k with
  | zero => exact h1
  | succ k ih =>
    unfold free_chain
    rw [ih, h2]

theorem onFreeList_congr (m n : PhysMem) (h1 : n.page_free_list = m.page_free_list)
    (h2 : n.pp_link = m.pp_link) (f : Nat) : OnFreeList n f ↔ OnFreeList m f := by
  unfold OnFreeList
  simp only [free_chain_congr m n h1 h2]

theorem onFreeList_pp_ref (m : PhysMem) (r : Nat → Nat) (f : Nat) :
    OnFreeList { m with pp_ref := r } f ↔ OnFreeList m f :=
  onFreeList_congr m { m with pp_ref := r } rfl rfl f

theorem free_chain_succ (m : PhysMem) (k x f : Nat) (hx : free_chain m k = some x)
    (hf : m.pp_link x = some f) : free_chain m (k + 1) = some f := by
  show (match free_chain m k with | none => none | some f => m.pp_link f) = some f
  rw [hx]
  exact hf

theorem free_chain_succ_inv (m : PhysMem) (k f : Nat) (h : free_chain m (k + 1) = some f) :
    ∃ x, free_chain m k = some x ∧ m.pp_link x = some f := by
  have h' : (match free_chain m k with | none => none | some f => m.pp_link f) = some f := h
  cases hx : free_chain m k with
  | none => rw [hx] at h'; exact Option.noConfusion h'
  | some x => rw [hx] at h'; exact ⟨x, rfl, h'⟩

/-- Popping the head of the free list adds no frame to it. -/
theorem onFreeList_of_page_alloc (m : PhysMem) (z : Bool) (f : Nat)
    (h : OnFreeList (page_alloc m z).2 f) : OnFreeList m f := by
  unfold page_alloc at h
  cases hfl : m.page_free_list with
  | none => rw [hfl] at h; exact h
  | some pp =>
    rw [hfl] at h
    simp only [] at h
    obtain ⟨n, hn⟩ := h
    have key : ∀ n g,
        free_chain
          { m with
            page_free_list := m.pp_link pp
            pp_link := Function.update m.pp_link pp none
            data := if z = true then Function.update m.data pp (fun _ => 0) else m.data } n = some g →
        OnFreeList m g := by
      intro n
      induction n with
      | zero =>
        intro g hg
        exact ⟨1, free_chain_succ m 0 pp g hfl hg⟩
      | succ n ih =>
        intro g hg
        obtain ⟨x, hx, hlink⟩ := free_chain_succ_inv _ n g hg
        obtain ⟨k, hk⟩ := ih x hx
        have hxp : x ≠ pp := by
          intro hc
          rw [hc] at hlink
          simp at hlink
        have hlink' : m.pp_link x = some g := by
          simpa [Function.update_noteq hxp] using hlink
        exact ⟨k + 1, free_chain_succ m k x g hk hlink'⟩
    exact key n f hn

/-- Freeing frame `q` adds only `q` to the free list. -/
theorem onFreeList_of_page_free (m : PhysMem) (q f : Nat) (h : OnFreeList (page_free m q) f) :
    f = q ∨ OnFreeList m f := by
  obtain ⟨n, hn⟩ := h
  have key : ∀ n g, free_chain (page_free m q) n = some g → g = q ∨ OnFreeList m g := by
    intro n
    induction n with
    | zero =>
      intro g hg
      left
      have : some q = some g := hg
      exact (Option.some.inj this).symm
    | succ n ih =>
      intro g hg
      obtain ⟨x, hx, hlink⟩ := free_chain_succ_inv _ n g hg
      by_cases hxq : x = q
      · right
        subst hxq
        have : m.page_free_list = some g := by
          simpa [page_free] using hlink
        exact ⟨0, this⟩
      · right
        have hlink' : m.pp_link x = some g := by
          simpa [page_free, Function.update_noteq hxq] using hlink
        rcases ih x hx with hq | ⟨k, hk⟩
        · exact absurd hq hxq
        · exact ⟨k + 1, free_chain_succ m k x g hk hlink'⟩
  exact key n f hn

theorem page_alloc_protects (m : PhysMem) (z : Bool) (f0 : Nat) (h : ¬ OnFreeList m f0) :
    (page_alloc m z).1 ≠ some f0 ∧ ¬ OnFreeList (page_alloc m z).2 f0 ∧
    (page_alloc m z).2.data f0 = m.data f0 := by
  refine ⟨?_, fun hc => h (onFreeList_of_page_alloc m z f0 hc), ?_⟩
  · intro hc
    apply h
    unfold page_alloc at hc
    cases hfl : m.page_free_list with
    | none => rw [hfl] at hc; exact Option.noConfusion hc
    | some pp =>
      rw [hfl] at hc
      simp only [Option.some.injEq] at hc
      subst hc
      exact ⟨0, hfl⟩
  · unfold page_alloc
    cases hfl : m.page_free_list with
    | none => rfl
    | some pp =>
      have hpp : f0 ≠ pp := by
        intro hc
        apply h
        rw [hc]
        exact ⟨0, hfl⟩
      simp only []
      cases z
      · rfl
      · simp [Function.update_noteq hpp]

theorem page_decref_protects (m : PhysMem) (q f0 : Nat) (hq : q ≠ f0) (h : ¬ OnFreeList m f0) :
    ¬ OnFreeList (page_decref m q) f0 := by
  intro hc
  unfold page_decref at hc
  simp only [] at hc
  split at hc
  · rcases onFreeList_of_page_free _ q f0 hc with h1 | h1
    · exact hq h1.symm
    · exact h ((onFreeList_pp_ref m _ f0).1 h1)
  · exact h ((onFreeList_pp_ref m _ f0).1 hc)

theorem page_remove_protects (m : PhysMem) (pd : PageDir) (va f0 : Nat)
    (hold : ∀ pte, page_lookup pd va = some pte → pte.frame ≠ f0) (h : ¬ OnFreeList m f0) :
    ¬ OnFreeList (page_remove m pd va).1 f0 := by
  unfold page_remove
  cases hl : page_lookup pd va with
  | none => exact h
  | some e => exact page_decref_protects m e.frame f0 (hold e hl) h

theorem pgdir_walk_create_protects (m : PhysMem) (pd : PageDir) (va f0 : Nat)
    (r : PhysMem × PageDir) (hw : pgdir_walk_create m pd va = some r) (h : ¬ OnFreeList m f0) :
    ¬ OnFreeList r.1 f0 ∧ r.1.data f0 = m.data f0 := by
  unfold pgdir_walk_create at hw
  cases hp : pd.pde (PDX va) with
  | some t =>
    rw [hp] at hw
    simp only [Option.some.injEq] at hw
    subst hw
    exact ⟨h, rfl⟩
  | none =>
    rw [hp] at hw
    obtain ⟨_, h2, h3⟩ := page_alloc_protects m true f0 h
    cases ha : page_alloc m true with
    | mk o m1 =>
      rw [ha] at hw h2 h3
      cases o with
      | none => exact Option.noConfusion hw
      | some pt =>
        simp only [Option.some.injEq] at hw
        subst hw
        exact ⟨fun hc => h2 ((onFreeList_pp_ref m1 _ f0).1 hc), h3⟩

theorem pgdir_walk_create_lookup_frame (m : PhysMem) (pd : PageDir) (va : Nat)
    (r : PhysMem × PageDir) (hw : pgdir_walk_create m pd va = some r) (pte : Pte)
    (hl : page_lookup r.2 va = some pte) : page_lookup pd va = some pte := by
  by_cases hp : pd.pde (PDX va) = none
  · exfalso
    unfold pgdir_walk_create at hw
    rw [hp] at hw
    cases ha : page_alloc m true with
    | mk o m1 =>
      rw [ha] at hw
      cases o with
      | none => exact Option.noConfusion hw
      | some pt =>
        simp only [Option.some.injEq] at hw
        subst hw
        simp [page_lookup] at hl
  · rw [← pgdir_walk_create_lookup_same_dir m pd va va r hw hp]
    exact hl

/-- An insert whose replaced entry (if any) is not frame `f0` keeps `f0` off the
free list and leaves its bytes alone. -/
theorem page_insert_protects (m : PhysMem) (pd : PageDir) (pp va perm f0 : Nat)
    (hold : ∀ pte, page_lookup pd va = some pte → pte.frame ≠ f0) (h : ¬ OnFreeList m f0) :
    ¬ OnFreeList (page_insert m pd pp va perm).2.1 f0 ∧
    (page_insert m pd pp va perm).2.1.data f0 = m.data f0 := by
  unfold page_insert
  cases hw : pgdir_walk_create m pd va with
  | none => exact ⟨h, rfl⟩
  | some r =>
    simp only []
    obtain ⟨h1, h2⟩ := pgdir_walk_create_protects m pd va f0 r hw h
    constructor
    · apply page_remove_protects
      · intro pte hl
        exact hold pte (pgdir_walk_create_lookup_frame m pd va r hw pte hl)
      · exact fun hc => h1 ((onFreeList_pp_ref r.1 _ f0).1 hc)
    · rw [page_remove_data]
      exact h2

theorem page_insert_data_of_mapped (m : PhysMem) (pd : PageDir) (pp va perm : Nat)
    (h : page_lookup pd va ≠ none) : (page_insert m pd pp va perm).2.1.data = m.data := by
  unfold page_insert
  rw [pgdir_walk_create_of_pde m pd va (page_lookup_pde pd va h)]
  simp only []
  rw [page_remove_data]

theorem env_page_insert_protects (s : State) (e : Nat) (t : Table) (pp va perm f0 : Nat)
    (hold : ∀ pte, env_page_lookup s e t va = some pte → pte.frame ≠ f0)
    (h : ¬ OnFreeList s.mem f0) :
    ¬ OnFreeList (env_page_insert s e t pp va perm).2.mem f0 ∧
    (env_page_insert s e t pp va perm).2.mem.data f0 = s.mem.data f0 :=
  page_insert_protects s.mem ((s.envs e).table t) pp va perm f0 hold h

theorem env_page_insert_data_of_mapped (s : State) (e : Nat) (t : Table) (pp va perm : Nat)
    (h : env_page_lookup s e t va ≠ none) :
    (env_page_insert s e t pp va perm).2.mem.data = s.mem.data :=
  page_insert_data_of_mapped s.mem ((s.envs e).table t) pp va perm h

theorem env_page_remove_data (s : State) (e : Nat) (t : Table) (va : Nat) :
    (env_page_remove s e t va).mem.data = s.mem.data :=
  page_remove_data s.mem ((s.envs e).table t) va

theorem env_page_remove_protects (s : State) (e : Nat) (t : Table) (va f0 : Nat)
    (hold : ∀ pte, env_page_lookup s e t va = some pte → pte.frame ≠ f0)
    (h : ¬ OnFreeList s.mem f0) : ¬ OnFreeList (env_page_remove s e t va).mem f0 :=
  page_remove_protects s.mem ((s.envs e).table t) va f0 hold h

/-! ## A successful `sys_page_alloc` -/

theorem sys_page_alloc_ok_inv (s : State) (envid va perm : Nat)
    (h0 : (sys_page_alloc s envid va perm).1 = 0) :
    ∃ e pp,
      ¬ (UTOP ≤ va ∨ PGOFF va ≠ 0 ∨ perm_inappropriate perm = true) ∧
      envid2env s envid true = some e ∧ page_alloc s.mem true = (some pp, (page_alloc s.mem true).2) ∧
      s.mem.page_free_list = some pp ∧
      (env_page_insert { s with mem := (page_alloc s.mem true).2 } e Table.user pp va perm).1 = 0 ∧
      (env_page_insert
        (env_page_insert { s with mem := (page_alloc s.mem true).2 } e Table.user pp va perm).2
        e Table.kern pp va perm).1 = 0 ∧
      (sys_page_alloc s envid va perm).2 =
        (env_page_insert
          (env_page_insert { s with mem := (page_alloc s.mem true).2 } e Table.user pp va perm).2
          e Table.kern pp va perm).2 := by
  unfold sys_page_alloc at h0 ⊢
  by_cases hc : UTOP ≤ va ∨ PGOFF va ≠ 0 ∨ perm_inappropriate perm = true
  · rw [if_pos hc] at h0; simp [E_INVAL] at h0
  · rw [if_neg hc] at h0 ⊢
    cases he : envid2env s envid true with
    | none => rw [he] at h0; simp [E_BAD_ENV] at h0
    | some e =>
      rw [he] at h0
      simp only [] at h0 ⊢
      cases hfl : s.mem.page_free_list with
      | none =>
        have ha : page_alloc s.mem true = (none, s.mem) := by
          unfold page_alloc; rw [hfl]
        rw [ha] at h0
        simp [E_NO_MEM] at h0
      | some pp =>
        have ha : (page_alloc s.mem true).1 = some pp := by
          unfold page_alloc; rw [hfl]
        cases hpa : page_alloc s.mem true with
        | mk o m0 =>
          rw [hpa] at ha h0
          simp only [] at ha
          subst ha
          simp only [] at h0 ⊢
          by_cases h1 : (env_page_insert { s with mem := m0 } e Table.user pp va perm).1 = 0
          · rw [if_neg (not_not.2 h1)] at h0 ⊢
            by_cases h2 : (env_page_insert (env_page_insert { s with mem := m0 } e Table.user pp va perm).2
                e Table.kern pp va perm).1 = 0
            · rw [if_neg (not_not.2 h2)]
              exact ⟨e, pp, hc, rfl, rfl, rfl, h1, h2, rfl⟩
            · rw [if_pos h2] at h0; simp [E_NO_MEM] at h0
          · rw [if_pos h1] at h0; simp [E_NO_MEM] at h0

/-- What a successful `sys_page_alloc` on environment `e` does: the head `pp` of
the free list is mapped at `va` in both tables with `perm`, its bytes are zero,
nothing else is looked up differently, and a frame `f0` that was not free and
was not the one mapped at `va` before stays off the free list with its bytes. -/
theorem sys_page_alloc_ok_facts (s : State) (envid va perm e : Nat)
    (he : envid2env s envid true = some e)
    (h0 : (sys_page_alloc s envid va perm).1 = 0) :
    ∃ pp, s.mem.page_free_list = some pp ∧
      LookupsInserted s (sys_page_alloc s envid va perm).2 e va { frame := pp, perm := perm } ∧
      (sys_page_alloc s envid va perm).2.curenv = s.curenv ∧
      (∀ i, SameButTables (s.envs i) ((sys_page_alloc s envid va perm).2.envs i)) ∧
      (∀ o, (sys_page_alloc s envid va perm).2.mem.data pp o = 0) ∧
      (∀ f0, ¬ OnFreeList s.mem f0 →
        (∀ t pte, env_page_lookup s e t va = some pte → pte.frame ≠ f0) →
        pp ≠ f0 ∧ ¬ OnFreeList (sys_page_alloc s envid va perm).2.mem f0 ∧
        (sys_page_alloc s envid va perm).2.mem.data f0 = s.mem.data f0) := by
  obtain ⟨e', pp, hc, he', hpa, hfl, h1, h2, hst⟩ := sys_page_alloc_ok_inv s envid va perm h0
  rw [he] at he'
  have hee : e = e' := Option.some.inj he'
  subst hee
  have hp : perm_inappropriate perm = false := by
    cases hpi : perm_inappropriate perm with
    | false => rfl
    | true => exact absurd (Or.inr (Or.inr hpi)) hc
  have hor : perm ||| PTE_P = perm :=
    lor_PTE_P_of_user_present perm ((perm_inappropriate_false perm).1 hp).1
  have hm := mirrored_insert_lookups { s with mem := (page_alloc s.mem true).2 } e pp va perm h1 h2
  rw [hor, ← hst] at hm
  refine ⟨pp, hfl, hm, ?_, ?_, ?_, ?_⟩
  · rw [hst]; rfl
  · intro i
    rw [hst]
    exact sameButTables_trans
      (env_page_insert_sameButTables { s with mem := (page_alloc s.mem true).2 } e Table.user pp va perm i)
      (env_page_insert_sameButTables _ e Table.kern pp va perm i)
  · intro o
    rw [hst]
    apply page_insert_zeroKept
    apply page_insert_zeroKept
    exact page_alloc_zeroed s.mem pp _ hpa o
  · intro f0 hnf hold
    obtain ⟨a1, a2, a3⟩ := page_alloc_protects s.mem true f0 hnf
    have hppne : pp ≠ f0 := by
      intro hcon
      apply a1
      rw [hpa, hcon]
    obtain ⟨b1, b2⟩ := env_page_insert_protects { s with mem := (page_alloc s.mem true).2 }
      e Table.user pp va perm f0 (fun pte hl => hold Table.user pte hl) a2
    have hold2 : ∀ pte,
        env_page_lookup
          (env_page_insert { s with mem := (page_alloc s.mem true).2 } e Table.user pp va perm).2
          e Table.kern va = some pte → pte.frame ≠ f0 := by
      intro pte hl
      rw [env_page_lookup_insert _ _ _ _ _ _ _ _ _ h1,
        if_neg (show ¬ (e = e ∧ Table.kern = Table.user ∧ PDX va = PDX va ∧ PTX va = PTX va)
          from fun h => Table.noConfusion h.2.1)] at hl
      exact hold Table.kern pte hl
    obtain ⟨c1, c2⟩ := env_page_insert_protects _ e Table.kern pp va perm f0 hold2 b1
    rw [hst]
    refine ⟨hppne, c1, ?_⟩
    rw [c2, b2]
    exact a3

/-! ## `pgfault` -/

theorem sys_page_map_ok_data (s : State) (srcenvid srcva dstenvid dstva perm dst : Nat)
    (hd : envid2env s dstenvid true = some dst)
    (h0 : (sys_page_map s srcenvid srcva dstenvid dstva perm).1 = 0)
    (hu : env_page_lookup s dst Table.user dstva ≠ none)
    (hk : env_page_lookup s dst Table.kern dstva ≠ none) :
    (sys_page_map s srcenvid srcva dstenvid dstva perm).2.mem.data = s.mem.data := by
  obtain ⟨src, dst', pte, _, _, hd', _, _, h1, h2, hst⟩ :=
    sys_page_map_ok_inv s srcenvid srcva dstenvid dstva perm h0
  rw [hd] at hd'
  have hdd : dst = dst' := Option.some.inj hd'
  subst hdd
  rw [hst]
  have hk' : env_page_lookup (env_page_insert s dst Table.user pte.frame dstva perm).2
      dst Table.kern dstva ≠ none := by
    rw [env_page_lookup_insert _ _ _ _ _ _ _ _ _ h1,
      if_neg (show ¬ (dst = dst ∧ Table.kern = Table.user ∧ PDX dstva = PDX dstva
        ∧ PTX dstva = PTX dstva) from fun h => Table.noConfusion h.2.1)]
    exact hk
  rw [env_page_insert_data_of_mapped _ _ _ _ _ _ hk', env_page_insert_data_of_mapped _ _ _ _ _ _ hu]

theorem sys_page_unmap_eq (s : State) (envid va e : Nat)
    (he : envid2env s envid true = some e) (hva : va < UTOP) (hal : va % PGSIZE = 0) :
    sys_page_unmap s envid va
      = (0, env_page_remove (env_page_remove s e Table.user va) e Table.kern va) := by
  have hc : ¬ (UTOP ≤ va ∨ PGOFF va ≠ 0) := by
    rintro (h | h)
    · exact absurd hva (not_lt.2 h)
    · exact h hal
  unfold sys_page_unmap
  rw [if_neg hc, he]

theorem user_memmove_page_inv (s s2 : State) (dst src : Nat)
    (h : user_memmove_page s dst src = some s2) :
    ∃ d r, env_page_lookup s s.curenv Table.user dst = some d ∧
      env_page_lookup s s.curenv Table.user src = some r ∧
      s2 = { s with
        mem := { s.mem with
          data := Function.update s.mem.data d.frame
            (fun o => if o < PGSIZE then s.mem.data r.frame o else s.mem.data d.frame o) } } := by
  unfold user_memmove_page at h
  cases hd : env_page_lookup s s.curenv Table.user dst with
  | none => rw [hd] at h; simp at h
  | some d =>
    cases hr : env_page_lookup s s.curenv Table.user src with
    | none => rw [hd, hr] at h; simp at h
    | some r =>
      rw [hd, hr] at h
      simp only [] at h
      split at h
      · exact Option.noConfusion h
      · exact ⟨d, r, rfl, rfl, (Option.some.inj h).symm⟩

theorem page_base_eq (va : Nat) : PGNUM va * PGSIZE = va - va % PGSIZE := by
  unfold PGNUM PGSIZE
  omega

/-- C19 (as amended): `pgfault` panics unless the fault was a write (`FEC_WR`)
to an address whose page-directory entry is present and whose table entry has
`PTE_P` and `PTE_COW`.  Otherwise, for a fault outside the scratch page `PFTEMP`
in a state where the faulting page is also in the shadow table, its frame is not
on the free list and `PFTEMP` does not already map that frame, once `pgfault`
has returned (its three system calls succeeded): both tables map the faulting
page to the frame that headed the free list, different from the original frame,
with exactly `PTE_P|PTE_U|PTE_W` (no `PTE_COW`); that frame holds a byte-for-byte
copy of the original page; the original frame's bytes are unmodified; and
`PFTEMP` is unmapped. -/
theorem pgfault_copies_page (s : State) (fault_va err : Nat) :
    ((err &&& FEC_WR = 0 ∨ uvpd s (PDX fault_va) &&& PTE_P = 0
        ∨ uvpt s (PGNUM fault_va) &&& (PTE_P ||| PTE_COW) ≠ (PTE_P ||| PTE_COW)) →
      pgfault s fault_va err = none) ∧
    (∀ (s' : State) (pte0 : Pte), fault_va < 2 ^ 32 → PGNUM fault_va ≠ PGNUM PFTEMP →
      env_page_lookup s s.curenv Table.user (fault_va - fault_va % PGSIZE) = some pte0 →
      env_page_lookup s s.curenv Table.kern (fault_va - fault_va % PGSIZE) ≠ none →
      ¬ OnFreeList s.mem pte0.frame →
      (∀ t pte, env_page_lookup s s.curenv t PFTEMP = some pte → pte.frame ≠ pte0.frame) →
      pgfault s fault_va err = some s' →
      ∃ pp, s.mem.page_free_list = some pp ∧ pp ≠ pte0.frame ∧
        (∀ t, env_page_lookup s' s.curenv t (fault_va - fault_va % PGSIZE)
          = some { frame := pp, perm := PTE_P ||| PTE_U ||| PTE_W }) ∧
        (PTE_P ||| PTE_U ||| PTE_W) &&& PTE_COW = 0 ∧
        (∀ o, o < PGSIZE → s'.mem.data pp o = s.mem.data pte0.frame o) ∧
        (∀ o, s'.mem.data pte0.frame o = s.mem.data pte0.frame o) ∧
        (∀ t, env_page_lookup s' s.curenv t PFTEMP = none)) := by
  constructor
  · intro h
    unfold pgfault
    rw [if_pos h]
  · intro s' pte0 hva hpg hl0 hkern hfree htmp hret
    unfold pgfault at hret
    split at hret
    · exact Option.noConfusion hret
    · simp only [] at hret
      by_cases h1 : (sys_page_alloc s 0 PFTEMP (PTE_P ||| PTE_U ||| PTE_W)).1 = 0
      · rw [if_neg (not_not.2 h1)] at hret
        obtain ⟨pp, hfl, hinsA, hcurA, _, _, hprotA⟩ :=
          sys_page_alloc_ok_facts s 0 PFTEMP (PTE_P ||| PTE_U ||| PTE_W) s.curenv
            (envid2env_zero s true) h1
        obtain ⟨hppne, _, hdataA⟩ := hprotA pte0.frame hfree htmp
        -- the faulting page is not the scratch page
        have hidx : ¬ (PDX (fault_va - fault_va % PGSIZE) = PDX PFTEMP
            ∧ PTX (fault_va - fault_va % PGSIZE) = PTX PFTEMP) := by
          apply page_index_ne PFTEMP (fault_va - fault_va % PGSIZE) (by decide)
            (lt_of_le_of_lt (Nat.sub_le _ _) hva)
          unfold PGNUM at hpg
          unfold PGSIZE at hpg ⊢
          omega
        have hidx' : ¬ (PDX PFTEMP = PDX (fault_va - fault_va % PGSIZE)
            ∧ PTX PFTEMP = PTX (fault_va - fault_va % PGSIZE)) :=
          fun h => hidx ⟨h.1.symm, h.2.symm⟩
        cases hmm : user_memmove_page (sys_page_alloc s 0 PFTEMP (PTE_P ||| PTE_U ||| PTE_W)).2
            PFTEMP (fault_va - fault_va % PGSIZE) with
        | none => rw [hmm] at hret; exact Option.noConfusion hret
        | some s2 =>
          rw [hmm] at hret
          simp only [] at hret
          obtain ⟨d, r, hd, hr, hs2⟩ := user_memmove_page_inv _ _ _ _ hmm
          rw [hcurA, hinsA, if_pos ⟨rfl, rfl, rfl⟩] at hd
          rw [hcurA, hinsA, if_neg (fun h => hidx h.2), hl0] at hr
          have hdd := Option.some.inj hd
          have hrr := Option.some.inj hr
          subst hdd
          subst hrr
          simp only [] at hs2
          have hcur2 : s2.curenv = s.curenv := by rw [hs2]; exact hcurA
          have hlk2 : ∀ e t va, env_page_lookup s2 e t va
              = env_page_lookup (sys_page_alloc s 0 PFTEMP (PTE_P ||| PTE_U ||| PTE_W)).2 e t va := by
            intro e t va; rw [hs2]; rfl
          have hdata2 : s2.mem.data = Function.update
              (sys_page_alloc s 0 PFTEMP (PTE_P ||| PTE_U ||| PTE_W)).2.mem.data pp
              (fun o => if o < PGSIZE then
                (sys_page_alloc s 0 PFTEMP (PTE_P ||| PTE_U ||| PTE_W)).2.mem.data pte0.frame o
                else (sys_page_alloc s 0 PFTEMP (PTE_P ||| PTE_U ||| PTE_W)).2.mem.data pp o) :=
            congrArg (fun x => x.mem.data) hs2
          by_cases h3 : (sys_page_map s2 0 PFTEMP 0 (fault_va - fault_va % PGSIZE)
              (PTE_P ||| PTE_U ||| PTE_W)).1 = 0
          · rw [if_neg (not_not.2 h3)] at hret
            obtain ⟨src, dst, pte, hsrc, hdst, hlsrc, hcur3, _, hins3⟩ :=
              sys_page_map_ok_lookups s2 0 PFTEMP 0 (fault_va - fault_va % PGSIZE)
                (PTE_P ||| PTE_U ||| PTE_W) h3
            rw [envid2env_zero] at hsrc hdst
            have e1 : s2.curenv = src := Option.some.inj hsrc
            have e2 : s2.curenv = dst := Option.some.inj hdst
            subst e1
            subst e2
            rw [hlk2, hcur2, hinsA, if_pos ⟨rfl, rfl, rfl⟩] at hlsrc
            have hpte := (Option.some.inj hlsrc).symm
            subst hpte
            simp only [] at hins3
            have hdata3 : (sys_page_map s2 0 PFTEMP 0 (fault_va - fault_va % PGSIZE)
                (PTE_P ||| PTE_U ||| PTE_W)).2.mem.data = s2.mem.data := by
              apply sys_page_map_ok_data s2 0 PFTEMP 0 (fault_va - fault_va % PGSIZE)
                (PTE_P ||| PTE_U ||| PTE_W) s2.curenv (envid2env_zero s2 true) h3
              · rw [hlk2, hcur2, hinsA, if_neg (fun h => hidx h.2), hl0]
                exact fun h => Option.noConfusion h
              · rw [hlk2, hcur2, hinsA, if_neg (fun h => hidx h.2)]
                exact hkern
            have hun := sys_page_unmap_eq (sys_page_map s2 0 PFTEMP 0 (fault_va - fault_va % PGSIZE)
                (PTE_P ||| PTE_U ||| PTE_W)).2 0 PFTEMP _ (envid2env_zero _ true)
                (by decide) (by decide)
            rw [hun] at hret
            simp only [] at hret
            rw [if_neg (by decide)] at hret
            have hs' := (Option.some.inj hret).symm
            rw [hcur3, hcur2] at hs'
            refine ⟨pp, hfl, hppne, ?_, by decide, ?_, ?_, ?_⟩
            · intro t
              rw [hs', sys_page_unmap_lookups, if_neg (fun h => hidx h.2), hins3, hcur2,
                if_pos ⟨rfl, rfl, rfl⟩]
            · intro o ho
              rw [hs', env_page_remove_data, env_page_remove_data, hdata3, hdata2,
                Function.update_same, if_pos ho, hdataA]
            · intro o
              rw [hs', env_page_remove_data, env_page_remove_data, hdata3, hdata2,
                Function.update_noteq (fun h => hppne h.symm), hdataA]
            · intro t
              rw [hs', sys_page_unmap_lookups, if_pos ⟨rfl, rfl, rfl⟩]
          · rw [if_pos h3] at hret; exact Option.noConfusion hret
      · rw [if_pos h1] at hret; exact Option.noConfusion hret

theorem free_chain_none_of_le (m : PhysMem) (k : Nat) (hk : free_chain m k = none) :
    ∀ n, k ≤ n → free_chain m n = none := by
  intro n hn
  induction n with
  | zero =>
    have : k = 0 := Nat.le_zero.1 hn
    rw [← this]; exact hk
  | succ n ih =>
    by_cases hkn : k = n + 1
    · rw [← hkn]; exact hk
    · have hle : k ≤ n := by omega
      show (match free_chain m n with | none => none | some f => m.pp_link f) = none
      rw [ih hle]

theorem not_onFreeList_of_short_chain (m : PhysMem) (f k : Nat) (hk : free_chain m k = none)
    (h : ∀ n, n < k → free_chain m n ≠ some f) : ¬ OnFreeList m f := by
  rintro ⟨n, hn⟩
  by_cases hlt : n < k
  · exact h n hlt hn
  · rw [free_chain_none_of_le m k hk n (not_lt.1 hlt)] at hn
    exact Option.noConfusion hn

/-- C19 fails as stated: slot 0 maps the scratch page `PFTEMP` itself
copy-on-write and takes a write fault inside it; the check passes, the three
system calls succeed and `pgfault` returns, but the page containing the faulting
address ends up unmapped in both tables instead of mapped to a fresh copy. -/
theorem pgfault_in_scratch_page_unmaps :
    7 &&& FEC_WR ≠ 0 ∧ uvpd cowTempState (PDX (PFTEMP + 4)) &&& PTE_P ≠ 0 ∧
    uvpt cowTempState (PGNUM (PFTEMP + 4)) &&& (PTE_P ||| PTE_COW) = (PTE_P ||| PTE_COW) ∧
    (pgfault cowTempState (PFTEMP + 4) 7).isSome = true ∧
    (pgfault cowTempState (PFTEMP + 4) 7).map
      (fun s' => env_page_lookup s' 0 Table.user (PFTEMP + 4)) = some none ∧
    (pgfault cowTempState (PFTEMP + 4) 7).map
      (fun s' => env_page_lookup s' 0 Table.kern (PFTEMP + 4)) = some none := by
  decide

/-- C19 (as amended) at a concrete fault: slot 0 writes to its copy-on-write
page at `0x801004`. -/
theorem pgfault_copies_page_witness :
    ∃ s', pgfault cowState 0x801004 7 = some s' ∧
      env_page_lookup cowState cowState.curenv Table.user 0x801000
        = some { frame := 101, perm := PTE_P ||| PTE_U ||| PTE_COW } ∧
      ∃ pp, cowState.mem.page_free_list = some pp ∧ pp ≠ 101 ∧
        (∀ t, env_page_lookup s' cowState.curenv t 0x801000
          = some { frame := pp, perm := PTE_P ||| PTE_U ||| PTE_W }) ∧
        (∀ o, o < PGSIZE → s'.mem.data pp o = cowState.mem.data 101 o) ∧
        (∀ o, s'.mem.data 101 o = cowState.mem.data 101 o) ∧
        (∀ t, env_page_lookup s' cowState.curenv t PFTEMP = none) := by
  have hsome : (pgfault cowState 0x801004 7).isSome = true := by decide
  have hret := (Option.some_get hsome).symm
  have hl0 : env_page_lookup cowState cowState.curenv Table.user (0x801004 - 0x801004 % PGSIZE)
      = some { frame := 101, perm := PTE_P ||| PTE_U ||| PTE_COW } := by decide
  have hfree : ¬ OnFreeList cowState.mem 101 :=
    not_onFreeList_of_short_chain cowState.mem 101 6 (by decide) (by decide)
  have htmp : ∀ t pte, env_page_lookup cowState cowState.curenv t PFTEMP = some pte →
      pte.frame ≠ 101 := by
    intro t pte h
    have hn : env_page_lookup cowState cowState.curenv t PFTEMP = none := by
      cases t <;> decide
    rw [hn] at h
    exact Option.noConfusion h
  obtain ⟨pp, h1, h2, h3, _, h5, h6, h7⟩ :=
    (pgfault_copies_page cowState 0x801004 7).2 _ { frame := 101, perm := PTE_P ||| PTE_U ||| PTE_COW }
      (by decide) (by decide) hl0 (by decide) hfree htmp hret
  exact ⟨_, hret, hl0, pp, h1, h2, h3, h5, h6, h7⟩

/-! ## `fork` -/

theorem lor_land_self (x m : Nat) : (x ||| m) &&& m = m := by
  rw [land_eq_mask_iff]
  intro i hi
  rw [Nat.testBit_or, hi]
  simp

theorem sys_env_set_status_ok (s : State) (envid status c : Nat)
    (hc : envid2env s envid true = some c)
    (hs : status = ENV_RUNNABLE ∨ status = ENV_NOT_RUNNABLE) :
    sys_env_set_status s envid status =
      (0, s.setEnv c { (s.envs c) with env_status := status }) := by
  unfold sys_env_set_status
  rw [hc]
  simp only []
  rw [if_neg (not_not.2 hs)]

/-- C21: `sys_exofork`, for an allocator call that yields the code `r`, the slot
`child` and the state `s1`.  When `r` is negative the call returns `r` and the
state is the one the allocator left: the call itself modifies no environment.
Otherwise the call returns the new environment's identifier; the new
environment has status `ENV_NOT_RUNNABLE` and, as saved trap frame, the
caller's saved trap frame with `eax` replaced by 0 (every other register equal);
its other fields are as the allocator left them; every other slot, the running
slot and memory are untouched, so the caller's own record is unchanged (the new
slot is not the caller's). -/
theorem sys_exofork_contract (env_alloc : State → Nat → Int × Nat × State) (s s1 : State)
    (r : Int) (child : Nat)
    (ha : env_alloc s (s.envs s.curenv).env_id = (r, child, s1)) :
    (r < 0 → sys_exofork env_alloc s = (r, s1)) ∧
    (¬ r < 0 →
      (sys_exofork env_alloc s).1 = ((s1.envs child).env_id : Int) ∧
      ((sys_exofork env_alloc s).2.envs child).env_id = (s1.envs child).env_id ∧
      ((sys_exofork env_alloc s).2.envs child).env_status = ENV_NOT_RUNNABLE ∧
      ((sys_exofork env_alloc s).2.envs child).env_tf.tf_regs.reg_eax = 0 ∧
      ((sys_exofork env_alloc s).2.envs child).env_tf =
        { (s1.envs s1.curenv).env_tf with
          tf_regs := { (s1.envs s1.curenv).env_tf.tf_regs with reg_eax := 0 } } ∧
      (sys_exofork env_alloc s).2.envs child =
        { (s1.envs child) with
          env_status := ENV_NOT_RUNNABLE
          env_tf := ((sys_exofork env_alloc s).2.envs child).env_tf } ∧
      (∀ i, i ≠ child → (sys_exofork env_alloc s).2.envs i = s1.envs i) ∧
      (sys_exofork env_alloc s).2.curenv = s1.curenv ∧
      (sys_exofork env_alloc s).2.mem = s1.mem ∧
      (child ≠ s1.curenv →
        (sys_exofork env_alloc s).2.envs (sys_exofork env_alloc s).2.curenv
          = s1.envs s1.curenv)) := by
  have hdef : sys_exofork env_alloc s =
      if r < 0 then (r, s1)
      else
        (((s1.envs child).env_id : Int),
          s1.setEnv child
            { (s1.envs child) with
              env_status := ENV_NOT_RUNNABLE
              env_tf := { (s1.envs s1.curenv).env_tf with
                tf_regs := { (s1.envs s1.curenv).env_tf.tf_regs with reg_eax := 0 } } }) := by
    unfold sys_exofork
    rw [ha]
  constructor
  · intro h
    rw [hdef, if_pos h]
  · intro h
    rw [hdef, if_neg h]
    have hsame : ∀ (v : Env), (s1.setEnv child v).envs child = v := by
      intro v
      unfold State.setEnv
      simp only [Function.update_same]
    have hother : ∀ (v : Env) (i : Nat), i ≠ child → (s1.setEnv child v).envs i = s1.envs i := by
      intro v i hi
      unfold State.setEnv
      simp only [Function.update_noteq hi]
    refine ⟨rfl, ?_, ?_, ?_, ?_, ?_, ?_, rfl, rfl, ?_⟩
    · simp only [hsame]
    · simp only [hsame]
    · simp only [hsame]
    · simp only [hsame]
    · simp only [hsame]
    · intro i hi
      exact hother _ i hi
    · intro hne
      exact hother _ s1.curenv (fun h => hne h.symm)

/-- C21 on the sample state: slot 0 (`0x1000`), saved with `eax = 7`, calls
`sys_exofork`; the sample allocator hands out slot 3.  A second call finds the
slot taken and fails with `-E_NO_FREE_ENV`. -/
theorem sys_exofork_contract_witness :
    (sys_exofork demo_env_alloc callState).1 = 0x1003 ∧
    ((sys_exofork demo_env_alloc callState).2.envs 3).env_status = ENV_NOT_RUNNABLE ∧
    ((sys_exofork demo_env_alloc callState).2.envs 3).env_tf.tf_regs.reg_eax = 0 ∧
    ((sys_exofork demo_env_alloc callState).2.envs 3).env_tf =
      { (callState.envs 0).env_tf with
        tf_regs := { (callState.envs 0).env_tf.tf_regs with reg_eax := 0 } } ∧
    (callState.envs 0).env_tf.tf_regs.reg_eax = 7 ∧
    (∀ i, i ≠ 3 → (sys_exofork demo_env_alloc callState).2.envs i
      = (demo_env_alloc callState 0x1000).2.2.envs i) ∧
    sys_exofork demo_env_alloc (sys_exofork demo_env_alloc callState).2
      = (-E_NO_FREE_ENV, (sys_exofork demo_env_alloc callState).2) := by
  have h := (sys_exofork_contract demo_env_alloc callState
    (demo_env_alloc callState 0x1000).2.2 0 3 rfl).2 (by decide)
  have h2 := (sys_exofork_contract demo_env_alloc (sys_exofork demo_env_alloc callState).2
    (sys_exofork demo_env_alloc callState).2 (-E_NO_FREE_ENV) 0 rfl).1 (by decide)
  exact ⟨by decide, h.2.2.1, h.2.2.2.1, by decide, by decide, h.2.2.2.2.2.2.1, h2⟩

/-! ## `sys_env_set_status` -/

/-- C22: `sys_env_set_status` returns `-E_BAD_ENV` when the ownership-enforcing
lookup of `envid` fails; otherwise `-E_INVAL` when `status` is neither
`ENV_RUNNABLE` nor `ENV_NOT_RUNNABLE`; on either error the whole state is
unchanged.  Otherwise it returns 0, the target's `env_status` is `status`, and
nothing else changes: the target's record differs in that field only, every
other record, the running slot and memory are as before. -/
theorem sys_env_set_status_contract (s : State) (envid status : Nat) :
    (envid2env s envid true = none → sys_env_set_status s envid status = (-E_BAD_ENV, s)) ∧
    (∀ e, envid2env s envid true = some e →
      (¬ (status = ENV_RUNNABLE ∨ status = ENV_NOT_RUNNABLE) →
        sys_env_set_status s envid status = (-E_INVAL, s)) ∧
      (status = ENV_RUNNABLE ∨ status = ENV_NOT_RUNNABLE →
        (sys_env_set_status s envid status).1 = 0 ∧
        ((sys_env_set_status s envid status).2.envs e).env_status = status ∧
        (sys_env_set_status s envid status).2.envs e
          = { (s.envs e) with env_status := status } ∧
        (∀ i, i ≠ e → (sys_env_set_status s envid status).2.envs i = s.envs i) ∧
        (sys_env_set_status s envid status).2.curenv = s.curenv ∧
        (sys_env_set_status s envid status).2.mem = s.mem)) := by
  constructor
  · intro h
    unfold sys_env_set_status
    rw [h]
  · intro e he
    constructor
    · intro hs
      unfold sys_env_set_status
      rw [he]
      simp only []
      rw [if_pos hs]
    · intro hs
      rw [sys_env_set_status_ok s envid status e he hs]
      refine ⟨rfl, ?_, ?_, ?_, rfl, rfl⟩
      · unfold State.setEnv
        simp only [Function.update_same]
      · unfold State.setEnv
        simp only [Function.update_same]
      · intro i hi
        unfold State.setEnv
        simp only [Function.update_noteq hi]

/-- C22 on the sample state: slot 0 stops its child `0x1001`; the status 3
(`ENV_RUNNING`) is refused, and so is the stranger `0x1002`. -/
theorem sys_env_set_status_contract_witness :
    envid2env demoState 0x1001 true = some 1 ∧
    (sys_env_set_status demoState 0x1001 ENV_NOT_RUNNABLE).1 = 0 ∧
    ((sys_env_set_status demoState 0x1001 ENV_NOT_RUNNABLE).2.envs 1).env_status
      = ENV_NOT_RUNNABLE ∧
    (∀ i, i ≠ 1 → (sys_env_set_status demoState 0x1001 ENV_NOT_RUNNABLE).2.envs i
      = demoState.envs i) ∧
    sys_env_set_status demoState 0x1001 ENV_RUNNING = (-E_INVAL, demoState) ∧
    sys_env_set_status demoState 0x1002 ENV_RUNNABLE = (-E_BAD_ENV, demoState) := by
  have h1 : envid2env demoState 0x1001 true = some 1 := by decide
  have h := ((sys_env_set_status_contract demoState 0x1001 ENV_NOT_RUNNABLE).2 1 h1).2
    (Or.inr rfl)
  have hi := ((sys_env_set_status_contract demoState 0x1001 ENV_RUNNING).2 1 h1).1 (by decide)
  have hb := (sys_env_set_status_contract demoState 0x1002 ENV_RUNNABLE).1 (by decide)
  exact ⟨h1, h.1, h.2.1, h.2.2.2.1, hi, hb⟩

/-! ## `sys_env_set_trapframe` -/

theorem lor_land_of_disjoint (x m k : Nat) (h : m &&& k = 0) : (x ||| m) &&& k = x &&& k := by
  apply Nat.eq_of_testBit_eq
  intro i
  have hb : (m &&& k).testBit i = false := by rw [h]; exact Nat.zero_testBit i
  rw [Nat.testBit_and] at hb
  rw [Nat.testBit_and, Nat.testBit_and, Nat.testBit_or]
  cases hx : x.testBit i <;> cases hm : m.testBit i <;> cases hk : k.testBit i <;>
    simp [hm, hk] at hb ⊢

/-- What `sys_env_set_trapframe` does guarantee when it returns 0: privilege
level 3 in `tf_cs` and `FL_IF` in `tf_eflags`; the I/O privilege bits of
`tf_eflags` are the ones the caller supplied. -/
theorem sys_env_set_trapframe_bits (s s' : State) (envid e : Nat) (t : Trapframe)
    (he : envid2env s envid true = some e)
    (h : sys_env_set_trapframe s envid (some t) = some (0, s')) :
    (s'.envs e).env_tf.tf_cs &&& 3 = 3 ∧
    (s'.envs e).env_tf.tf_eflags &&& FL_IF = FL_IF ∧
    (s'.envs e).env_tf.tf_eflags &&& FL_IOPL_MASK = t.tf_eflags &&& FL_IOPL_MASK := by
  unfold sys_env_set_trapframe at h
  rw [he] at h
  simp only [] at h
  have hs := congrArg Prod.snd (Option.some.inj h)
  simp only [] at hs
  rw [← hs]
  unfold State.setEnv
  simp only [Function.update_same]
  exact ⟨lor_land_self _ _, lor_land_self _ _, lor_land_of_disjoint _ _ _ (by decide)⟩

/-- C23 fails on the code: slot 0 installs, for its child `0x1001`, a trap frame
whose `tf_eflags` asks for I/O privilege level 3.  The call returns 0; the saved
frame has privilege level 3 in `tf_cs` and `FL_IF` set, but both I/O privilege
bits are still set: nothing clears them. -/
theorem sys_env_set_trapframe_keeps_iopl :
    (sys_env_set_trapframe demoState 0x1001 (some ringZeroTf)).map Prod.fst = some 0 ∧
    (sys_env_set_trapframe demoState 0x1001 (some ringZeroTf)).map
      (fun r => (r.2.envs 1).env_tf.tf_cs &&& 3) = some 3 ∧
    (sys_env_set_trapframe demoState 0x1001 (some ringZeroTf)).map
      (fun r => (r.2.envs 1).env_tf.tf_eflags &&& FL_IF) = some FL_IF ∧
    (sys_env_set_trapframe demoState 0x1001 (some ringZeroTf)).map
      (fun r => (r.2.envs 1).env_tf.tf_eflags &&& FL_IOPL_MASK) = some FL_IOPL_MASK ∧
    FL_IOPL_MASK ≠ 0 := by
  decide

/-! ## `duppage` on a read-only page -/

/-- C24 (as amended): for a page number `pn` whose entry in the caller has none
of `PTE_SHARE`, `PTE_W` and `PTE_COW`, once `duppage(child, pn)` has returned,
both tables of the child map `pn * PGSIZE` to the caller's frame with exactly
`PTE_P|PTE_U`; every mapping of the caller is unchanged; and the child's entry
equals the caller's when the caller's permission set is `PTE_P|PTE_U`. -/
theorem duppage_read_only (s s' : State) (envid pn c : Nat)
    (hpn : pn < 2 ^ 20)
    (hsh : uvpt s pn &&& PTE_SHARE = 0) (hw : uvpt s pn &&& (PTE_W ||| PTE_COW) = 0)
    (hc : envid2env s envid true = some c) (hne : c ≠ s.curenv)
    (hret : duppage s envid pn = some s') :
    ∃ pte0, env_page_lookup s s.curenv Table.user (pn * PGSIZE) = some pte0 ∧
      uvpt s pn = pte0.perm ||| PTE_P ∧
      (∀ t, env_page_lookup s' c t (pn * PGSIZE)
        = some { frame := pte0.frame, perm := PTE_P ||| PTE_U }) ∧
      (∀ t va, env_page_lookup s' s.curenv t va = env_page_lookup s s.curenv t va) ∧
      (pte0.perm = PTE_P ||| PTE_U →
        ∀ t, env_page_lookup s' c t (pn * PGSIZE) = some pte0) := by
  unfold duppage at hret
  rw [if_neg (fun h => h hsh), if_neg (fun h => h hw), page_addr_small pn hpn] at hret
  simp only [] at hret
  by_cases h1 : (sys_page_map s 0 (pn * PGSIZE) envid (pn * PGSIZE) (PTE_P ||| PTE_U)).1 < 0
  · rw [if_pos h1] at hret; exact Option.noConfusion hret
  · rw [if_neg h1] at hret
    have h10 := (sys_page_map_result_sign s 0 (pn * PGSIZE) envid (pn * PGSIZE)
      (PTE_P ||| PTE_U)).resolve_right h1
    have hs' := Option.some.inj hret
    obtain ⟨pte0, hl0, _, _, hins⟩ :=
      sys_page_map_self_to s envid (pn * PGSIZE) (PTE_P ||| PTE_U) c hc h10
    have hchild : ∀ t, env_page_lookup s' c t (pn * PGSIZE)
        = some { frame := pte0.frame, perm := PTE_P ||| PTE_U } := by
      intro t
      rw [← hs', hins, if_pos ⟨rfl, rfl, rfl⟩]
    refine ⟨pte0, hl0, uvpt_of_lookup s pn pte0 hl0, hchild, ?_, ?_⟩
    · intro t va
      rw [← hs', hins, if_neg (fun h => hne h.1.symm)]
    · intro hp t
      rw [hchild t, ← hp]

/-- C24 fails as stated: slot 0 maps `0x800000` read-only with the available
bit `0x200` (no `PTE_SHARE`, `PTE_W` or `PTE_COW`; all its bits lie within
`PTE_SYSCALL`); after `duppage` the child maps the same frame with
`PTE_P|PTE_U` only, not with the caller's permission set. -/
theorem duppage_read_only_drops_avail_bit :
    env_page_lookup availState 0 Table.user 0x800000 = some { frame := 100, perm := 0x205 } ∧
    uvpt availState 0x800 &&& PTE_SHARE = 0 ∧
    uvpt availState 0x800 &&& (PTE_W ||| PTE_COW) = 0 ∧
    0x205 &&& PTE_SYSCALL = 0x205 ∧
    (duppage availState 0x1001 0x800).map
      (fun s' => env_page_lookup s' 1 Table.user 0x800000)
        = some (some { frame := 100, perm := 0x005 }) ∧
    (duppage availState 0x1001 0x800).map
      (fun s' => env_page_lookup s' 1 Table.kern 0x800000)
        = some (some { frame := 100, perm := 0x005 }) := by
  decide

/-- C24 (as amended) at a concrete call: slot 0 duplicates its read-only page
`0x800` into its child `0x1001`. -/
theorem duppage_read_only_witness :
    ∃ s', duppage demoState 0x1001 0x800 = some s' ∧
      env_page_lookup demoState demoState.curenv Table.user 0x800000
        = some { frame := 100, perm := PTE_P ||| PTE_U } ∧
      (∀ t, env_page_lookup s' 1 t 0x800000 = some { frame := 100, perm := PTE_P ||| PTE_U }) ∧
      (∀ t va, env_page_lookup s' 0 t va = env_page_lookup demoState 0 t va) := by
  have hsome : (duppage demoState 0x1001 0x800).isSome = true := by decide
  have hret := (Option.some_get hsome).symm
  obtain ⟨pte0, hl, _, hchild, hself, _⟩ := duppage_read_only demoState _ 0x1001 0x800 1
    (by decide) (by decide) (by decide) (by decide) (by decide) hret
  have hl' : env_page_lookup demoState demoState.curenv Table.user 0x800000
      = some { frame := 100, perm := PTE_P ||| PTE_U } := by decide
  have hp : pte0 = { frame := 100, perm := PTE_P ||| PTE_U } := by
    have h2 : env_page_lookup demoState demoState.curenv Table.user (0x800 * PGSIZE)
        = some pte0 := hl
    rw [show (0x800 * PGSIZE : Nat) = 0x800000 from by decide, hl'] at h2
    exact (Option.some.inj h2).symm
  subst hp
  refine ⟨_, hret, hl', ?_, hself⟩
  intro t
  have h := hchild t
  rw [show (0x800 * PGSIZE : Nat) = 0x800000 from by decide] at h
  exact h

/-! ## `e1000_rx` -/

/-- The part of C25 that holds: when the next receive descriptor has its DD bit
clear or a non-zero error field, `e1000_rx` returns `-E_AGAIN` and changes
neither the buffer, the descriptors nor `RDT`. -/
theorem e1000_rx_again (d : E1000) (b : Nat → Nat) (len : Nat)
    (h : (d.rx_descs ((d.RDT + 1) % N_RXDESC)).status &&& E1000_RX_STATUS_DD = 0
      ∨ (d.rx_descs ((d.RDT + 1) % N_RXDESC)).error ≠ 0) :
    e1000_rx d (some b) len = (-E_AGAIN, d, some b) := by
  unfold e1000_rx
  simp only []
  by_cases h1 : (d.rx_descs ((d.RDT + 1) % N_RXDESC)).status &&& E1000_RX_STATUS_DD = 0
  · rw [if_pos h1]
  · rw [if_neg h1, if_pos (h.resolve_left h1)]

/-- What `e1000_rx` does with a ready descriptor: it copies `length` bytes,
whatever `len` is, and returns `length`. -/
theorem e1000_rx_ready (d : E1000) (b : Nat → Nat) (len : Nat)
    (h1 : (d.rx_descs ((d.RDT + 1) % N_RXDESC)).status &&& E1000_RX_STATUS_DD ≠ 0)
    (h2 : (d.rx_descs ((d.RDT + 1) % N_RXDESC)).error = 0) :
    (e1000_rx d (some b) len).1 = ((d.rx_descs ((d.RDT + 1) % N_RXDESC)).length : Int) ∧
    (e1000_rx d (some b) len).2.2
      = some (memcpy b (d.rx_bufs ((d.RDT + 1) % N_RXDESC))
          (d.rx_descs ((d.RDT + 1) % N_RXDESC)).length) := by
  unfold e1000_rx
  simp only []
  rw [if_neg h1, if_neg (not_not.2 h2)]
  exact ⟨rfl, rfl⟩

/-- C25 fails on the code: with a 60-byte packet ready in the next receive
descriptor (DD set, no error), `e1000_rx(buf, 0)` with a non-null `buf` returns
60, which exceeds `len = 0`, and has overwritten the first 60 bytes at `buf`;
`len` is never compared with the packet length. -/
theorem e1000_rx_ignores_len :
    (demoCard.rx_descs ((demoCard.RDT + 1) % N_RXDESC)).status &&& E1000_RX_STATUS_DD ≠ 0 ∧
    (demoCard.rx_descs ((demoCard.RDT + 1) % N_RXDESC)).error = 0 ∧
    (e1000_rx demoCard (some demoBuf) 0).1 = 60 ∧
    ¬ ((e1000_rx demoCard (some demoBuf) 0).1 ≤ 0) ∧
    (demoBuf 0, demoBuf 59, demoBuf 60) = (1, 60, 61) ∧
    (e1000_rx demoCard (some demoBuf) 0).2.2.map (fun b => (b 0, b 59, b 60))
      = some (0xab, 0xab, 61) := by
  decide

/-! ## `e1000_tx` -/

/-- C26: `e1000_tx` with the tail register `TDT < N_TXDESC`.  It returns
`-E_INVAL` and changes nothing when `buf` is null or `len > E1000_PKTSIZE`;
otherwise `-E_AGAIN` and changes nothing when the descriptor at `TDT` lacks the
DD bit; otherwise it returns 0, that descriptor's length is `len` and its DD bit
is clear, the first `len` bytes of its buffer are those of `buf` and the later
bytes are untouched, the other descriptors and buffers are untouched, and `TDT`
is `(TDT + 1) mod N_TXDESC`.  In every case `TDT < N_TXDESC` afterwards. -/
theorem e1000_tx_contract (d : E1000) (buf : Option (Nat → Nat)) (len : Nat)
    (hT : d.TDT < N_TXDESC) :
    ((buf = none ∨ len > E1000_PKTSIZE) → e1000_tx d buf len = (-E_INVAL, d)) ∧
    (∀ b, buf = some b → len ≤ E1000_PKTSIZE →
      ((d.tx_descs d.TDT).status &&& E1000_TX_STATUS_DD = 0 →
        e1000_tx d buf len = (-E_AGAIN, d)) ∧
      ((d.tx_descs d.TDT).status &&& E1000_TX_STATUS_DD ≠ 0 →
        (e1000_tx d buf len).1 = 0 ∧
        ((e1000_tx d buf len).2.tx_descs d.TDT).length = len ∧
        ((e1000_tx d buf len).2.tx_descs d.TDT).status &&& E1000_TX_STATUS_DD = 0 ∧
        (∀ i, i < len → (e1000_tx d buf len).2.tx_bufs d.TDT i = b i) ∧
        (∀ i, len ≤ i → (e1000_tx d buf len).2.tx_bufs d.TDT i = d.tx_bufs d.TDT i) ∧
        (∀ j, j ≠ d.TDT → (e1000_tx d buf len).2.tx_descs j = d.tx_descs j
          ∧ (e1000_tx d buf len).2.tx_bufs j = d.tx_bufs j) ∧
        (e1000_tx d buf len).2.TDT = (d.TDT + 1) % N_TXDESC)) ∧
    (e1000_tx d buf len).2.TDT < N_TXDESC := by
  have hN : 0 < N_TXDESC := by decide
  refine ⟨?_, ?_, ?_⟩
  · intro h
    unfold e1000_tx
    cases buf with
    | none => rfl
    | some b =>
      simp only []
      rcases h with h | h
      · exact Option.noConfusion h
      · rw [if_pos h]
  · intro b hb hlen
    subst hb
    have hle : ¬ len > E1000_PKTSIZE := not_lt.2 hlen
    constructor
    · intro hdd
      unfold e1000_tx
      simp only []
      rw [if_neg hle, if_pos hdd]
    · intro hdd
      have hr : e1000_tx d (some b) len =
          (0, { d with
            tx_descs := Function.update d.tx_descs d.TDT
              { (d.tx_descs d.TDT) with
                length := len % 2 ^ 16
                status := (d.tx_descs d.TDT).status &&& (0xFF ^^^ E1000_TX_STATUS_DD)
                cmd := (d.tx_descs d.TDT).cmd ||| (E1000_TX_CMD_EOP ||| E1000_TX_CMD_RS) }
            tx_bufs := Function.update d.tx_bufs d.TDT (memcpy (d.tx_bufs d.TDT) b len)
            TDT := (d.TDT + 1) % N_TXDESC }) := by
        unfold e1000_tx
        simp only []
        rw [if_neg hle, if_neg hdd]
      rw [hr]
      refine ⟨rfl, ?_, ?_, ?_, ?_, ?_, rfl⟩
      · simp only [Function.update_same]
        apply Nat.mod_eq_of_lt
        unfold E1000_PKTSIZE at hlen
        omega
      · simp only [Function.update_same]
        rw [Nat.land_assoc,
          show (0xFF ^^^ E1000_TX_STATUS_DD) &&& E1000_TX_STATUS_DD = 0 from by decide]
        exact Nat.and_zero _
      · intro i hi
        simp only [Function.update_same]
        unfold memcpy
        simp only [if_pos hi]
      · intro i hi
        simp only [Function.update_same]
        unfold memcpy
        simp only [if_neg (not_lt.2 hi)]
      · intro j hj
        constructor
        · simp only [Function.update_noteq hj]
        · simp only [Function.update_noteq hj]
  · unfold e1000_tx
    cases buf with
    | none => exact hT
    | some b =>
      simp only []
      by_cases hle : len > E1000_PKTSIZE
      · rw [if_pos hle]; exact hT
      · rw [if_neg hle]
        by_cases hdd : (d.tx_descs d.TDT).status &&& E1000_TX_STATUS_DD = 0
        · rw [if_pos hdd]; exact hT
        · rw [if_neg hdd]
          exact Nat.mod_lt _ hN

/-- C26 on the sample card: a 3-byte packet is queued in descriptor 0 and the
tail moves to 1; a null buffer and an oversized packet are refused. -/
theorem e1000_tx_contract_witness :
    demoCard.TDT < N_TXDESC ∧
    (e1000_tx demoCard (some demoBuf) 3).1 = 0 ∧
    ((e1000_tx demoCard (some demoBuf) 3).2.tx_descs 0).length = 3 ∧
    ((e1000_tx demoCard (some demoBuf) 3).2.tx_descs 0).status &&& E1000_TX_STATUS_DD = 0 ∧
    (∀ i, i < 3 → (e1000_tx demoCard (some demoBuf) 3).2.tx_bufs 0 i = demoBuf i) ∧
    (e1000_tx demoCard (some demoBuf) 3).2.TDT = 1 ∧
    e1000_tx demoCard none 3 = (-E_INVAL, demoCard) ∧
    e1000_tx demoCard (some demoBuf) 2049 = (-E_INVAL, demoCard) ∧
    (e1000_tx (e1000_tx demoCard (some demoBuf) 3).2 (some demoBuf) 3).2.TDT < N_TXDESC := by
  have hT : demoCard.TDT < N_TXDESC := by decide
  have h := ((e1000_tx_contract demoCard (some demoBuf) 3 hT).2.1 demoBuf rfl (by decide)).2
    (by decide)
  have hn := (e1000_tx_contract demoCard none 3 hT).1 (Or.inl rfl)
  have hb := (e1000_tx_contract demoCard (some demoBuf) 2049 hT).1 (Or.inr (by decide))
  have hT2 := (e1000_tx_contract demoCard (some demoBuf) 3 hT).2.2
  have h3 := (e1000_tx_contract (e1000_tx demoCard (some demoBuf) 3).2 (some demoBuf) 3 hT2).2.2
  exact ⟨hT, h.1, h.2.1, h.2.2.1, h.2.2.2.1, h.2.2.2.2.2.2, hn, hb, h3⟩

end JOS
